import Mathlib

/-!
A shallow embedding of the samples of "macOS tips, part 2".

Sources embedded here: `types.h`, `rdr_wrtr.h`, `synched_data.h`,
`notif_reboot_shutdown.h`, `notif_sleep_wake.h`, `wake_timer.h`,
`CFString_conv.h`, and of `main.cpp` the notification callback, the decoder
of port names and the entry point.

Conventions of the embedding.

* A `const char*` that may be null is an `Option CStr`; a `CStr` is the list of
  bytes the pointer designates, and every byte read past the end of the list is
  the terminating NUL.  A zero byte inside the list terminates the text as it
  does in C.
* Raw pointers and OS handles are natural numbers, `0` being the null value.
* A member function is a function of the object's state that returns the
  value, the state afterwards and the ordered list of `Event`s it caused: the
  calls into the operating system and the assertions that failed.  An
  `assert` that fails is recorded and execution goes on, as in a build with
  `NDEBUG`; the trace tells whether a build with assertions would have stopped.
* The answers of the operating system are parameters (`NotifyOS`, `PowerOS`),
  so a theorem quantified over them holds for every behaviour of the OS.  For
  the wake timer the operating system is a state machine given as a parameter
  (`PowerManagement`): each service maps the state of the OS to its answer and
  the state afterwards, and `scheduleOS` is the instance whose state is the
  list of scheduled events.  The creation and release of CoreFoundation
  objects is not recorded in the trace; whether a creation succeeds is an
  answer of the OS.
* A call that cannot return (a lock that is not available, or the `abort()`
  after a failed lock primitive) is `none`.
* A `double` is the rational number it holds.  Each conversion to `double` and
  each operation of the source on doubles rounds its exact result with
  `roundToDouble` (IEEE 754 binary64, to nearest, ties to even); infinities
  and NaN are outside the model.  The libc `mktime` is a parameter.
* A non-null `CFStringRef` passed to `GetString_From_CFStringRef` is the record
  of what CoreFoundation and the allocator answer on it (`CFStringAnswers`); a
  `std::string` is the list of its bytes.
* The entry point `main` is a function of its surroundings (`MainEnv`: the
  answers of the OS to each adapter and the port names delivered while the run
  loop runs) that returns the globals afterwards, the flag `bRebooting` and the
  ordered trace of its operations on the adapters (`MainOp`).
-/

namespace MacOSTips

/-! ## types.h -/

/-- The enumeration `REBOOT_SHUTDOWN_STATE` of `types.h`. -/
inductive REBOOT_SHUTDOWN_STATE where
  | macOS_State_Default
  | macOS_State_Rebooting
  | macOS_State_Shutting_Down
  | macOS_State_Logging_Out
  deriving DecidableEq

/-- The enumeration `CURRENT_REBOOT_SHUTDOWN_STATE` of `types.h`. -/
inductive CURRENT_REBOOT_SHUTDOWN_STATE where
  | CRS_STATE_Unknown
  | CRS_STATE_ShutdownUIShown
  | CRS_STATE_RestartUIShown
  | CRS_STATE_LogoutUIShown
  | CRS_STATE_Cancelled
  | CRS_STATE_PointOfNoReturn
  deriving DecidableEq

open REBOOT_SHUTDOWN_STATE CURRENT_REBOOT_SHUTDOWN_STATE

/-! ## C strings and pointers -/

/-- The bytes a `const char*` designates; bytes past the end are NUL. -/
abbrev CStr := List Nat

/-- A raw pointer or an OS handle; `0` is the null value. -/
abbrev Ptr := Nat

/-- The bytes of an ASCII string literal. -/
def cstr (s : String) : CStr := s.toList.map Char.toNat

/-- The text of a C string: the bytes before the first NUL.  This is what
`std::string::operator=(const char*)` copies. -/
def strContents : CStr → List Nat
  | [] => []
  | c :: cs => if c = 0 then [] else c :: strContents cs

/-- The test `p && p[0]` on a nullable C string. -/
def hasText : Option CStr → Bool
  | none => false
  | some [] => false
  | some (c :: _) => c != 0

/-- The libc `tolower` in the C locale, on a byte. -/
def tolower (c : Nat) : Nat := if 65 ≤ c ∧ c ≤ 90 then c + 32 else c

/-- The libc `strcasecmp`: walks both strings while the lower-cased bytes agree,
returns 0 when the common byte is NUL and the difference of the lower-cased
bytes at the first disagreement. -/
def strcasecmp : CStr → CStr → Int
  | [], [] => 0
  | [], b :: _ => 0 - (tolower b : Int)
  | a :: _, [] => (tolower a : Int) - 0
  | a :: as, b :: bs =>
    if tolower a = tolower b then
      if a = 0 then 0 else strcasecmp as bs
    else (tolower a : Int) - (tolower b : Int)

/-- The type `CFAbsoluteTime`: seconds since 2001-01-01 00:00:00 UTC.  The
`double` of the source is the rational number it holds; the arithmetic of the
source on it goes through `roundToDouble`. -/
abbrev CFAbsoluteTime := ℚ

/-- The text of a `CFString`, as the bytes of its UTF-8 form. -/
abbrev CFStr := List Nat

/-! ## The type `double` -/

/-- The integer nearest to `y`; when `y` is halfway between two integers, the
even one. -/
def roundHalfEven (y : ℚ) : ℤ :=
  let f := ⌊y⌋
  let r := y - f
  if r < 1 / 2 then f
  else if 1 / 2 < r then f + 1
  else if f % 2 = 0 then f else f + 1

/-- The value of type `double` (IEEE 754 binary64) to which a real number is
rounded in the default rounding mode, to nearest with ties to even: 53
significant bits, the exponent of the leading bit not below -1022.  A number
of magnitude `2 ^ 1024` or more, which is rounded to an infinity, is outside
this model. -/
def roundToDouble (x : ℚ) : ℚ :=
  if x = 0 then 0
  else
    let e := max (Int.log 2 |x|) (-1022)
    let p := e - 52
    (roundHalfEven (x / 2 ^ p) : ℚ) * 2 ^ p

/-- The conversion of an integer to `double`. -/
def doubleOfInt (i : Int) : ℚ := roundToDouble i

/-- The sum of two values of type `double`. -/
def doubleAdd (a b : ℚ) : ℚ := roundToDouble (a + b)

/-- The difference of two values of type `double`. -/
def doubleSub (a b : ℚ) : ℚ := roundToDouble (a - b)

/-- The quotient of two values of type `double`, the divisor not zero. -/
def doubleDiv (a b : ℚ) : ℚ := roundToDouble (a / b)

/-! ## Events -/

/-- What a member function does that is visible outside the object: a failed
assertion (with the line of the `assert` in its source file) or a call into
the operating system (with the arguments that matter). -/
inductive Event where
  | assertFailed (line : Nat)
  | notify_register_mach_port (name : CStr) (port : Nat) (flags : Nat)
  | CFMachPortCreateWithPort (port : Nat)
  | CFMachPortCreateRunLoopSource (portRef : Ptr)
  | CFRunLoopAddSource (source : Ptr)
  | notify_cancel (token : Int)
  | CFRunLoopRemoveSource (source : Ptr)
  | CFRelease (obj : Ptr)
  | IORegisterForSystemPower
  | IONotificationPortGetRunLoopSource (ntfPort : Ptr)
  | IODeregisterForSystemPower (notifier : Nat)
  | IOServiceClose (kernelPort : Nat)
  | IONotificationPortDestroy (ntfPort : Ptr)
  | userCallback (pfn : Ptr) (header : Ptr) (pPortName : List Nat) (pParam1 pParam2 : Ptr)
  | sleepWakeCallback (pfn : Ptr) (msgType : Nat) (msgArgument : Ptr) (portSleepWake : Nat)
      (pParam1 pParam2 : Ptr)
  | IOPMCopyScheduledPowerEvents
  | IOPMCancelScheduledPowerEvent (date : Option CFAbsoluteTime) (id type : Option CFStr)
      (result : Int)
  | IOPMSchedulePowerEvent (date : CFAbsoluteTime) (id type : CFStr) (result : Int)
  deriving DecidableEq

/-- The outcome of a member function: returned value, object afterwards, and
the events in the order they happened. -/
structure Outcome (σ α : Type) where
  ret : α
  self : σ
  trace : List Event
  deriving DecidableEq

/-! ## rdr_wrtr.h -/

/-- The state of the `pthread_rwlock_t` inside `RDR_WRTR`: how many shared
holders there are and whether there is an exclusive holder. -/
structure RDR_WRTR where
  readers : Nat := 0
  writer : Bool := false
  deriving DecidableEq

/-- The `pthread_rwlock_rdlock` primitive: granted when no writer holds the lock. -/
def pthread_rwlock_rdlock (l : RDR_WRTR) : Option RDR_WRTR :=
  if l.writer = false then some { l with readers := l.readers + 1 } else none

/-- The `pthread_rwlock_wrlock` primitive: granted when nobody holds the lock. -/
def pthread_rwlock_wrlock (l : RDR_WRTR) : Option RDR_WRTR :=
  if l.writer = false ∧ l.readers = 0 then some { l with writer := true } else none

/-- The `pthread_rwlock_unlock` primitive: gives up the exclusive hold if there
is one, else one shared hold; fails on a lock nobody holds. -/
def pthread_rwlock_unlock (l : RDR_WRTR) : Option RDR_WRTR :=
  if l.writer = true then some { l with writer := false }
  else if 0 < l.readers then some { l with readers := l.readers - 1 }
  else none

/-- Member `RDR_WRTR::EnterReaderLock`. -/
def RDR_WRTR.EnterReaderLock (l : RDR_WRTR) : Option RDR_WRTR := pthread_rwlock_rdlock l

/-- Member `RDR_WRTR::LeaveReaderLock`. -/
def RDR_WRTR.LeaveReaderLock (l : RDR_WRTR) : Option RDR_WRTR := pthread_rwlock_unlock l

/-- Member `RDR_WRTR::EnterWriterLock`. -/
def RDR_WRTR.EnterWriterLock (l : RDR_WRTR) : Option RDR_WRTR := pthread_rwlock_wrlock l

/-- Member `RDR_WRTR::LeaveWriterLock`. -/
def RDR_WRTR.LeaveWriterLock (l : RDR_WRTR) : Option RDR_WRTR := pthread_rwlock_unlock l

/-- A lock that nobody holds. -/
def RDR_WRTR.isFree (l : RDR_WRTR) : Prop := l.readers = 0 ∧ l.writer = false

instance (l : RDR_WRTR) : Decidable l.isFree := by
  unfold RDR_WRTR.isFree; infer_instance

/-- A call of a member of `RDR_WRTR` made by a scoped guard. -/
inductive LockCall where
  | EnterReaderLock
  | LeaveReaderLock
  | EnterWriterLock
  | LeaveWriterLock
  deriving DecidableEq

/-- The constructor of `struct READER_LOCK`: the lock afterwards, which the
guard keeps a reference to, and the calls made on it. -/
def READER_LOCK.ctor (rwl : RDR_WRTR) : Option (RDR_WRTR × List LockCall) :=
  (rwl.EnterReaderLock).map (fun l => (l, [LockCall.EnterReaderLock]))

/-- The destructor of `struct READER_LOCK`. -/
def READER_LOCK.dtor (_rwl : RDR_WRTR) : Option (RDR_WRTR × List LockCall) :=
  (_rwl.LeaveReaderLock).map (fun l => (l, [LockCall.LeaveReaderLock]))

/-- The constructor of `struct WRITER_LOCK`. -/
def WRITER_LOCK.ctor (rwl : RDR_WRTR) : Option (RDR_WRTR × List LockCall) :=
  (rwl.EnterWriterLock).map (fun l => (l, [LockCall.EnterWriterLock]))

/-- The destructor of `struct WRITER_LOCK`. -/
def WRITER_LOCK.dtor (_rwl : RDR_WRTR) : Option (RDR_WRTR × List LockCall) :=
  (_rwl.LeaveWriterLock).map (fun l => (l, [LockCall.LeaveWriterLock]))

/-- The constructor of `struct WRITER_LOCK_COND`; `none` is the null pointer. -/
def WRITER_LOCK_COND.ctor (p_rwl : Option RDR_WRTR) :
    Option (Option RDR_WRTR × List LockCall) :=
  match p_rwl with
  | some l => (l.EnterWriterLock).map (fun l => (some l, [LockCall.EnterWriterLock]))
  | none => some (none, [])

/-- The destructor of `struct WRITER_LOCK_COND`. -/
def WRITER_LOCK_COND.dtor (_p_rwl : Option RDR_WRTR) :
    Option (Option RDR_WRTR × List LockCall) :=
  match _p_rwl with
  | some l => (l.LeaveWriterLock).map (fun l => (some l, [LockCall.LeaveWriterLock]))
  | none => some (none, [])

/-! ## synched_data.h -/

/-- The template `SYNCHED_DATA<T>`: one value and its lock. -/
structure SYNCHED_DATA (T : Type) where
  _var : T
  _lock : RDR_WRTR := {}
  deriving DecidableEq

/-- The constructor `SYNCHED_DATA(T v)`. -/
def SYNCHED_DATA.ctor {T : Type} (v : T) : SYNCHED_DATA T := { _var := v }

/-- Member `SYNCHED_DATA::get`: returns what `*pV` holds afterwards; `pV` is the
old content of the destination, or `none` for a null pointer. -/
def SYNCHED_DATA.get {T : Type} (s : SYNCHED_DATA T) (pV : Option T) :
    Option (SYNCHED_DATA T × Option T) :=
  match pV with
  | some _ => do
    let l ← s._lock.EnterReaderLock
    let out := s._var
    let l ← l.LeaveReaderLock
    pure ({ s with _lock := l }, some out)
  | none => pure (s, none)

/-- Member `SYNCHED_DATA::set`: `pV` is the value pointed at, or `none` for a
null pointer. -/
def SYNCHED_DATA.set {T : Type} (s : SYNCHED_DATA T) (pV : Option T) :
    Option (SYNCHED_DATA T) :=
  match pV with
  | some v => do
    let l ← s._lock.EnterWriterLock
    let s := { s with _lock := l, _var := v }
    let l ← s._lock.LeaveWriterLock
    pure { s with _lock := l }
  | none => pure s

/-- Member `SYNCHED_DATA::getAndSet`: the holder afterwards and the returned
`prevVar`. -/
def SYNCHED_DATA.getAndSet {T : Type} (s : SYNCHED_DATA T) (pV : Option T) :
    Option (SYNCHED_DATA T × T) := do
  let l ← s._lock.EnterWriterLock
  let s := { s with _lock := l }
  let prevVar := s._var
  let s := match pV with
    | some v => { s with _var := v }
    | none => s
  let l ← s._lock.LeaveWriterLock
  pure ({ s with _lock := l }, prevVar)

/-- Member `SYNCHED_DATA::callFunc_ToSet`: `pfn` is the callback as the function
from the value it finds at `&_var` and its two parameters to the value it
leaves there. -/
def SYNCHED_DATA.callFunc_ToSet {T : Type} (s : SYNCHED_DATA T) (pfn : T → Ptr → Ptr → T)
    (pParam1 pParam2 : Ptr) : Option (SYNCHED_DATA T × T) := do
  let l ← s._lock.EnterWriterLock
  let s := { s with _lock := l }
  let s := { s with _var := pfn s._var pParam1 pParam2 }
  let r := s._var
  let l ← s._lock.LeaveWriterLock
  pure ({ s with _lock := l }, r)

/-! ## notif_reboot_shutdown.h: the channel names -/

/-- The channel of the shut-down warning. -/
def kLWShutdownInitiated : CStr := cstr "com.apple.system.loginwindow.shutdownInitiated"

/-- The channel of the restart warning. -/
def kLWRestartInitiated : CStr := cstr "com.apple.system.loginwindow.restartinitiated"

/-- The channel of the log-out warning. -/
def kLWLogoutInitiated : CStr := cstr "com.apple.system.loginwindow.logoutInitiated"

/-- The channel telling that a shown warning was cancelled. -/
def kLWLogoutCancelled : CStr := cstr "com.apple.system.loginwindow.logoutcancelled"

/-- The channel telling that the operation can no longer be cancelled. -/
def kLWPointOfNoReturn : CStr := cstr "com.apple.system.loginwindow.logoutNoReturn"

/-! ## notif_reboot_shutdown.h: the adapter -/

/-- The constant `MACH_PORT_NULL` of `<mach/port.h>`. -/
def MACH_PORT_NULL : Nat := 0

/-- The constant `NOTIFY_STATUS_OK` of `<notify.h>`. -/
def NOTIFY_STATUS_OK : Nat := 0

/-- The constant `NOTIFY_STATUS_SERVER_NOT_FOUND` of `<notify.h>`. -/
def NOTIFY_STATUS_SERVER_NOT_FOUND : Nat := 9

/-- The constant `NOTIFY_REUSE` of `<notify.h>`. -/
def NOTIFY_REUSE : Nat := 1

/-- The data members of `struct Notif_RebootShutdown`, with their in-class
initialisers. -/
structure Notif_RebootShutdown where
  _lock : RDR_WRTR := {}
  _bCallbackSet : Bool := false
  _strPortName : List Nat := []
  _nShutdownNtf : Int := 0
  _shutDownMachPort : Nat := MACH_PORT_NULL
  _shutDownMachPortRef : Ptr := 0
  _shutdownRunLoopRef : Ptr := 0
  _pfnCallback : Ptr := 0
  _pParam1 : Ptr := 0
  _pParam2 : Ptr := 0
  deriving DecidableEq

/-- What the operating system answers to the calls of `Notif_RebootShutdown`. -/
structure NotifyOS where
  /-- Return value of `notify_register_mach_port`. -/
  registerStatus : Nat
  /-- Content of `_shutDownMachPort` after `notify_register_mach_port`. -/
  registerPort : Nat
  /-- Content of `_nShutdownNtf` after `notify_register_mach_port`. -/
  registerToken : Int
  /-- Return value of `CFMachPortCreateWithPort`. -/
  machPortRef : Ptr
  /-- Content of `bShouldFree` after `CFMachPortCreateWithPort`. -/
  bShouldFree : Bool
  /-- Return value of `CFMachPortCreateRunLoopSource`. -/
  runLoopSource : Ptr
  /-- Return value of `notify_cancel`. -/
  cancelStatus : Nat
  deriving DecidableEq

/-- The part of `init_Notifications` inside the scope of `WRITER_LOCK wrl(_lock)`. -/
def Notif_RebootShutdown.init_locked (a : Notif_RebootShutdown) (os : NotifyOS)
    (pPortName : CStr) (pfn pParam1 pParam2 : Ptr) : Outcome Notif_RebootShutdown Bool :=
  if a._bCallbackSet = false then
    let a := { a with _pfnCallback := pfn, _pParam1 := pParam1, _pParam2 := pParam2 }
    let ev1 := [Event.notify_register_mach_port pPortName a._shutDownMachPort
                  (if a._shutDownMachPort = MACH_PORT_NULL then 0 else NOTIFY_REUSE)]
    let a := { a with _shutDownMachPort := os.registerPort, _nShutdownNtf := os.registerToken }
    if os.registerStatus = NOTIFY_STATUS_OK then
      let a := { a with _strPortName := strContents pPortName }
      let ev2 := [Event.CFMachPortCreateWithPort a._shutDownMachPort]
      let a := { a with _shutDownMachPortRef := os.machPortRef }
      let r : Outcome Notif_RebootShutdown Bool :=
        if a._shutDownMachPortRef ≠ 0 then
          let ev := [Event.CFMachPortCreateRunLoopSource a._shutDownMachPortRef]
          let a := { a with _shutdownRunLoopRef := os.runLoopSource }
          if a._shutdownRunLoopRef ≠ 0 then
            ⟨true, { a with _bCallbackSet := true },
              ev ++ [Event.CFRunLoopAddSource a._shutdownRunLoopRef]⟩
          else ⟨false, a, ev ++ [Event.assertFailed 145]⟩
        else ⟨false, a, [Event.assertFailed 151]⟩
      let ev4 := if os.bShouldFree = true then [Event.assertFailed 155] else []
      let a := if r.ret = false then { r.self with _strPortName := [] } else r.self
      ⟨r.ret, a, ev1 ++ ev2 ++ r.trace ++ ev4⟩
    else ⟨false, a, ev1 ++ [Event.assertFailed 166]⟩
  else ⟨false, a, [Event.assertFailed 172]⟩

/-- Member `Notif_RebootShutdown::init_Notifications`. -/
def Notif_RebootShutdown.init_Notifications (a : Notif_RebootShutdown) (os : NotifyOS)
    (pPortName : Option CStr) (pfn pParam1 pParam2 : Ptr) :
    Option (Outcome Notif_RebootShutdown Bool) :=
  match pPortName with
  | some name =>
    if hasText (some name) = true then do
      let l ← a._lock.EnterWriterLock
      let r := Notif_RebootShutdown.init_locked { a with _lock := l } os name pfn pParam1 pParam2
      let l ← r.self._lock.LeaveWriterLock
      pure ⟨r.ret, { r.self with _lock := l }, r.trace⟩
    else pure ⟨false, a, [Event.assertFailed 178]⟩
  | none => pure ⟨false, a, [Event.assertFailed 178]⟩

/-- Member `Notif_RebootShutdown::is_ReceivingNotifications`. -/
def Notif_RebootShutdown.is_ReceivingNotifications (a : Notif_RebootShutdown) :
    Option (Outcome Notif_RebootShutdown Bool) := do
  let l ← a._lock.EnterReaderLock
  let r := a._bCallbackSet
  let l ← l.LeaveReaderLock
  pure ⟨r, { a with _lock := l }, []⟩

/-- Member `Notif_RebootShutdown::getPortName`; the returned pointer is
represented by the text it designates. -/
def Notif_RebootShutdown.getPortName (a : Notif_RebootShutdown) :
    Option (Outcome Notif_RebootShutdown (List Nat)) := do
  let l ← a._lock.EnterReaderLock
  let r := a._strPortName
  let l ← l.LeaveReaderLock
  pure ⟨r, { a with _lock := l }, []⟩

/-- The part of `remove_Notifications` inside the scope of `WRITER_LOCK wrl(_lock)`. -/
def Notif_RebootShutdown.remove_locked (a : Notif_RebootShutdown) (os : NotifyOS)
    (bRebooting : Bool) : Outcome Notif_RebootShutdown Bool :=
  if a._bCallbackSet = true then
    let r1 : Outcome Notif_RebootShutdown Bool :=
      if a._nShutdownNtf ≠ 0 then
        let resCancel := os.cancelStatus
        let ev := [Event.notify_cancel a._nShutdownNtf]
        let a := { a with _nShutdownNtf := 0 }
        if resCancel ≠ NOTIFY_STATUS_OK then
          if bRebooting = true ∧ resCancel = NOTIFY_STATUS_SERVER_NOT_FOUND then
            ⟨true, a, ev⟩
          else ⟨false, a, ev ++ [Event.assertFailed 235]⟩
        else ⟨true, a, ev⟩
      else ⟨true, a, []⟩
    let a := r1.self
    let r2 : Outcome Notif_RebootShutdown Unit :=
      if a._shutdownRunLoopRef ≠ 0 then
        ⟨(), { a with _shutdownRunLoopRef := 0 },
          [Event.CFRunLoopRemoveSource a._shutdownRunLoopRef,
           Event.CFRelease a._shutdownRunLoopRef]⟩
      else ⟨(), a, []⟩
    let a := r2.self
    let r3 : Outcome Notif_RebootShutdown Unit :=
      if a._shutDownMachPortRef ≠ 0 then
        ⟨(), { a with _shutDownMachPortRef := 0 }, [Event.CFRelease a._shutDownMachPortRef]⟩
      else ⟨(), a, []⟩
    let a := r3.self
    let a := { a with _bCallbackSet := false, _strPortName := [],
                      _shutDownMachPort := MACH_PORT_NULL,
                      _pfnCallback := 0, _pParam1 := 0, _pParam2 := 0 }
    ⟨r1.ret, a, r1.trace ++ r2.trace ++ r3.trace⟩
  else ⟨true, a, []⟩

/-- Member `Notif_RebootShutdown::remove_Notifications`. -/
def Notif_RebootShutdown.remove_Notifications (a : Notif_RebootShutdown) (os : NotifyOS)
    (bRebooting : Bool) : Option (Outcome Notif_RebootShutdown Bool) := do
  let l ← a._lock.EnterWriterLock
  let r := Notif_RebootShutdown.remove_locked { a with _lock := l } os bRebooting
  let l ← r.self._lock.LeaveWriterLock
  pure ⟨r.ret, { r.self with _lock := l }, r.trace⟩

/-- The static member `Notif_RebootShutdown::_onCallback`, which the OS invokes
with the `info` pointer the registration gave it, the adapter, and the
message `msg`.  The call of the user callback through `_pfnCallback` is
recorded as an event with the four arguments passed. -/
def Notif_RebootShutdown._onCallback (pThis : Notif_RebootShutdown) (msg : Ptr) :
    Option (Outcome Notif_RebootShutdown Unit) := do
  let l ← pThis._lock.EnterReaderLock
  let ev :=
    if pThis._pfnCallback ≠ 0 then
      [Event.userCallback pThis._pfnCallback msg pThis._strPortName
        pThis._pParam1 pThis._pParam2]
    else []
  let l ← l.LeaveReaderLock
  pure ⟨(), { pThis with _lock := l }, ev⟩

/-- The adapter states a program can reach: a constructed adapter, and what
`init_Notifications` and `remove_Notifications` make of a reachable one,
whatever the arguments and the answers of the OS. -/
inductive Notif_RebootShutdown.Reachable : Notif_RebootShutdown → Prop where
  | constructed : Notif_RebootShutdown.Reachable {}
  | init (a : Notif_RebootShutdown) (os : NotifyOS) (pPortName : Option CStr)
      (pfn pParam1 pParam2 : Ptr) (r : Outcome Notif_RebootShutdown Bool) :
      Notif_RebootShutdown.Reachable a →
      a.init_Notifications os pPortName pfn pParam1 pParam2 = some r →
      Notif_RebootShutdown.Reachable r.self
  | remove (a : Notif_RebootShutdown) (os : NotifyOS) (bRebooting : Bool)
      (r : Outcome Notif_RebootShutdown Bool) :
      Notif_RebootShutdown.Reachable a →
      a.remove_Notifications os bRebooting = some r →
      Notif_RebootShutdown.Reachable r.self

/-! ## notif_sleep_wake.h: the adapter -/

/-- The constant `kIOReturnSuccess` of `<IOKit/IOReturn.h>`. -/
def kIOReturnSuccess : Int := 0

/-- The constant `KERN_SUCCESS` of `<mach/kern_return.h>`. -/
def KERN_SUCCESS : Int := 0

/-- The data members of `struct Notif_SleepWake`, with their in-class
initialisers. -/
structure Notif_SleepWake where
  _lock : RDR_WRTR := {}
  _bCallbackSet : Bool := false
  _pwrSleepWakeKernelPort : Nat := 0
  _pwrSleepWakeNtfPort : Ptr := 0
  _pwrSleepWakeNotifier : Nat := 0
  _pfnCallback : Ptr := 0
  _pParam1 : Ptr := 0
  _pParam2 : Ptr := 0
  deriving DecidableEq

/-- What the operating system answers to the calls of `Notif_SleepWake`. -/
structure PowerOS where
  /-- Return value of `IORegisterForSystemPower`. -/
  kernelPort : Nat
  /-- Content of `_pwrSleepWakeNtfPort` after `IORegisterForSystemPower`. -/
  ntfPort : Ptr
  /-- Content of `_pwrSleepWakeNotifier` after `IORegisterForSystemPower`. -/
  notifier : Nat
  /-- Return value of `IONotificationPortGetRunLoopSource`. -/
  runLoopSource : Ptr
  /-- Return value of `IODeregisterForSystemPower`. -/
  deregisterStatus : Int
  /-- Return value of `IOServiceClose`. -/
  closeStatus : Int
  deriving DecidableEq

/-- The part of `init_SleepWakeNotifications` inside the scope of
`WRITER_LOCK wrl(_lock)`. -/
def Notif_SleepWake.init_locked (a : Notif_SleepWake) (os : PowerOS)
    (pfn pParam1 pParam2 : Ptr) : Outcome Notif_SleepWake Bool :=
  if a._bCallbackSet = false then
    let a := { a with _pfnCallback := pfn, _pParam1 := pParam1, _pParam2 := pParam2 }
    let ev1 := [Event.IORegisterForSystemPower]
    let a := { a with _pwrSleepWakeKernelPort := os.kernelPort,
                      _pwrSleepWakeNtfPort := os.ntfPort,
                      _pwrSleepWakeNotifier := os.notifier }
    if a._pwrSleepWakeKernelPort ≠ MACH_PORT_NULL then
      ⟨true, { a with _bCallbackSet := true },
        ev1 ++ [Event.IONotificationPortGetRunLoopSource a._pwrSleepWakeNtfPort,
                Event.CFRunLoopAddSource os.runLoopSource]⟩
    else ⟨false, a, ev1 ++ [Event.assertFailed 103]⟩
  else ⟨false, a, [Event.assertFailed 109]⟩

/-- Member `Notif_SleepWake::init_SleepWakeNotifications`. -/
def Notif_SleepWake.init_SleepWakeNotifications (a : Notif_SleepWake) (os : PowerOS)
    (pfn pParam1 pParam2 : Ptr) : Option (Outcome Notif_SleepWake Bool) := do
  let l ← a._lock.EnterWriterLock
  let r := Notif_SleepWake.init_locked { a with _lock := l } os pfn pParam1 pParam2
  let l ← r.self._lock.LeaveWriterLock
  pure ⟨r.ret, { r.self with _lock := l }, r.trace⟩

/-- Member `Notif_SleepWake::is_ReceivingSleepWakeNotifications`. -/
def Notif_SleepWake.is_ReceivingSleepWakeNotifications (a : Notif_SleepWake) :
    Option (Outcome Notif_SleepWake Bool) := do
  let l ← a._lock.EnterReaderLock
  let r := a._bCallbackSet
  let l ← l.LeaveReaderLock
  pure ⟨r, { a with _lock := l }, []⟩

/-- The part of `remove_SleepWakeNotifications` inside the scope of
`WRITER_LOCK wrl(_lock)`. -/
def Notif_SleepWake.remove_locked (a : Notif_SleepWake) (os : PowerOS) :
    Outcome Notif_SleepWake Bool :=
  if a._bCallbackSet = true then
    let r1 : Bool × List Event :=
      if a._pwrSleepWakeNtfPort ≠ 0 then
        let ev1 := [Event.IONotificationPortGetRunLoopSource a._pwrSleepWakeNtfPort,
                    Event.CFRunLoopRemoveSource os.runLoopSource,
                    Event.IODeregisterForSystemPower a._pwrSleepWakeNotifier]
        let r2 : Bool × List Event :=
          if os.deregisterStatus ≠ kIOReturnSuccess then (false, [Event.assertFailed 154])
          else (true, [])
        let ev3 := [Event.IOServiceClose a._pwrSleepWakeKernelPort]
        let r4 : Bool × List Event :=
          if os.closeStatus ≠ KERN_SUCCESS then (false, [Event.assertFailed 164])
          else (r2.1, [])
        (r4.1, ev1 ++ r2.2 ++ ev3 ++ r4.2
                 ++ [Event.IONotificationPortDestroy a._pwrSleepWakeNtfPort])
      else (true, [Event.assertFailed 174])
    let a := { a with _bCallbackSet := false,
                      _pwrSleepWakeKernelPort := 0, _pwrSleepWakeNtfPort := 0,
                      _pwrSleepWakeNotifier := 0,
                      _pfnCallback := 0, _pParam1 := 0, _pParam2 := 0 }
    ⟨r1.1, a, r1.2⟩
  else ⟨true, a, []⟩

/-- Member `Notif_SleepWake::remove_SleepWakeNotifications`. -/
def Notif_SleepWake.remove_SleepWakeNotifications (a : Notif_SleepWake) (os : PowerOS) :
    Option (Outcome Notif_SleepWake Bool) := do
  let l ← a._lock.EnterWriterLock
  let r := Notif_SleepWake.remove_locked { a with _lock := l } os
  let l ← r.self._lock.LeaveWriterLock
  pure ⟨r.ret, { r.self with _lock := l }, r.trace⟩

/-- The static member `Notif_SleepWake::_pwrSleepWakeCallback`, which the OS
invokes with the adapter as context. -/
def Notif_SleepWake._pwrSleepWakeCallback (pThis : Notif_SleepWake) (msgType : Nat)
    (msgArgument : Ptr) : Option (Outcome Notif_SleepWake Unit) := do
  let l ← pThis._lock.EnterReaderLock
  let ev :=
    if pThis._pfnCallback ≠ 0 then
      [Event.sleepWakeCallback pThis._pfnCallback msgType msgArgument
        pThis._pwrSleepWakeKernelPort pThis._pParam1 pThis._pParam2]
    else []
  let l ← l.LeaveReaderLock
  pure ⟨(), { pThis with _lock := l }, ev⟩

/-! ## main.cpp: channel names and the notification callback -/

/-- The table `gkNotifNames` of `main.cpp`, in source order. -/
def gkNotifNames : List (CStr × CURRENT_REBOOT_SHUTDOWN_STATE) :=
  [ (kLWShutdownInitiated, CRS_STATE_ShutdownUIShown),
    (kLWRestartInitiated, CRS_STATE_RestartUIShown),
    (kLWLogoutInitiated, CRS_STATE_LogoutUIShown),
    (kLWLogoutCancelled, CRS_STATE_Cancelled),
    (kLWPointOfNoReturn, CRS_STATE_PointOfNoReturn) ]

/-- The `for` loop of `get_CURRENT_REBOOT_SHUTDOWN_STATE_by_port_name` over the
rest of the table: returns the state of the first entry for which
`strcasecmp(entry.pName, pPortName)` is nonzero, `CRS_STATE_Unknown` when the
table is used up. -/
def stateLoop (pPortName : CStr) :
    List (CStr × CURRENT_REBOOT_SHUTDOWN_STATE) → CURRENT_REBOOT_SHUTDOWN_STATE
  | [] => CRS_STATE_Unknown
  | e :: rest => if strcasecmp e.1 pPortName ≠ 0 then e.2 else stateLoop pPortName rest

/-- The function `get_CURRENT_REBOOT_SHUTDOWN_STATE_by_port_name` of `main.cpp`. -/
def get_CURRENT_REBOOT_SHUTDOWN_STATE_by_port_name (pPortName : Option CStr) :
    CURRENT_REBOOT_SHUTDOWN_STATE :=
  match pPortName with
  | some p => if hasText (some p) then stateLoop p gkNotifNames else CRS_STATE_Unknown
  | none => CRS_STATE_Unknown

/-- What `callback_RebootShutdownLogout` reads and writes: its function-local
static `prev_state` and the global `g_RebootShutdownState`. -/
structure CallbackState where
  prev_state : CURRENT_REBOOT_SHUTDOWN_STATE := CRS_STATE_Unknown
  g_RebootShutdownState : SYNCHED_DATA REBOOT_SHUTDOWN_STATE := { _var := macOS_State_Default }
  deriving DecidableEq

/-- The state before any notification: `prev_state = CRS_STATE_Unknown` and
`g_RebootShutdownState({})`. -/
def CallbackState.initial : CallbackState := {}

/-- The function `callback_RebootShutdownLogout` of `main.cpp`.  Its three
unreferenced parameters and the diagnostic `printf` are left out. -/
def callback_RebootShutdownLogout (st : CallbackState) (pPortName : Option CStr) :
    Option (Outcome CallbackState Unit) :=
  let new_state := get_CURRENT_REBOOT_SHUTDOWN_STATE_by_port_name pPortName
  if new_state = CRS_STATE_Cancelled then
    pure ⟨(), { st with prev_state := CRS_STATE_Unknown }, []⟩
  else if new_state = CRS_STATE_PointOfNoReturn then
    let (rss, ev) :=
      if st.prev_state = CRS_STATE_ShutdownUIShown then (macOS_State_Shutting_Down, [])
      else if st.prev_state = CRS_STATE_RestartUIShown then (macOS_State_Rebooting, [])
      else if st.prev_state = CRS_STATE_LogoutUIShown then (macOS_State_Logging_Out, [])
      else (macOS_State_Default, [Event.assertFailed 293])
    do
      let g ← st.g_RebootShutdownState.set (some rss)
      pure ⟨(), { prev_state := CRS_STATE_Unknown, g_RebootShutdownState := g }, ev⟩
  else
    pure ⟨(), { st with prev_state := new_state }, []⟩

/-- Delivering a sequence of notifications, one call of the callback each; the
traces are concatenated. -/
def deliver : CallbackState → List (Option CStr) → Option (Outcome CallbackState Unit)
  | st, [] => some ⟨(), st, []⟩
  | st, n :: ns =>
    match callback_RebootShutdownLogout st n with
    | none => none
    | some o1 =>
      match deliver o1.self ns with
      | none => none
      | some o2 => some ⟨(), o2.self, o1.trace ++ o2.trace⟩

/-- Lines 265 to 304 of `callback_RebootShutdownLogout`: the step the callback
takes once `new_state` holds the decoded port name. -/
def callbackStep (st : CallbackState) (new_state : CURRENT_REBOOT_SHUTDOWN_STATE) :
    Option (Outcome CallbackState Unit) :=
  if new_state = CRS_STATE_Cancelled then
    pure ⟨(), { st with prev_state := CRS_STATE_Unknown }, []⟩
  else if new_state = CRS_STATE_PointOfNoReturn then
    let (rss, ev) :=
      if st.prev_state = CRS_STATE_ShutdownUIShown then (macOS_State_Shutting_Down, [])
      else if st.prev_state = CRS_STATE_RestartUIShown then (macOS_State_Rebooting, [])
      else if st.prev_state = CRS_STATE_LogoutUIShown then (macOS_State_Logging_Out, [])
      else (macOS_State_Default, [Event.assertFailed 293])
    do
      let g ← st.g_RebootShutdownState.set (some rss)
      pure ⟨(), { prev_state := CRS_STATE_Unknown, g_RebootShutdownState := g }, ev⟩
  else
    pure ⟨(), { st with prev_state := new_state }, []⟩

/-! ## main.cpp: the entry point -/

/-- An operation of `main` on one of its adapters, or its entry into the run
loop.  `n` is the index into `g_Ntfs`. -/
inductive MainOp where
  | init_Notifications (n : Nat) (pPortName : CStr)
  | init_SleepWakeNotifications
  | CFRunLoopRun
  | remove_Notifications (n : Nat) (bRebooting : Bool)
  | remove_SleepWakeNotifications
  deriving DecidableEq

/-- The globals of `main.cpp` that `main` works on: the array `g_Ntfs`, the
holder `g_RebootShutdownState` with the static `prev_state` of the callback,
and `g_NtfSleepWake`. -/
structure Globals where
  g_Ntfs : List Notif_RebootShutdown := List.replicate gkNotifNames.length {}
  callback : CallbackState := {}
  g_NtfSleepWake : Notif_SleepWake := {}
  deriving DecidableEq

/-- What surrounds a run of `main`: the answers of the operating system to
adapter `n` of `g_Ntfs` and to the sleep/wake adapter, the addresses of the two
callbacks, and the port names with which `callback_RebootShutdownLogout` is
invoked while `CFRunLoopRun` runs. -/
structure MainEnv where
  notifyOS : Nat → NotifyOS
  powerOS : PowerOS
  pfnRebootShutdownLogout : Ptr
  pfnSleepWake : Ptr
  delivered : List (Option CStr)

/-- The loop of lines 98 to 106 of `main` from index `n` on. -/
def registerLoop (env : MainEnv) :
    Nat → List (CStr × CURRENT_REBOOT_SHUTDOWN_STATE) → List Notif_RebootShutdown →
      Option (Outcome (List Notif_RebootShutdown) (List MainOp))
  | n, e :: names, a :: rest => do
    let r ← a.init_Notifications (env.notifyOS n) (some e.1) env.pfnRebootShutdownLogout 0 0
    let o ← registerLoop env (n + 1) names rest
    pure ⟨MainOp.init_Notifications n e.1 :: o.ret, r.self :: o.self,
      r.trace ++ (if r.ret = true then [] else [Event.assertFailed 104]) ++ o.trace⟩
  | _, _, rest => pure ⟨[], rest, []⟩

/-- The loop of lines 156 to 163 of `main` from index `n` on. -/
def unregisterLoop (env : MainEnv) (bRebooting : Bool) :
    Nat → List Notif_RebootShutdown →
      Option (Outcome (List Notif_RebootShutdown) (List MainOp))
  | _, [] => pure ⟨[], [], []⟩
  | n, a :: rest => do
    let r ← a.remove_Notifications (env.notifyOS n) bRebooting
    let o ← unregisterLoop env bRebooting (n + 1) rest
    pure ⟨MainOp.remove_Notifications n bRebooting :: o.ret, r.self :: o.self,
      r.trace ++ (if r.ret = true then [] else [Event.assertFailed 161]) ++ o.trace⟩

/-- What a run of `main` leaves: the returned value, the flag `bRebooting` it
computed, the globals, the ordered trace of its operations, and the trace of
the calls of the operating system with the assertions that failed. -/
structure MainResult where
  ret : Int
  bRebooting : Bool
  globals : Globals
  ops : List MainOp
  trace : List Event
  deriving DecidableEq

/-- The function `main` of `main.cpp`.  The installation of the two signal
handlers is taken to succeed, the block under `if(false)` and the `printf` are
left out, and the run loop is the delivery of `env.delivered` to
`callback_RebootShutdownLogout`.  The local `rss` is uninitialised before
`get` writes it. -/
def main (env : MainEnv) (g : Globals) : Option MainResult := do
  let reg ← registerLoop env 0 gkNotifNames g.g_Ntfs
  let sw ← g.g_NtfSleepWake.init_SleepWakeNotifications env.powerOS env.pfnSleepWake 0 0
  let ev2 := if sw.ret = true then [] else [Event.assertFailed 113]
  let run ← deliver g.callback env.delivered
  let got ← run.self.g_RebootShutdownState.get (some macOS_State_Default)
  let rss := got.2.getD macOS_State_Default
  let bRebooting : Bool := rss = macOS_State_Rebooting || rss = macOS_State_Shutting_Down
  let unreg ← unregisterLoop env bRebooting 0 reg.self
  let usw ← sw.self.remove_SleepWakeNotifications env.powerOS
  let ev5 := if usw.ret = true then [] else [Event.assertFailed 169]
  pure ⟨0, bRebooting,
    { g_Ntfs := unreg.self,
      callback := { run.self with g_RebootShutdownState := got.1 },
      g_NtfSleepWake := usw.self },
    reg.ret ++ [MainOp.init_SleepWakeNotifications, MainOp.CFRunLoopRun] ++ unreg.ret
      ++ [MainOp.remove_SleepWakeNotifications],
    reg.trace ++ sw.trace ++ ev2 ++ run.trace ++ unreg.trace ++ usw.trace ++ ev5⟩

/-- One of the adapters of `main.cpp`: element `n` of `g_Ntfs`, or
`g_NtfSleepWake`. -/
inductive Adapter where
  | g_Ntfs (n : Nat)
  | g_NtfSleepWake
  deriving DecidableEq

/-- The adapters a trace of operations registers, in order. -/
def registered : List MainOp → List Adapter
  | [] => []
  | MainOp.init_Notifications n _ :: ops => Adapter.g_Ntfs n :: registered ops
  | MainOp.init_SleepWakeNotifications :: ops => Adapter.g_NtfSleepWake :: registered ops
  | _ :: ops => registered ops

/-- The adapters a trace of operations unregisters, in order. -/
def unregistered : List MainOp → List Adapter
  | [] => []
  | MainOp.remove_Notifications n _ :: ops => Adapter.g_Ntfs n :: unregistered ops
  | MainOp.remove_SleepWakeNotifications :: ops => Adapter.g_NtfSleepWake :: unregistered ops
  | _ :: ops => unregistered ops

/-! ## wake_timer.h: CoreFoundation values and the power-management services -/

/-- The constant `kIOReturnNotFound` of `<IOKit/IOReturn.h>`, `0xE00002F0` as a
32-bit signed integer. -/
def kIOReturnNotFound : Int := -536870160

/-- The constant `kIOReturnBadArgument` of `<IOKit/IOReturn.h>`, `0xE00002C2` as
a 32-bit signed integer. -/
def kIOReturnBadArgument : Int := -536870206

/-- The constant `kIOPMAutoWake` of `<IOKit/pwr_mgt/IOPMLib.h>`. -/
def kIOPMAutoWake : CStr := cstr "wake"

/-- The macro `WAKE_TIMER_EVENT_TYPE` of `wake_timer.h`. -/
def WAKE_TIMER_EVENT_TYPE : CStr := kIOPMAutoWake

/-- The constant `kCFCompareLessThan`. -/
def kCFCompareLessThan : Int := -1

/-- The constant `kCFCompareEqualTo`. -/
def kCFCompareEqualTo : Int := 0

/-- The constant `kCFCompareGreaterThan`. -/
def kCFCompareGreaterThan : Int := 1

/-- The option `kCFCompareCaseInsensitive` of `CFStringCompare`. -/
def kCFCompareCaseInsensitive : Nat := 1

/-- The unit of a string as `CFStringCompare` looks at it: folded to lower case
when the case-insensitive bit of the options is set (letters outside ASCII
are left as they are). -/
def compareUnit (compareOptions : Nat) (c : Nat) : Nat :=
  if compareOptions % 2 = 1 then tolower c else c

/-- The CoreFoundation function `CFStringCompare`: the order of the two texts,
unit by unit. -/
def CFStringCompare : CFStr → CFStr → Nat → Int
  | [], [], _ => kCFCompareEqualTo
  | [], _ :: _, _ => kCFCompareLessThan
  | _ :: _, [], _ => kCFCompareGreaterThan
  | x :: xs, y :: ys, compareOptions =>
    if compareUnit compareOptions x < compareUnit compareOptions y then kCFCompareLessThan
    else if compareUnit compareOptions y < compareUnit compareOptions x then
      kCFCompareGreaterThan
    else CFStringCompare xs ys compareOptions

/-- A CoreFoundation object found as a value of a dictionary, by its type. -/
inductive CFTypeRef where
  | cfString (s : CFStr)
  | cfDate (t : CFAbsoluteTime)
  | cfOther
  deriving DecidableEq

/-- A dictionary of the schedule: what `CFDictionaryGetValueIfPresent` finds
under `kIOPMPowerEventAppNameKey`, `kIOPMPowerEventTypeKey` and
`kIOPMPowerEventTimeKey`; `none` when the key is absent. -/
structure CFDictionary where
  appName : Option CFTypeRef
  eventType : Option CFTypeRef
  time : Option CFTypeRef
  deriving DecidableEq

/-- What `CFArrayGetValueAtIndex` returns for an element of the schedule: a null
pointer, an object that is not a dictionary, or a dictionary. -/
inductive CFArrayValue where
  | null
  | notDictionary
  | dictionary (d : CFDictionary)
  deriving DecidableEq

/-- The services of CoreFoundation and IOKit that `WakeTimer` calls, as
functions of the state `κ` of the operating system: each gives its answer and
the state afterwards.  `CFDateCreate` and `CFStringCreateWithCString` answer
whether an object was created; `IOPMCopyScheduledPowerEvents` answers the
array, `none` for a null reference. -/
structure PowerManagement (κ : Type) where
  CFDateCreate : κ → CFAbsoluteTime → Bool × κ
  CFStringCreateWithCString : κ → CStr → Bool × κ
  IOPMCopyScheduledPowerEvents : κ → Option (List CFArrayValue) × κ
  IOPMCancelScheduledPowerEvent :
    κ → Option CFAbsoluteTime → Option CFStr → Option CFStr → Int × κ
  IOPMSchedulePowerEvent : κ → CFAbsoluteTime → CFStr → CFStr → Int × κ

/-- The outcome of a member function of `WakeTimer`: returned value, object and
state of the operating system afterwards, and the events in order. -/
structure PMOutcome (κ σ α : Type) where
  ret : α
  self : σ
  os : κ
  trace : List Event
  deriving DecidableEq

/-! ## wake_timer.h: cancelling scheduled events -/

/-- The local struct `REM_EVT_INFO` of `_cancelEvents`; `none` is a null
reference. -/
structure REM_EVT_INFO where
  refDate : Option CFAbsoluteTime
  refID : Option CFStr
  refType : Option CFStr
  deriving DecidableEq

/-- Member `REM_EVT_INFO::clearIt`: the value it leaves. -/
def REM_EVT_INFO.clearIt : REM_EVT_INFO := ⟨none, none, none⟩

/-- The variables the enumeration loop of `_cancelEvents` updates: `bResult`,
the vector `arrRem`, and the assertions that failed. -/
structure ScanState where
  bResult : Bool
  arrRem : List REM_EVT_INFO
  trace : List Event
  deriving DecidableEq

/-- An error branch of the enumeration: `assert(false); bResult = false;`. -/
def ScanState.fail (st : ScanState) (line : Nat) : ScanState :=
  { st with bResult := false, trace := st.trace ++ [Event.assertFailed line] }

/-- The test `filter == NULL || CFStringCompare(filter, value, options) ==
kCFCompareEqualTo` of `_cancelEvents`. -/
def filterAccepts (filter : Option CFStr) (value : CFStr) (compareOptions : Nat) : Bool :=
  match filter with
  | none => true
  | some f => CFStringCompare f value compareOptions = kCFCompareEqualTo

/-- Lines 572 to 600 of `_cancelEvents`: with `rei.refType` set, read the date
and push the entry. -/
def scanDate (st : ScanState) (rei : REM_EVT_INFO) (d : CFDictionary) : ScanState :=
  match d.time with
  | some (CFTypeRef.cfDate t) => { st with arrRem := st.arrRem ++ [{ rei with refDate := some t }] }
  | some _ => st.fail 590
  | none => st.fail 597

/-- Lines 535 to 601 of `_cancelEvents`: with `rei.refID` set, match the event type. -/
def scanType (refEvtType : Option CFStr) (st : ScanState) (rei : REM_EVT_INFO)
    (d : CFDictionary) : ScanState :=
  match d.eventType with
  | some (CFTypeRef.cfString v) =>
    if filterAccepts refEvtType v 0 = true then scanDate st { rei with refType := some v } d
    else st
  | some _ => st.fail 560
  | none => st.fail 567

/-- The body of the enumeration loop of `_cancelEvents` (lines 493 to 615) for
one element of the array. -/
def scanItem (refID refEvtType : Option CFStr) (st : ScanState) (refDic : CFArrayValue) :
    ScanState :=
  match refDic with
  | CFArrayValue.dictionary d =>
    match d.appName with
    | some (CFTypeRef.cfString v) =>
      if filterAccepts refID v kCFCompareCaseInsensitive = true then
        scanType refEvtType st { REM_EVT_INFO.clearIt with refID := some v } d
      else st
    | some _ => st.fail 523
    | none => st.fail 530
  | CFArrayValue.notDictionary => st.fail 606
  | CFArrayValue.null => st.fail 613

/-- What `_cancelEvents` gives back: `bResult`, `szCntCanceled`, the state of the
OS and the events. -/
structure CancelResult (κ : Type) where
  ret : Bool
  szCntCanceled : Nat
  os : κ
  trace : List Event
  deriving DecidableEq

/-- The three assertions at the head of the cancel loop, lines 630 to 632. -/
def remAsserts (rei : REM_EVT_INFO) : List Event :=
  (if rei.refID = none then [Event.assertFailed 630] else [])
  ++ (if rei.refDate = none then [Event.assertFailed 631] else [])
  ++ (if rei.refType = none then [Event.assertFailed 632] else [])

/-- The cancel loop of `_cancelEvents` (lines 628 to 652) over the entries of
`arrRem` still to do, from the current `bResult` and `szCntCanceled`. -/
def cancelLoop {κ : Type} (pm : PowerManagement κ) :
    κ → List REM_EVT_INFO → Bool → Nat → CancelResult κ
  | k, [], bResult, szCntCanceled => ⟨bResult, szCntCanceled, k, []⟩
  | k, rei :: rest, bResult, szCntCanceled =>
    let r := pm.IOPMCancelScheduledPowerEvent k rei.refDate rei.refID rei.refType
    let ev := remAsserts rei
      ++ [Event.IOPMCancelScheduledPowerEvent rei.refDate rei.refID rei.refType r.1]
    if r.1 = kIOReturnSuccess then
      let n := cancelLoop pm r.2 rest bResult (szCntCanceled + 1)
      ⟨n.ret, n.szCntCanceled, n.os, ev ++ n.trace⟩
    else if r.1 ≠ kIOReturnNotFound then
      let n := cancelLoop pm r.2 rest false szCntCanceled
      ⟨n.ret, n.szCntCanceled, n.os, ev ++ [Event.assertFailed 648] ++ n.trace⟩
    else
      let n := cancelLoop pm r.2 rest bResult szCntCanceled
      ⟨n.ret, n.szCntCanceled, n.os, ev ++ n.trace⟩

/-- The creation of a filter string at the head of `_cancelEvents`: for a
string with text, `CFStringCreateWithCString`; the reference (`none` when null),
whether the step went without error, the OS afterwards and the events. -/
def createFilter {κ : Type} (pm : PowerManagement κ) (k : κ) (pstr : Option CStr)
    (line : Nat) : Option CFStr × Bool × κ × List Event :=
  match pstr with
  | some p =>
    if hasText (some p) = true then
      let r := pm.CFStringCreateWithCString k p
      if r.1 = true then (some (strContents p), true, r.2, [])
      else (none, false, r.2, [Event.assertFailed line])
    else (none, true, k, [])
  | none => (none, true, k, [])

/-- Private member `WakeTimer::_cancelEvents`.  It reads no data member.  The
three `CFRelease` calls at its end are not recorded. -/
def WakeTimer._cancelEvents {κ : Type} (pm : PowerManagement κ) (k : κ)
    (pstrBundleID pstrEventType : Option CStr) : CancelResult κ :=
  let c1 := createFilter pm k pstrBundleID 439
  let refID := c1.1
  let c2 := createFilter pm c1.2.2.1 pstrEventType 454
  let refEvtType := c2.1
  let bResult := c1.2.1 && c2.2.1
  let ev := c1.2.2.2 ++ c2.2.2.2
  if bResult = true then
    let a := pm.IOPMCopyScheduledPowerEvents c2.2.2.1
    let scan : ScanState :=
      match a.1 with
      | some refArr => refArr.foldl (scanItem refID refEvtType) ⟨true, [], []⟩
      | none => ⟨true, [], []⟩
    let n := cancelLoop pm a.2 scan.arrRem scan.bResult 0
    ⟨n.ret, n.szCntCanceled, n.os,
      ev ++ [Event.IOPMCopyScheduledPowerEvents] ++ scan.trace ++ n.trace⟩
  else ⟨false, 0, c2.2.2.1, ev⟩

/-! ## wake_timer.h: the timer -/

/-- The data members of `struct WakeTimer`, with their in-class initialisers. -/
structure WakeTimer where
  _lock : RDR_WRTR := {}
  _strTmrBundleID : List Nat := []
  _bWakeEvtSet : Bool := false
  _dtmWake : CFAbsoluteTime := 0
  deriving DecidableEq

/-- The constructor `WakeTimer::WakeTimer(const char*)`. -/
def WakeTimer.ctor (pstrTimerBundleID : Option CStr) : Outcome WakeTimer Unit :=
  let ev := if hasText pstrTimerBundleID = true then [] else [Event.assertFailed 42]
  match pstrTimerBundleID with
  | some p => ⟨(), { _strTmrBundleID := strContents p }, ev⟩
  | none => ⟨(), {}, ev⟩

/-- The scan of `_getWakeEventTime`, with `refID` created, over the rest of the array (lines 703 to
751): whether a time was found, the time, and the assertions that failed.
The loop stops at the first dictionary whose app name is the timer's
identifier ignoring case and whose type is `WAKE_TIMER_EVENT_TYPE`. -/
def timeLoop (refID : CFStr) : List CFArrayValue → Bool × CFAbsoluteTime × List Event
  | [] => (false, 0, [])
  | CFArrayValue.dictionary d :: rest =>
    match d.appName with
    | some (CFTypeRef.cfString v) =>
      if CFStringCompare refID v kCFCompareCaseInsensitive = kCFCompareEqualTo then
        match d.eventType with
        | some (CFTypeRef.cfString u) =>
          if CFStringCompare (strContents WAKE_TIMER_EVENT_TYPE) u 0 = kCFCompareEqualTo then
            match d.time with
            | some (CFTypeRef.cfDate t) => (true, t, [])
            | _ => (false, 0, [Event.assertFailed 740])
          else timeLoop refID rest
        | _ => timeLoop refID rest
      else timeLoop refID rest
    | _ => timeLoop refID rest
  | _ :: rest =>
    let r := timeLoop refID rest
    (r.1, r.2.1, Event.assertFailed 749 :: r.2.2)

/-- Private member `WakeTimer::_getWakeEventTime`; `pdtOut` is the old content of
the destination, `none` for a null pointer, and the second component of the
returned value is its content afterwards. -/
def WakeTimer._getWakeEventTime {κ : Type} (pm : PowerManagement κ) (k : κ)
    (w : WakeTimer) (pdtOut : Option CFAbsoluteTime) :
    PMOutcome κ WakeTimer (Bool × Option CFAbsoluteTime) :=
  let c := pm.CFStringCreateWithCString k w._strTmrBundleID
  let r : Bool × CFAbsoluteTime × κ × List Event :=
    if c.1 = true then
      let a := pm.IOPMCopyScheduledPowerEvents c.2
      match a.1 with
      | some refArr =>
        let t := timeLoop (strContents w._strTmrBundleID) refArr
        (t.1, t.2.1, a.2, Event.IOPMCopyScheduledPowerEvents :: t.2.2)
      | none => (false, 0, a.2, [Event.IOPMCopyScheduledPowerEvents, Event.assertFailed 758])
    else (false, 0, c.2, [Event.assertFailed 768])
  ⟨(r.1, pdtOut.map (fun _ => r.2.1)), w, r.2.2.1, r.2.2.2⟩

/-- Lines 333 to 366 of `_setWakeEvent`, with the three references created:
cancel the previous event, schedule the new one, set the flags. -/
def WakeTimer.scheduleStep {κ : Type} (pm : PowerManagement κ) (k : κ) (w : WakeTimer)
    (dtWhen : CFAbsoluteTime) (pstrEventType : CStr) : PMOutcome κ WakeTimer Bool :=
  let c := WakeTimer._cancelEvents pm k (some w._strTmrBundleID) (some pstrEventType)
  let ev1 := c.trace ++ (if c.ret = true then [] else [Event.assertFailed 340])
  let r := pm.IOPMSchedulePowerEvent c.os dtWhen (strContents w._strTmrBundleID)
    (strContents pstrEventType)
  let ev2 := [Event.IOPMSchedulePowerEvent dtWhen (strContents w._strTmrBundleID)
                (strContents pstrEventType) r.1]
  if r.1 = kIOReturnSuccess then
    ⟨true, { w with _bWakeEvtSet := true }, r.2, ev1 ++ ev2⟩
  else
    ⟨false, { w with _dtmWake := 0, _bWakeEvtSet := false }, r.2,
      ev1 ++ ev2 ++ [Event.assertFailed 360]⟩

/-- Private member `WakeTimer::_setWakeEvent`; `pdtOutWhen` is the old content of
the destination, `none` for a null pointer, and the second component of the
returned value is its content afterwards. -/
def WakeTimer._setWakeEvent {κ : Type} (pm : PowerManagement κ) (k : κ) (w : WakeTimer)
    (dtWhen : CFAbsoluteTime) (pstrEventType : CStr) (pdtOutWhen : Option CFAbsoluteTime) :
    PMOutcome κ WakeTimer (Bool × Option CFAbsoluteTime) :=
  let d := pm.CFDateCreate k dtWhen
  let r : PMOutcome κ WakeTimer Bool :=
    if d.1 = true then
      let t := pm.CFStringCreateWithCString d.2 pstrEventType
      if t.1 = true then
        let i := pm.CFStringCreateWithCString t.2 w._strTmrBundleID
        if i.1 = true then WakeTimer.scheduleStep pm i.2 w dtWhen pstrEventType
        else ⟨false, w, i.2, [Event.assertFailed 374]⟩
      else ⟨false, w, t.2, [Event.assertFailed 383]⟩
    else ⟨false, w, d.2, [Event.assertFailed 392]⟩
  match pdtOutWhen with
  | some old =>
    let g := WakeTimer._getWakeEventTime pm r.os r.self (some old)
    ⟨(r.ret, g.ret.2), g.self, g.os,
      r.trace ++ g.trace ++ (if g.ret.1 = true then [] else [Event.assertFailed 403])⟩
  | none => ⟨(r.ret, none), r.self, r.os, r.trace⟩

/-- Member `WakeTimer::setWakeEventAbsolute`. -/
def WakeTimer.setWakeEventAbsolute {κ : Type} (pm : PowerManagement κ) (k : κ)
    (w : WakeTimer) (dtWake : CFAbsoluteTime) (pdtOutWhen : Option CFAbsoluteTime) :
    Option (PMOutcome κ WakeTimer (Bool × Option CFAbsoluteTime)) := do
  let l ← w._lock.EnterWriterLock
  let r := WakeTimer._setWakeEvent pm k { w with _lock := l } dtWake
    WAKE_TIMER_EVENT_TYPE pdtOutWhen
  let l ← r.self._lock.LeaveWriterLock
  pure ⟨r.ret, { r.self with _lock := l }, r.os, r.trace⟩

/-- Member `WakeTimer::setWakeEventRelative`; `now` is what
`CFAbsoluteTimeGetCurrent()` answers. -/
def WakeTimer.setWakeEventRelative {κ : Type} (pm : PowerManagement κ) (k : κ)
    (w : WakeTimer) (now : CFAbsoluteTime) (msFromNow : Nat)
    (pdtOutWhen : Option CFAbsoluteTime) :
    Option (PMOutcome κ WakeTimer (Bool × Option CFAbsoluteTime)) := do
  let dtWhen : CFAbsoluteTime := doubleAdd now (doubleDiv (doubleOfInt msFromNow) 1000)
  let l ← w._lock.EnterWriterLock
  let r := WakeTimer._setWakeEvent pm k { w with _lock := l } dtWhen
    WAKE_TIMER_EVENT_TYPE pdtOutWhen
  let l ← r.self._lock.LeaveWriterLock
  pure ⟨r.ret, { r.self with _lock := l }, r.os, r.trace⟩

/-- Member `WakeTimer::stopWakeEvent`. -/
def WakeTimer.stopWakeEvent {κ : Type} (pm : PowerManagement κ) (k : κ) (w : WakeTimer) :
    Option (PMOutcome κ WakeTimer Bool) := do
  let l ← w._lock.EnterWriterLock
  let w := { w with _lock := l }
  let c := WakeTimer._cancelEvents pm k (some w._strTmrBundleID) none
  let bRes := if c.ret = true then true else false
  let w := { w with _dtmWake := 0, _bWakeEvtSet := false }
  let l ← w._lock.LeaveWriterLock
  pure ⟨bRes, { w with _lock := l }, c.os, c.trace⟩

/-- Member `WakeTimer::getWakeEventInfo`; each pointer argument is the old
content of its destination, `none` for a null pointer, and the returned value
is `bResult` with the contents of the two destinations afterwards. -/
def WakeTimer.getWakeEventInfo (w : WakeTimer) (pdtOutWhenWake : Option CFAbsoluteTime)
    (pstrOutBundleID : Option (List Nat)) :
    Option (Outcome WakeTimer (Bool × Option CFAbsoluteTime × Option (List Nat))) := do
  let l ← w._lock.EnterReaderLock
  let dtmWake := w._dtmWake
  let strBundle := w._strTmrBundleID
  let bResult := w._bWakeEvtSet
  let l ← l.LeaveReaderLock
  pure ⟨(bResult, pdtOutWhenWake.map (fun _ => dtmWake),
      pstrOutBundleID.map (fun _ => strBundle)), { w with _lock := l }, []⟩

/-- Member `WakeTimer::cancelEvents`; `pszOutCountCanceled` is the old content of
the destination, `none` for a null pointer, and the second component of the
returned value is its content afterwards. -/
def WakeTimer.cancelEvents {κ : Type} (pm : PowerManagement κ) (k : κ) (w : WakeTimer)
    (pstrBundleID pstrEventType : Option CStr) (pszOutCountCanceled : Option Nat) :
    Option (PMOutcome κ WakeTimer (Bool × Option Nat)) := do
  let l ← w._lock.EnterWriterLock
  let c := WakeTimer._cancelEvents pm k pstrBundleID pstrEventType
  let l ← l.LeaveWriterLock
  pure ⟨(c.ret, pszOutCountCanceled.map (fun _ => c.szCntCanceled)),
    { w with _lock := l }, c.os, c.trace⟩

/-! ## wake_timer.h: the conversion of a local date and time -/

/-- The macro `DIFF_UNIX_EPOCH_AND_MAC_TIME_SEC` of `wake_timer.h`. -/
def DIFF_UNIX_EPOCH_AND_MAC_TIME_SEC : Int := 978307200

/-- The `struct tm` of `<time.h>`; `struct tm t = {}` zeroes every field. -/
structure tm where
  tm_sec : Int := 0
  tm_min : Int := 0
  tm_hour : Int := 0
  tm_mday : Int := 0
  tm_mon : Int := 0
  tm_year : Int := 0
  tm_wday : Int := 0
  tm_yday : Int := 0
  tm_isdst : Int := 0
  tm_gmtoff : Int := 0
  tm_zone : Ptr := 0
  deriving DecidableEq

/-- Lines 270 to 278 of `Set_CFAbsoluteTime`: the structure passed to `mktime`.
The `int` subtractions are taken without overflow. -/
def brokenDownTime (nYear nMonth nDay nHour nMinute nSecond : Int) : tm :=
  { tm_year := nYear - 1900, tm_mon := nMonth - 1, tm_mday := nDay, tm_hour := nHour,
    tm_min := nMinute, tm_sec := nSecond, tm_isdst := -1 }

/-- Static member `WakeTimer::Set_CFAbsoluteTime`; `mktime` is the libc function
as the value it returns, `pOutDtm` is the old content of the destination,
`none` for a null pointer, and the second component of the returned value is
its content afterwards.  The local `dtm` is a `double`: the conversion of
`time`, the subtraction of the constant, the quotient by `1000.0` and the
addition are each rounded. -/
def WakeTimer.Set_CFAbsoluteTime (mktime : tm → Int) (pOutDtm : Option CFAbsoluteTime)
    (nYear nMonth nDay nHour nMinute nSecond nMillisecond : Int) :
    Bool × Option CFAbsoluteTime :=
  let t := brokenDownTime nYear nMonth nDay nHour nMinute nSecond
  let time := mktime t
  let r : Bool × CFAbsoluteTime :=
    if time ≠ -1 then
      let dtm := doubleOfInt time
      let dtm := doubleSub dtm (doubleOfInt DIFF_UNIX_EPOCH_AND_MAC_TIME_SEC)
      let dtm := doubleAdd dtm (doubleDiv (doubleOfInt nMillisecond) 1000)
      (true, dtm)
    else (false, 0)
  (r.1, pOutDtm.map (fun _ => r.2))

/-! ## CFString_conv.h -/

/-- The constant `kCFNotFound` of `<CoreFoundation/CFBase.h>`. -/
def kCFNotFound : Int := -1

/-- A non-null `CFStringRef` as what CoreFoundation and the allocator answer to
the calls `GetString_From_CFStringRef` makes on it. -/
structure CFStringAnswers where
  /-- The C string `CFStringGetCStringPtr` points at, `none` when it returns null. -/
  CFStringGetCStringPtr : Option CStr
  /-- Return value of `CFStringGetLength`. -/
  CFStringGetLength : Int
  /-- Return value of `CFStringGetMaximumSizeForEncoding`. -/
  CFStringGetMaximumSizeForEncoding : Int
  /-- Whether `new (std::nothrow) UInt8[ncbSz + 1]` returns a buffer. -/
  allocated : Bool
  /-- The `ncbSz + 1` bytes of the buffer after `CFStringGetCString` has returned
  true, `none` when it returns false. -/
  CFStringGetCString : Option (List Nat)
  deriving DecidableEq

/-- The function `GetString_From_CFStringRef` of `CFString_conv.h`; `ref` is
`none` for a null reference, `strOut` the old content of the destination.
Returned are `bRes`, the content of `strOut` afterwards and the assertions
that failed. -/
def GetString_From_CFStringRef (ref : Option CFStringAnswers) (strOut : List Nat) :
    Bool × List Nat × List Event :=
  let r : Bool × List Nat × List Event :=
    match ref with
    | some os =>
      match os.CFStringGetCStringPtr with
      | some pStr => (true, strContents pStr, [])
      | none =>
        let nchSize := os.CFStringGetLength
        if nchSize > 0 then
          let ncbSz := os.CFStringGetMaximumSizeForEncoding
          if ncbSz ≠ kCFNotFound then
            if os.allocated = true then
              match os.CFStringGetCString with
              | some pBuff => (true, strContents (pBuff.set ncbSz.toNat 0), [])
              | none => (false, strOut, [Event.assertFailed 72])
            else (false, strOut, [Event.assertFailed 79])
          else (false, strOut, [Event.assertFailed 82])
        else (false, strOut, [])
    | none => (false, strOut, [])
  if r.1 = false then (false, [], r.2.2) else r

/-- What CoreFoundation answers to the calls of `FormatDateTimeAsStr`. -/
structure DateFormatAnswers where
  /-- Whether `CFDateCreate` returns a date. -/
  CFDateCreate : Bool
  /-- Whether `CFDateFormatterCreate` returns a formatter. -/
  CFDateFormatterCreate : Bool
  /-- The string `CFDateFormatterCreateStringWithDate` returns, `none` for null. -/
  CFDateFormatterCreateStringWithDate : Option CFStringAnswers
  deriving DecidableEq

/-- The function `FormatDateTimeAsStr` of `CFString_conv.h`; `pstrOut` is the old
content of the destination, `none` for a null pointer.  Returned are `bRes`,
the content of the destination afterwards and the assertions that failed. -/
def FormatDateTimeAsStr (os : DateFormatAnswers) (_dtm : CFAbsoluteTime)
    (pstrOut : Option (List Nat)) : Bool × Option (List Nat) × List Event :=
  let r : Bool × Option (List Nat) × List Event :=
    if os.CFDateCreate = true then
      if os.CFDateFormatterCreate = true then
        match os.CFDateFormatterCreateStringWithDate with
        | some refStr =>
          match pstrOut with
          | some strOut =>
            let g := GetString_From_CFStringRef (some refStr) strOut
            (g.1, some g.2.1, g.2.2)
          | none => (true, none, [])
        | none => (false, pstrOut, [])
      else (false, pstrOut, [])
    else (false, pstrOut, [])
  if r.1 = false ∧ pstrOut.isSome = true then (false, some [], r.2.2) else r

/-! ## The schedule of the operating system as a list -/

/-- A scheduled power event: its time, the name of the application that
scheduled it, and its type. -/
structure PowerEvent where
  time : CFAbsoluteTime
  appName : CFStr
  type : CFStr
  deriving DecidableEq

/-- The dictionary by which `IOPMCopyScheduledPowerEvents` describes an event. -/
def PowerEvent.toArrayValue (e : PowerEvent) : CFArrayValue :=
  CFArrayValue.dictionary
    { appName := some (CFTypeRef.cfString e.appName),
      eventType := some (CFTypeRef.cfString e.type),
      time := some (CFTypeRef.cfDate e.time) }

/-- An operating system whose state is the list of scheduled events: objects
are always created, `IOPMCopyScheduledPowerEvents` answers the list (a null
reference when it is empty), `IOPMSchedulePowerEvent` appends an event, and
`IOPMCancelScheduledPowerEvent` removes the event it is given when the list
has it and answers `kIOReturnNotFound` when it has not. -/
def scheduleOS : PowerManagement (List PowerEvent) where
  CFDateCreate := fun k _ => (true, k)
  CFStringCreateWithCString := fun k _ => (true, k)
  IOPMCopyScheduledPowerEvents := fun k =>
    (if k = [] then none else some (k.map PowerEvent.toArrayValue), k)
  IOPMCancelScheduledPowerEvent := fun k date id type =>
    match date, id, type with
    | some t, some a, some y =>
      if (⟨t, a, y⟩ : PowerEvent) ∈ k then (kIOReturnSuccess, k.erase ⟨t, a, y⟩)
      else (kIOReturnNotFound, k)
    | _, _, _ => (kIOReturnBadArgument, k)
  IOPMSchedulePowerEvent := fun k t a y => (kIOReturnSuccess, k ++ [⟨t, a, y⟩])

/-! ## Reading a trace, and the filter in the words of the specification -/

/-- Whether `_cancelEvents` creates its two filter strings without error. -/
def filtersCreated {κ : Type} (pm : PowerManagement κ) (k : κ)
    (pstrBundleID pstrEventType : Option CStr) : Prop :=
  (createFilter pm k pstrBundleID 439).2.1 = true ∧
  (createFilter pm (createFilter pm k pstrBundleID 439).2.2.1 pstrEventType 454).2.1 = true

instance {κ : Type} (pm : PowerManagement κ) (k : κ) (b e : Option CStr) :
    Decidable (filtersCreated pm k b e) := by
  unfold filtersCreated; infer_instance

/-- The state of the operating system in which `_cancelEvents` reads the
schedule: after the creation of the two filter strings. -/
def stateAtRead {κ : Type} (pm : PowerManagement κ) (k : κ)
    (pstrBundleID pstrEventType : Option CStr) : κ :=
  (createFilter pm (createFilter pm k pstrBundleID 439).2.2.1 pstrEventType 454).2.2.1

/-- The array `_cancelEvents` reads from `IOPMCopyScheduledPowerEvents`, taken
as empty when the reference is null. -/
def scheduleRead {κ : Type} (pm : PowerManagement κ) (k : κ)
    (pstrBundleID pstrEventType : Option CStr) : List CFArrayValue :=
  ((pm.IOPMCopyScheduledPowerEvents (stateAtRead pm k pstrBundleID pstrEventType)).1).getD []

/-- The arguments of the calls of `IOPMCancelScheduledPowerEvent` in a trace, in
order: date, app name and type of each attempt. -/
def cancelAttempts : List Event → List (Option CFAbsoluteTime × Option CFStr × Option CFStr)
  | [] => []
  | Event.IOPMCancelScheduledPowerEvent d i t _ :: es => (d, i, t) :: cancelAttempts es
  | _ :: es => cancelAttempts es

/-- The values returned by the calls of `IOPMCancelScheduledPowerEvent` in a
trace, in order. -/
def cancelResults : List Event → List Int
  | [] => []
  | Event.IOPMCancelScheduledPowerEvent _ _ _ r :: es => r :: cancelResults es
  | _ :: es => cancelResults es

/-- An attempt returned without error: `kIOReturnSuccess` or `kIOReturnNotFound`. -/
def attemptOK (r : Int) : Bool := r = kIOReturnSuccess || r = kIOReturnNotFound

/-- The text a filter argument of `cancelEvents` stands for: `none` for a null
or empty string, which filters nothing out. -/
def filterText (p : Option CStr) : Option CFStr :=
  match p with
  | some s => if hasText (some s) = true then some (strContents s) else none
  | none => none

/-- Equality of two texts ignoring case. -/
def equalIgnoringCase (a b : CFStr) : Prop := a.map tolower = b.map tolower

instance (a b : CFStr) : Decidable (equalIgnoringCase a b) := by
  unfold equalIgnoringCase; infer_instance

/-- The filter of the cancellation in the words of the specification: the app
name of the event equals `bundleID` ignoring case, or `bundleID` is null or
empty; and the type of the event equals `eventType` exactly, or `eventType` is
null or empty. -/
def selectedForCancel (bundleID eventType : Option CStr) (e : PowerEvent) : Bool :=
  (match filterText bundleID with
    | none => true
    | some b => decide (equalIgnoringCase b e.appName)) &&
  (match filterText eventType with
    | none => true
    | some t => decide (t = e.type))

/-- The arguments with which an event of the schedule is passed to
`IOPMCancelScheduledPowerEvent`: its own date, app name and type. -/
def PowerEvent.asAttempt (e : PowerEvent) : Option CFAbsoluteTime × Option CFStr × Option CFStr :=
  (some e.time, some e.appName, some e.type)

/-! ## The calendar, and a `mktime` for the time zone UTC -/

/-- Whether a year of the Gregorian calendar is a leap year. -/
def isLeapYear (y : Nat) : Bool := (y % 4 == 0 && y % 100 != 0) || y % 400 == 0

/-- The number of days of a year of the Gregorian calendar. -/
def daysInYear (y : Nat) : Nat := if isLeapYear y = true then 366 else 365

/-- The number of days of month `m` (1 to 12) of year `y`. -/
def daysInMonth (y m : Nat) : Nat :=
  if m = 2 then (if isLeapYear y = true then 29 else 28)
  else if m = 4 ∨ m = 6 ∨ m = 9 ∨ m = 11 then 30 else 31

/-- The number of days from 1970-01-01 to the given date of 1970 or later. -/
def daysSince1970 (y m d : Nat) : Nat :=
  ((List.range (y - 1970)).map (fun i => daysInYear (1970 + i))).sum
    + ((List.range (m - 1)).map (fun i => daysInMonth y (i + 1))).sum + (d - 1)

/-- The `mktime` of a process whose time zone is UTC, on a date of 1970 or
later with its fields in range: the number of seconds from 1970-01-01
00:00:00 UTC. -/
def mktimeUTC (t : tm) : Int :=
  (daysSince1970 (t.tm_year + 1900).toNat (t.tm_mon + 1).toNat t.tm_mday.toNat : Int) * 86400
    + t.tm_hour * 3600 + t.tm_min * 60 + t.tm_sec

/-! ## Sample values used by the concrete statements -/

/-- The bundle identifier of the timer of `main.cpp`. -/
def wakeBundleID : CStr := cstr "com.dennisbabkin.wake01"

/-- The global `g_WkTmr("com.dennisbabkin.wake01")` of `main.cpp`, constructed. -/
def g_WkTmr : WakeTimer := (WakeTimer.ctor (some wakeBundleID)).self

/-- The operating system `scheduleOS`, except that `CFStringCreateWithCString`
returns a null reference. -/
def noStringsOS : PowerManagement (List PowerEvent) :=
  { scheduleOS with CFStringCreateWithCString := fun k _ => (false, k) }

/-- The operating system `scheduleOS`, except that `IOPMCopyScheduledPowerEvents`
answers an array with one element that is not a dictionary. -/
def malformedOS : PowerManagement (List PowerEvent) :=
  { scheduleOS with
    IOPMCopyScheduledPowerEvents := fun k => (some [CFArrayValue.notDictionary], k) }

/-- The constant `kIOReturnNotPrivileged` of `<IOKit/IOReturn.h>`, `0xE00002C1`
as a 32-bit signed integer. -/
def kIOReturnNotPrivileged : Int := -536870207

/-- The operating system `scheduleOS`, except that an event at time 100 cannot
be cancelled: the attempt answers `kIOReturnNotPrivileged`. -/
def guardedOS : PowerManagement (List PowerEvent) :=
  { scheduleOS with
    IOPMCancelScheduledPowerEvent := fun k date id type =>
      if date = some 100 then (kIOReturnNotPrivileged, k)
      else scheduleOS.IOPMCancelScheduledPowerEvent k date id type }

/-- A schedule of five events: two of the timer of `main.cpp` with type
`wake` (one spelt in capitals), one of another application, one of the timer
with type `poweron`, and one of the timer with type `Wake`. -/
def sampleSchedule : List PowerEvent :=
  [ ⟨100, cstr "com.dennisbabkin.wake01", cstr "wake"⟩,
    ⟨200, cstr "COM.DENNISBABKIN.WAKE01", cstr "wake"⟩,
    ⟨300, cstr "com.example.other", cstr "wake"⟩,
    ⟨400, cstr "com.dennisbabkin.wake01", cstr "poweron"⟩,
    ⟨500, cstr "com.dennisbabkin.wake01", cstr "Wake"⟩ ]


/-- A channel name that is none of the five well-known ones. -/
def otherName : CStr := cstr "com.example.other"

/-- Answers of an OS on which every call of `Notif_RebootShutdown` succeeds. -/
def sampleNotifyOS : NotifyOS :=
  { registerStatus := NOTIFY_STATUS_OK, registerPort := 2563, registerToken := 7,
    machPortRef := 4096, bShouldFree := false, runLoopSource := 8192,
    cancelStatus := NOTIFY_STATUS_OK }

/-- The adapter after `init_Notifications(kLWShutdownInitiated, pfn)` with the
callback at address 256 has succeeded on `sampleNotifyOS`. -/
def receivingAdapter : Notif_RebootShutdown :=
  { _bCallbackSet := true, _strPortName := kLWShutdownInitiated, _nShutdownNtf := 7,
    _shutDownMachPort := 2563, _shutDownMachPortRef := 4096, _shutdownRunLoopRef := 8192,
    _pfnCallback := 256 }

/-- Answers of an OS on which every call of `Notif_SleepWake` succeeds. -/
def samplePowerOS : PowerOS :=
  { kernelPort := 3075, ntfPort := 12288, notifier := 3331, runLoopSource := 16384,
    deregisterStatus := kIOReturnSuccess, closeStatus := KERN_SUCCESS }

/-- The adapter after `init_SleepWakeNotifications(pfn)` with the callback at
address 512 has succeeded on `samplePowerOS`. -/
def receivingSleepWake : Notif_SleepWake :=
  { _bCallbackSet := true, _pwrSleepWakeKernelPort := 3075, _pwrSleepWakeNtfPort := 12288,
    _pwrSleepWakeNotifier := 3331, _pfnCallback := 512 }

/-- Answers of an OS on which `notify_register_mach_port` succeeds (port 2563,
token 7) and `CFMachPortCreateWithPort` then returns null. -/
def machPortFailsOS : NotifyOS :=
  { registerStatus := NOTIFY_STATUS_OK, registerPort := 2563, registerToken := 7,
    machPortRef := 0, bShouldFree := false, runLoopSource := 0,
    cancelStatus := NOTIFY_STATUS_OK }

/-- The adapter left behind by the registration that fails on `machPortFailsOS`. -/
def halfRegisteredAdapter : Notif_RebootShutdown :=
  { _nShutdownNtf := 7, _shutDownMachPort := 2563, _pfnCallback := 256 }

/-- Answers of an OS whose `notify_cancel` reports that the server is gone. -/
def serverGoneOS : NotifyOS :=
  { sampleNotifyOS with cancelStatus := NOTIFY_STATUS_SERVER_NOT_FOUND }

/-- A run of `main` in which every call of the operating system succeeds, the
shutdown dialog is shown and the point of no return is then announced. -/
def sampleMainEnv : MainEnv :=
  { notifyOS := fun _ => sampleNotifyOS, powerOS := samplePowerOS,
    pfnRebootShutdownLogout := 256, pfnSleepWake := 512,
    delivered := [some kLWShutdownInitiated, some kLWPointOfNoReturn] }

/-- The operating system `scheduleOS` as a process without the privilege to
change the schedule meets it: `IOPMCancelScheduledPowerEvent` and
`IOPMSchedulePowerEvent` answer `kIOReturnNotPrivileged` and change nothing. -/
def unprivilegedOS : PowerManagement (List PowerEvent) :=
  { scheduleOS with
    IOPMCancelScheduledPowerEvent := fun k _ _ _ => (kIOReturnNotPrivileged, k)
    IOPMSchedulePowerEvent := fun k _ _ _ => (kIOReturnNotPrivileged, k) }

/-! # Theorems -/

/-! ## The channel-name decoder and the callback of main.cpp -/

/-- C1 (evaluation of the code): on each of the five channel names of
`gkNotifNames` the decoder does not return the state paired with the name in
the table.  For `shutdownInitiated` it returns `CRS_STATE_RestartUIShown`, and
for each of the other four names it returns `CRS_STATE_ShutdownUIShown`,
because a nonzero `strcasecmp` result is taken for a match. -/
theorem C1_decoder_on_table_names :
    get_CURRENT_REBOOT_SHUTDOWN_STATE_by_port_name (some kLWShutdownInitiated)
      = CRS_STATE_RestartUIShown ∧
    get_CURRENT_REBOOT_SHUTDOWN_STATE_by_port_name (some kLWRestartInitiated)
      = CRS_STATE_ShutdownUIShown ∧
    get_CURRENT_REBOOT_SHUTDOWN_STATE_by_port_name (some kLWLogoutInitiated)
      = CRS_STATE_ShutdownUIShown ∧
    get_CURRENT_REBOOT_SHUTDOWN_STATE_by_port_name (some kLWLogoutCancelled)
      = CRS_STATE_ShutdownUIShown ∧
    get_CURRENT_REBOOT_SHUTDOWN_STATE_by_port_name (some kLWPointOfNoReturn)
      = CRS_STATE_ShutdownUIShown := by
  decide

/-- C2 (evaluation of the code): the name `com.example.other` differs from all
five table names ignoring case, yet the decoder returns
`CRS_STATE_ShutdownUIShown` for it and not `CRS_STATE_Unknown`; the null and
the empty name do give `CRS_STATE_Unknown`. -/
theorem C2_decoder_on_unlisted_name :
    (∀ e ∈ gkNotifNames, strcasecmp e.1 otherName ≠ 0) ∧
    get_CURRENT_REBOOT_SHUTDOWN_STATE_by_port_name (some otherName)
      = CRS_STATE_ShutdownUIShown ∧
    get_CURRENT_REBOOT_SHUTDOWN_STATE_by_port_name none = CRS_STATE_Unknown ∧
    get_CURRENT_REBOOT_SHUTDOWN_STATE_by_port_name (some []) = CRS_STATE_Unknown := by
  decide

/-- C3 (evaluation of the code): from the initial state, each of the three
sequences UI-shown notification, then `logoutNoReturn`, leaves
`g_RebootShutdownState` at `macOS_State_Default` (and the remembered state at
`CRS_STATE_ShutdownUIShown`): no final transition state is committed. -/
theorem C3_commit_sequences_on_code :
    deliver CallbackState.initial [some kLWShutdownInitiated, some kLWPointOfNoReturn]
      = some ⟨(), { prev_state := CRS_STATE_ShutdownUIShown,
                    g_RebootShutdownState := { _var := macOS_State_Default } }, []⟩ ∧
    deliver CallbackState.initial [some kLWRestartInitiated, some kLWPointOfNoReturn]
      = some ⟨(), { prev_state := CRS_STATE_ShutdownUIShown,
                    g_RebootShutdownState := { _var := macOS_State_Default } }, []⟩ ∧
    deliver CallbackState.initial [some kLWLogoutInitiated, some kLWPointOfNoReturn]
      = some ⟨(), { prev_state := CRS_STATE_ShutdownUIShown,
                    g_RebootShutdownState := { _var := macOS_State_Default } }, []⟩ := by
  decide

/-- C4: from the initial state, a UI-shown notification (`shutdownInitiated`,
`restartinitiated` or `logoutInitiated`), then `logoutcancelled`, then
`logoutNoReturn`: the three calls return, `g_RebootShutdownState` holds
`macOS_State_Default` afterwards (its lock released), and the trace is empty,
so no assertion failed. -/
theorem C4_cancelled_sequence_stays_default :
    deliver CallbackState.initial
        [some kLWShutdownInitiated, some kLWLogoutCancelled, some kLWPointOfNoReturn]
      = some ⟨(), { prev_state := CRS_STATE_ShutdownUIShown,
                    g_RebootShutdownState := { _var := macOS_State_Default } }, []⟩ ∧
    deliver CallbackState.initial
        [some kLWRestartInitiated, some kLWLogoutCancelled, some kLWPointOfNoReturn]
      = some ⟨(), { prev_state := CRS_STATE_ShutdownUIShown,
                    g_RebootShutdownState := { _var := macOS_State_Default } }, []⟩ ∧
    deliver CallbackState.initial
        [some kLWLogoutInitiated, some kLWLogoutCancelled, some kLWPointOfNoReturn]
      = some ⟨(), { prev_state := CRS_STATE_ShutdownUIShown,
                    g_RebootShutdownState := { _var := macOS_State_Default } }, []⟩ := by
  decide

/-! ## The lock around a member function -/

/-- On a free lock `EnterWriterLock` is granted and the following
`LeaveWriterLock` gives the free lock back. -/
theorem writer_scope_free (l : RDR_WRTR) (h : l.isFree) :
    l.EnterWriterLock = some { readers := 0, writer := true } ∧
    RDR_WRTR.LeaveWriterLock { readers := 0, writer := true } = some l := by
  rcases l with ⟨rd, wr⟩
  simp only [RDR_WRTR.isFree] at h
  rcases h with ⟨h1, h2⟩
  subst h1 h2
  simp [RDR_WRTR.EnterWriterLock, RDR_WRTR.LeaveWriterLock, pthread_rwlock_wrlock,
    pthread_rwlock_unlock]

/-- On a free lock `EnterReaderLock` is granted and the following
`LeaveReaderLock` gives the free lock back. -/
theorem reader_scope_free (l : RDR_WRTR) (h : l.isFree) :
    l.EnterReaderLock = some { readers := 1, writer := false } ∧
    RDR_WRTR.LeaveReaderLock { readers := 1, writer := false } = some l := by
  rcases l with ⟨rd, wr⟩
  simp only [RDR_WRTR.isFree] at h
  rcases h with ⟨h1, h2⟩
  subst h1 h2
  simp [RDR_WRTR.EnterReaderLock, RDR_WRTR.LeaveReaderLock, pthread_rwlock_rdlock,
    pthread_rwlock_unlock]

/-- The locked part of `init_Notifications` does not touch the lock. -/
theorem Notif_RebootShutdown.reboot_init_locked_lock (a : Notif_RebootShutdown) (os : NotifyOS)
    (name : CStr) (pfn p1 p2 : Ptr) :
    (a.init_locked os name pfn p1 p2).self._lock = a._lock := by
  unfold Notif_RebootShutdown.init_locked
  simp only
  split_ifs <;> rfl

/-- The locked part of `remove_Notifications` does not touch the lock. -/
theorem Notif_RebootShutdown.reboot_remove_locked_lock (a : Notif_RebootShutdown) (os : NotifyOS)
    (b : Bool) : (a.remove_locked os b).self._lock = a._lock := by
  unfold Notif_RebootShutdown.remove_locked
  simp only
  split_ifs <;> rfl

/-- With a free lock `init_Notifications` on a name with text returns what its
locked part computes on the adapter, the lock being free again afterwards. -/
theorem Notif_RebootShutdown.init_Notifications_free (a : Notif_RebootShutdown)
    (os : NotifyOS) (name : CStr) (pfn p1 p2 : Ptr) (hl : a._lock.isFree)
    (hn : hasText (some name) = true) :
    a.init_Notifications os (some name) pfn p1 p2 =
      some ⟨(Notif_RebootShutdown.init_locked { a with _lock := ⟨0, true⟩ } os name pfn p1 p2).ret,
        { (Notif_RebootShutdown.init_locked { a with _lock := ⟨0, true⟩ } os name pfn p1 p2).self
            with _lock := a._lock },
        (Notif_RebootShutdown.init_locked { a with _lock := ⟨0, true⟩ } os name pfn p1 p2).trace⟩ := by
  obtain ⟨h1, h2⟩ := writer_scope_free a._lock hl
  simp only [Notif_RebootShutdown.init_Notifications, hn, if_true, h1, Option.bind_eq_bind,
    Option.some_bind, Notif_RebootShutdown.reboot_init_locked_lock, h2, Option.pure_def]

/-- With a free lock `remove_Notifications` returns what its locked part
computes on the adapter, the lock being free again afterwards. -/
theorem Notif_RebootShutdown.remove_Notifications_free (a : Notif_RebootShutdown)
    (os : NotifyOS) (b : Bool) (hl : a._lock.isFree) :
    a.remove_Notifications os b =
      some ⟨(Notif_RebootShutdown.remove_locked { a with _lock := ⟨0, true⟩ } os b).ret,
        { (Notif_RebootShutdown.remove_locked { a with _lock := ⟨0, true⟩ } os b).self
            with _lock := a._lock },
        (Notif_RebootShutdown.remove_locked { a with _lock := ⟨0, true⟩ } os b).trace⟩ := by
  obtain ⟨h1, h2⟩ := writer_scope_free a._lock hl
  simp only [Notif_RebootShutdown.remove_Notifications, h1, Option.bind_eq_bind,
    Option.some_bind, Notif_RebootShutdown.reboot_remove_locked_lock, h2, Option.pure_def]

/-- The locked part of `init_SleepWakeNotifications` does not touch the lock. -/
theorem Notif_SleepWake.sleepWake_init_locked_lock (a : Notif_SleepWake) (os : PowerOS)
    (pfn p1 p2 : Ptr) : (a.init_locked os pfn p1 p2).self._lock = a._lock := by
  unfold Notif_SleepWake.init_locked
  simp only
  split_ifs <;> rfl

/-- The locked part of `remove_SleepWakeNotifications` does not touch the lock. -/
theorem Notif_SleepWake.sleepWake_remove_locked_lock (a : Notif_SleepWake) (os : PowerOS) :
    (a.remove_locked os).self._lock = a._lock := by
  unfold Notif_SleepWake.remove_locked
  simp only
  split_ifs <;> rfl

/-- With a free lock `init_SleepWakeNotifications` returns what its locked part
computes on the adapter, the lock being free again afterwards. -/
theorem Notif_SleepWake.init_SleepWakeNotifications_free (a : Notif_SleepWake)
    (os : PowerOS) (pfn p1 p2 : Ptr) (hl : a._lock.isFree) :
    a.init_SleepWakeNotifications os pfn p1 p2 =
      some ⟨(Notif_SleepWake.init_locked { a with _lock := ⟨0, true⟩ } os pfn p1 p2).ret,
        { (Notif_SleepWake.init_locked { a with _lock := ⟨0, true⟩ } os pfn p1 p2).self
            with _lock := a._lock },
        (Notif_SleepWake.init_locked { a with _lock := ⟨0, true⟩ } os pfn p1 p2).trace⟩ := by
  obtain ⟨h1, h2⟩ := writer_scope_free a._lock hl
  simp only [Notif_SleepWake.init_SleepWakeNotifications, h1, Option.bind_eq_bind,
    Option.some_bind, Notif_SleepWake.sleepWake_init_locked_lock, h2, Option.pure_def]

/-- With a free lock `remove_SleepWakeNotifications` returns what its locked
part computes on the adapter, the lock being free again afterwards. -/
theorem Notif_SleepWake.remove_SleepWakeNotifications_free (a : Notif_SleepWake)
    (os : PowerOS) (hl : a._lock.isFree) :
    a.remove_SleepWakeNotifications os =
      some ⟨(Notif_SleepWake.remove_locked { a with _lock := ⟨0, true⟩ } os).ret,
        { (Notif_SleepWake.remove_locked { a with _lock := ⟨0, true⟩ } os).self
            with _lock := a._lock },
        (Notif_SleepWake.remove_locked { a with _lock := ⟨0, true⟩ } os).trace⟩ := by
  obtain ⟨h1, h2⟩ := writer_scope_free a._lock hl
  simp only [Notif_SleepWake.remove_SleepWakeNotifications, h1, Option.bind_eq_bind,
    Option.some_bind, Notif_SleepWake.sleepWake_remove_locked_lock, h2, Option.pure_def]

/-- The locked part of `remove_Notifications` ends with the receiving flag false. -/
theorem Notif_RebootShutdown.remove_locked_flag (a : Notif_RebootShutdown) (os : NotifyOS)
    (b : Bool) : (a.remove_locked os b).self._bCallbackSet = false := by
  unfold Notif_RebootShutdown.remove_locked
  simp only
  split_ifs <;> simp_all

/-- The locked part of `remove_SleepWakeNotifications` ends with the receiving
flag false. -/
theorem Notif_SleepWake.sleepWake_remove_locked_flag (a : Notif_SleepWake) (os : PowerOS) :
    (a.remove_locked os).self._bCallbackSet = false := by
  unfold Notif_SleepWake.remove_locked
  simp only
  split_ifs <;> simp_all

/-- On an adapter that is not receiving, its lock free, `remove_Notifications`
returns true and changes nothing. -/
theorem Notif_RebootShutdown.remove_Notifications_idle (a : Notif_RebootShutdown)
    (os : NotifyOS) (b : Bool) (ha : a._bCallbackSet = false) (hal : a._lock.isFree) :
    a.remove_Notifications os b = some ⟨true, a, []⟩ := by
  rw [Notif_RebootShutdown.remove_Notifications_free a os b hal]
  simp only [Notif_RebootShutdown.remove_locked, ha, Bool.false_eq_true, if_false]
  cases a
  simp only at ha
  subst ha
  rfl

/-- On an adapter that is not receiving, its lock free,
`remove_SleepWakeNotifications` returns true and changes nothing. -/
theorem Notif_SleepWake.remove_SleepWakeNotifications_idle (b : Notif_SleepWake)
    (os : PowerOS) (hb : b._bCallbackSet = false) (hbl : b._lock.isFree) :
    b.remove_SleepWakeNotifications os = some ⟨true, b, []⟩ := by
  rw [Notif_SleepWake.remove_SleepWakeNotifications_free b os hbl]
  simp only [Notif_SleepWake.remove_locked, hb, Bool.false_eq_true, if_false]
  cases b
  simp only at hb
  subst hb
  rfl

/-! ## Registration and unregistration of the adapters -/

/-- C5: a registration call on an adapter that is already receiving (its lock
free) is rejected.  `init_Notifications` returns false, leaves the adapter as
it was, field for field, and its trace has no OS call: the trace is the one
failed assertion, the "can't init again" one of line 172 when a port name
with text is given.  `init_SleepWakeNotifications` returns false, leaves the
adapter as it was, and its trace is the failed assertion of line 109 alone. -/
theorem C5_register_while_receiving_rejected
    (a : Notif_RebootShutdown) (os : NotifyOS) (pPortName : Option CStr) (pfn p1 p2 : Ptr)
    (b : Notif_SleepWake) (pos : PowerOS) (qfn q1 q2 : Ptr)
    (ha : a._bCallbackSet = true) (hal : a._lock.isFree)
    (hb : b._bCallbackSet = true) (hbl : b._lock.isFree) :
    (∃ line, a.init_Notifications os pPortName pfn p1 p2
        = some ⟨false, a, [Event.assertFailed line]⟩ ∧
      (hasText pPortName = true → line = 172)) ∧
    b.init_SleepWakeNotifications pos qfn q1 q2 = some ⟨false, b, [Event.assertFailed 109]⟩ := by
  constructor
  · by_cases hn : hasText pPortName = true
    · refine ⟨172, ?_, fun _ => rfl⟩
      cases pPortName with
      | none => simp [hasText] at hn
      | some name =>
        rw [Notif_RebootShutdown.init_Notifications_free a os name pfn p1 p2 hal hn]
        simp only [Notif_RebootShutdown.init_locked, ha, Bool.true_eq_false, if_false]
        cases a
        simp only at ha
        subst ha
        rfl
    · refine ⟨178, ?_, fun h => absurd h hn⟩
      cases pPortName with
      | none => rfl
      | some name => simp [Notif_RebootShutdown.init_Notifications, hn]
  · rw [Notif_SleepWake.init_SleepWakeNotifications_free b pos qfn q1 q2 hbl]
    simp only [Notif_SleepWake.init_locked, hb, Bool.true_eq_false, if_false]
    cases b
    simp only at hb
    subst hb
    rfl

/-- C5 at a concrete input: the two sample adapters are what a first
registration on a constructed adapter produces, and a second registration on
each is rejected and leaves it as it was. -/
theorem C5_register_while_receiving_rejected_witness :
    (Notif_RebootShutdown.init_Notifications {} sampleNotifyOS (some kLWShutdownInitiated)
        256 0 0).map (fun r => (r.ret, r.self)) = some (true, receivingAdapter) ∧
    (Notif_SleepWake.init_SleepWakeNotifications {} samplePowerOS 512 0 0).map
        (fun r => (r.ret, r.self)) = some (true, receivingSleepWake) ∧
    receivingAdapter._bCallbackSet = true ∧ receivingAdapter._lock.isFree ∧
    receivingSleepWake._bCallbackSet = true ∧ receivingSleepWake._lock.isFree ∧
    ((∃ line, receivingAdapter.init_Notifications sampleNotifyOS (some kLWRestartInitiated)
          768 1 2 = some ⟨false, receivingAdapter, [Event.assertFailed line]⟩ ∧
        (hasText (some kLWRestartInitiated) = true → line = 172)) ∧
      receivingSleepWake.init_SleepWakeNotifications samplePowerOS 768 1 2
        = some ⟨false, receivingSleepWake, [Event.assertFailed 109]⟩) :=
  ⟨by decide, by decide, by decide, by decide, by decide, by decide,
    C5_register_while_receiving_rejected receivingAdapter sampleNotifyOS
      (some kLWRestartInitiated) 768 1 2 receivingSleepWake samplePowerOS 768 1 2
      (by decide) (by decide) (by decide) (by decide)⟩

/-- C6: on an adapter that is not receiving (its lock free) the unregister
operation returns true, makes no OS call (its trace is empty) and leaves the
adapter as it was, field for field, for either value of `bRebooting`; so a
second unregister call right after the first, whatever its arguments, gives
the same result and final state as the first alone.  And from any state of
an adapter with its lock free, receiving or not, a second unregister call
right after the first returns true, makes no OS call and keeps the state the
first call has left. -/
theorem C6_unregister_when_idle_is_noop
    (a : Notif_RebootShutdown) (os os2 : NotifyOS) (bRebooting bRebooting2 : Bool)
    (b : Notif_SleepWake) (pos pos2 : PowerOS)
    (ha : a._bCallbackSet = false) (hal : a._lock.isFree)
    (hb : b._bCallbackSet = false) (hbl : b._lock.isFree) :
    a.remove_Notifications os bRebooting = some ⟨true, a, []⟩ ∧
    (a.remove_Notifications os bRebooting).bind
        (fun r => r.self.remove_Notifications os2 bRebooting2)
      = a.remove_Notifications os bRebooting ∧
    b.remove_SleepWakeNotifications pos = some ⟨true, b, []⟩ ∧
    (b.remove_SleepWakeNotifications pos).bind
        (fun r => r.self.remove_SleepWakeNotifications pos2)
      = b.remove_SleepWakeNotifications pos ∧
    (∀ c : Notif_RebootShutdown, c._lock.isFree →
      ∃ r, c.remove_Notifications os bRebooting = some r ∧
        r.self.remove_Notifications os2 bRebooting2 = some ⟨true, r.self, []⟩) ∧
    (∀ d : Notif_SleepWake, d._lock.isFree →
      ∃ r, d.remove_SleepWakeNotifications pos = some r ∧
        r.self.remove_SleepWakeNotifications pos2 = some ⟨true, r.self, []⟩) := by
  have h1 := Notif_RebootShutdown.remove_Notifications_idle a
  have h2 := Notif_SleepWake.remove_SleepWakeNotifications_idle b
  refine ⟨h1 os bRebooting ha hal, ?_, h2 pos hb hbl, ?_, ?_, ?_⟩
  · rw [h1 os bRebooting ha hal]
    exact h1 os2 bRebooting2 ha hal
  · rw [h2 pos hb hbl]
    exact h2 pos2 hb hbl
  · intro c hc
    refine ⟨_, Notif_RebootShutdown.remove_Notifications_free c os bRebooting hc, ?_⟩
    exact Notif_RebootShutdown.remove_Notifications_idle _ os2 bRebooting2
      (Notif_RebootShutdown.remove_locked_flag { c with _lock := ⟨0, true⟩ } os bRebooting) hc
  · intro d hd
    refine ⟨_, Notif_SleepWake.remove_SleepWakeNotifications_free d pos hd, ?_⟩
    exact Notif_SleepWake.remove_SleepWakeNotifications_idle _ pos2
      (Notif_SleepWake.sleepWake_remove_locked_flag { d with _lock := ⟨0, true⟩ } pos) hd

/-- C6 at a concrete input: the constructed adapters, never registered, and
for the last part the sample receiving adapters. -/
theorem C6_unregister_when_idle_is_noop_witness :
    (({} : Notif_RebootShutdown)._bCallbackSet = false ∧
      RDR_WRTR.isFree ({} : Notif_RebootShutdown)._lock ∧
      ({} : Notif_SleepWake)._bCallbackSet = false ∧
      RDR_WRTR.isFree ({} : Notif_SleepWake)._lock) ∧
    (receivingAdapter.remove_Notifications sampleNotifyOS true).bind
        (fun r => r.self.remove_Notifications sampleNotifyOS false)
      = some ⟨true, {}, []⟩ ∧
    (receivingSleepWake.remove_SleepWakeNotifications samplePowerOS).bind
        (fun r => r.self.remove_SleepWakeNotifications samplePowerOS)
      = some ⟨true, {}, []⟩ ∧
    (Notif_RebootShutdown.remove_Notifications {} sampleNotifyOS true = some ⟨true, {}, []⟩ ∧
      (Notif_RebootShutdown.remove_Notifications {} sampleNotifyOS true).bind
          (fun r => r.self.remove_Notifications sampleNotifyOS false)
        = Notif_RebootShutdown.remove_Notifications {} sampleNotifyOS true ∧
      Notif_SleepWake.remove_SleepWakeNotifications {} samplePowerOS = some ⟨true, {}, []⟩ ∧
      (Notif_SleepWake.remove_SleepWakeNotifications {} samplePowerOS).bind
          (fun r => r.self.remove_SleepWakeNotifications samplePowerOS)
        = Notif_SleepWake.remove_SleepWakeNotifications {} samplePowerOS ∧
      (∀ c : Notif_RebootShutdown, c._lock.isFree →
        ∃ r, c.remove_Notifications sampleNotifyOS true = some r ∧
          r.self.remove_Notifications sampleNotifyOS false = some ⟨true, r.self, []⟩) ∧
      (∀ d : Notif_SleepWake, d._lock.isFree →
        ∃ r, d.remove_SleepWakeNotifications samplePowerOS = some r ∧
          r.self.remove_SleepWakeNotifications samplePowerOS = some ⟨true, r.self, []⟩)) :=
  ⟨by decide, by decide, by decide,
    C6_unregister_when_idle_is_noop {} sampleNotifyOS sampleNotifyOS true false
      {} samplePowerOS samplePowerOS (by decide) (by decide) (by decide) (by decide)⟩

/-- C7 (evaluation of the code): on a constructed adapter,
`init_Notifications(kLWShutdownInitiated, pfn)` with `notify_register_mach_port`
succeeding and `CFMachPortCreateWithPort` returning null returns false and
leaves the token, the mach port and the stored callback set, so the adapter
differs from what it was before the call; a following `remove_Notifications`
finds the receiving flag false and makes no call, so the token is never
cancelled. -/
theorem C7_failed_registration_leaves_fields_set :
    Notif_RebootShutdown.init_Notifications {} machPortFailsOS (some kLWShutdownInitiated)
        256 0 0
      = some ⟨false, halfRegisteredAdapter,
          [Event.notify_register_mach_port kLWShutdownInitiated MACH_PORT_NULL 0,
           Event.CFMachPortCreateWithPort 2563, Event.assertFailed 151]⟩ ∧
    halfRegisteredAdapter ≠ {} ∧
    halfRegisteredAdapter._nShutdownNtf = 7 ∧
    halfRegisteredAdapter._shutDownMachPort = 2563 ∧
    halfRegisteredAdapter._pfnCallback = 256 ∧
    halfRegisteredAdapter.remove_Notifications sampleNotifyOS false
      = some ⟨true, halfRegisteredAdapter, []⟩ := by
  decide

/-- The text of a C string without a zero byte is the whole list. -/
theorem strContents_eq_self (name : CStr) (h : 0 ∉ name) : strContents name = name := by
  induction name with
  | nil => rfl
  | cons c cs ih =>
    simp only [List.mem_cons, not_or] at h
    have hc : c ≠ 0 := fun e => h.1 e.symm
    simp [strContents, hc, ih h.2]

/-- With a free lock the two getters return the flag and the port name and
leave the adapter as it was. -/
theorem Notif_RebootShutdown.getters_free (a : Notif_RebootShutdown) (hl : a._lock.isFree) :
    a.is_ReceivingNotifications = some ⟨a._bCallbackSet, a, []⟩ ∧
    a.getPortName = some ⟨a._strPortName, a, []⟩ := by
  obtain ⟨h1, h2⟩ := reader_scope_free a._lock hl
  constructor
  · simp only [Notif_RebootShutdown.is_ReceivingNotifications, h1, Option.bind_eq_bind,
      Option.some_bind, h2, Option.pure_def]
  · simp only [Notif_RebootShutdown.getPortName, h1, Option.bind_eq_bind,
      Option.some_bind, h2, Option.pure_def]

/-- The locked part of `init_Notifications` keeps: not receiving, then no port name. -/
theorem Notif_RebootShutdown.init_locked_name (a : Notif_RebootShutdown) (os : NotifyOS)
    (name : CStr) (pfn p1 p2 : Ptr)
    (inv : a._bCallbackSet = false → a._strPortName = [])
    (h : (a.init_locked os name pfn p1 p2).self._bCallbackSet = false) :
    (a.init_locked os name pfn p1 p2).self._strPortName = [] := by
  unfold Notif_RebootShutdown.init_locked at h ⊢
  simp only at h ⊢
  split_ifs at h ⊢ <;> simp_all

/-- The locked part of `remove_Notifications` always ends with the flag false
and no port name. -/
theorem Notif_RebootShutdown.remove_locked_name (a : Notif_RebootShutdown) (os : NotifyOS)
    (b : Bool) (inv : a._bCallbackSet = false → a._strPortName = []) :
    (a.remove_locked os b).self._bCallbackSet = false ∧
    (a.remove_locked os b).self._strPortName = [] := by
  unfold Notif_RebootShutdown.remove_locked
  simp only
  split_ifs <;> simp_all

/-- Every reachable adapter has its lock free and, when it is not receiving,
an empty port name. -/
theorem Notif_RebootShutdown.Reachable.inv {a : Notif_RebootShutdown}
    (h : Notif_RebootShutdown.Reachable a) :
    a._lock.isFree ∧ (a._bCallbackSet = false → a._strPortName = []) := by
  induction h with
  | constructed => exact ⟨by decide, fun _ => rfl⟩
  | init a os pPortName pfn p1 p2 r _ hr ih =>
    obtain ⟨ihl, ihn⟩ := ih
    by_cases hn : hasText pPortName = true
    · cases pPortName with
      | none => simp [hasText] at hn
      | some name =>
        rw [Notif_RebootShutdown.init_Notifications_free a os name pfn p1 p2 ihl hn] at hr
        simp only [Option.some.injEq] at hr
        subst hr
        exact ⟨ihl, fun hf =>
          Notif_RebootShutdown.init_locked_name _ os name pfn p1 p2 ihn hf⟩
    · have hr2 : r.self = a := by
        cases pPortName with
        | none =>
          simp only [Notif_RebootShutdown.init_Notifications, Option.pure_def,
            Option.some.injEq] at hr
          subst hr; rfl
        | some name =>
          simp only [Notif_RebootShutdown.init_Notifications, hn, Bool.false_eq_true, if_false,
            Option.pure_def, Option.some.injEq] at hr
          subst hr; rfl
      rw [hr2]
      exact ⟨ihl, ihn⟩
  | remove a os b r _ hr ih =>
    obtain ⟨ihl, ihn⟩ := ih
    rw [Notif_RebootShutdown.remove_Notifications_free a os b ihl] at hr
    simp only [Option.some.injEq] at hr
    subst hr
    exact ⟨ihl, fun _ =>
      (Notif_RebootShutdown.remove_locked_name { a with _lock := ⟨0, true⟩ } os b ihn).2⟩

/-- C8: `init_Notifications` on an adapter that is not receiving (its lock
free), with a port name that has text and the three OS steps succeeding,
returns true; `is_ReceivingNotifications()` then returns true and
`getPortName()` the text of the supplied name, which is the supplied list of
bytes itself when that has no zero byte.  The trace of the call is the four
OS calls, followed by the failed assertion of line 155 only when the OS has
set `bShouldFree`.  On a constructed adapter, and on any
reachable adapter after `remove_Notifications`, `is_ReceivingNotifications()`
returns false and `getPortName()` the empty string. -/
theorem C8_successful_registration
    (a : Notif_RebootShutdown) (os : NotifyOS) (name : CStr) (pfn p1 p2 : Ptr)
    (hidle : a._bCallbackSet = false) (hl : a._lock.isFree)
    (hname : hasText (some name) = true)
    (h1 : os.registerStatus = NOTIFY_STATUS_OK)
    (h2 : os.machPortRef ≠ 0) (h3 : os.runLoopSource ≠ 0) :
    (∃ r, a.init_Notifications os (some name) pfn p1 p2 = some r ∧ r.ret = true ∧
      r.self.is_ReceivingNotifications = some ⟨true, r.self, []⟩ ∧
      r.self.getPortName = some ⟨strContents name, r.self, []⟩ ∧
      (0 ∉ name → strContents name = name) ∧
      r.trace =
        [Event.notify_register_mach_port name a._shutDownMachPort
            (if a._shutDownMachPort = MACH_PORT_NULL then 0 else NOTIFY_REUSE),
          Event.CFMachPortCreateWithPort os.registerPort,
          Event.CFMachPortCreateRunLoopSource os.machPortRef,
          Event.CFRunLoopAddSource os.runLoopSource]
        ++ (if os.bShouldFree = true then [Event.assertFailed 155] else [])) ∧
    (Notif_RebootShutdown.is_ReceivingNotifications {} = some ⟨false, {}, []⟩ ∧
      Notif_RebootShutdown.getPortName {} = some ⟨[], {}, []⟩) ∧
    (∀ (c : Notif_RebootShutdown) (os2 : NotifyOS) (bRebooting : Bool),
      Notif_RebootShutdown.Reachable c →
      ∃ r2, c.remove_Notifications os2 bRebooting = some r2 ∧
        r2.self.is_ReceivingNotifications = some ⟨false, r2.self, []⟩ ∧
        r2.self.getPortName = some ⟨[], r2.self, []⟩) := by
  refine ⟨?_, ⟨by decide, by decide⟩, ?_⟩
  · refine ⟨_, Notif_RebootShutdown.init_Notifications_free a os name pfn p1 p2 hl hname,
      ?_, ?_, ?_, strContents_eq_self name, ?_⟩
    · simp [Notif_RebootShutdown.init_locked, hidle, h1, h2, h3]
    · have hg := (Notif_RebootShutdown.getters_free
        { (Notif_RebootShutdown.init_locked { a with _lock := ⟨0, true⟩ }
            os name pfn p1 p2).self with _lock := a._lock } hl).1
      rw [hg]
      simp [Notif_RebootShutdown.init_locked, hidle, h1, h2, h3]
    · have hg := (Notif_RebootShutdown.getters_free
        { (Notif_RebootShutdown.init_locked { a with _lock := ⟨0, true⟩ }
            os name pfn p1 p2).self with _lock := a._lock } hl).2
      rw [hg]
      simp [Notif_RebootShutdown.init_locked, hidle, h1, h2, h3]
    · simp [Notif_RebootShutdown.init_locked, hidle, h1, h2, h3]
  · intro c os2 bRebooting hc
    obtain ⟨hcl, hcn⟩ := hc.inv
    refine ⟨_, Notif_RebootShutdown.remove_Notifications_free c os2 bRebooting hcl, ?_, ?_⟩
    · have hg := (Notif_RebootShutdown.getters_free
        { (Notif_RebootShutdown.remove_locked { c with _lock := ⟨0, true⟩ }
            os2 bRebooting).self with _lock := c._lock } hcl).1
      rw [hg]
      have hf := (Notif_RebootShutdown.remove_locked_name { c with _lock := ⟨0, true⟩ }
        os2 bRebooting hcn).1
      simp only [hf]
    · have hg := (Notif_RebootShutdown.getters_free
        { (Notif_RebootShutdown.remove_locked { c with _lock := ⟨0, true⟩ }
            os2 bRebooting).self with _lock := c._lock } hcl).2
      rw [hg]
      have hf := (Notif_RebootShutdown.remove_locked_name { c with _lock := ⟨0, true⟩ }
        os2 bRebooting hcn).2
      simp only [hf]

/-- C8 at a concrete input: the shut-down channel registered on a constructed
adapter with every OS step succeeding. -/
theorem C8_successful_registration_witness :
    (({} : Notif_RebootShutdown)._bCallbackSet = false ∧
      RDR_WRTR.isFree ({} : Notif_RebootShutdown)._lock ∧
      hasText (some kLWShutdownInitiated) = true ∧
      sampleNotifyOS.registerStatus = NOTIFY_STATUS_OK ∧
      sampleNotifyOS.machPortRef ≠ 0 ∧ sampleNotifyOS.runLoopSource ≠ 0) ∧
    ((∃ r, Notif_RebootShutdown.init_Notifications {} sampleNotifyOS
          (some kLWShutdownInitiated) 256 0 0 = some r ∧ r.ret = true ∧
        r.self.is_ReceivingNotifications = some ⟨true, r.self, []⟩ ∧
        r.self.getPortName = some ⟨strContents kLWShutdownInitiated, r.self, []⟩ ∧
        (0 ∉ kLWShutdownInitiated → strContents kLWShutdownInitiated = kLWShutdownInitiated) ∧
        r.trace =
          [Event.notify_register_mach_port kLWShutdownInitiated
              ({} : Notif_RebootShutdown)._shutDownMachPort
              (if ({} : Notif_RebootShutdown)._shutDownMachPort = MACH_PORT_NULL then 0
                else NOTIFY_REUSE),
            Event.CFMachPortCreateWithPort sampleNotifyOS.registerPort,
            Event.CFMachPortCreateRunLoopSource sampleNotifyOS.machPortRef,
            Event.CFRunLoopAddSource sampleNotifyOS.runLoopSource]
          ++ (if sampleNotifyOS.bShouldFree = true then [Event.assertFailed 155] else [])) ∧
      (Notif_RebootShutdown.is_ReceivingNotifications {} = some ⟨false, {}, []⟩ ∧
        Notif_RebootShutdown.getPortName {} = some ⟨[], {}, []⟩) ∧
      (∀ (c : Notif_RebootShutdown) (os2 : NotifyOS) (bRebooting : Bool),
        Notif_RebootShutdown.Reachable c →
        ∃ r2, c.remove_Notifications os2 bRebooting = some r2 ∧
          r2.self.is_ReceivingNotifications = some ⟨false, r2.self, []⟩ ∧
          r2.self.getPortName = some ⟨[], r2.self, []⟩)) :=
  ⟨by decide,
    C8_successful_registration {} sampleNotifyOS kLWShutdownInitiated 256 0 0
      (by decide) (by decide) (by decide) (by decide) (by decide) (by decide)⟩

/-- C9: `remove_Notifications` on a receiving adapter (its lock free) returns
and leaves the adapter equal to a constructed one, whatever `notify_cancel`
answers and whatever `bRebooting` is: receiving flag false, port name empty,
token 0, mach port `MACH_PORT_NULL`, mach-port object and run-loop source null,
stored callback and both context pointers null. -/
theorem C9_remove_ends_idle
    (a : Notif_RebootShutdown) (os : NotifyOS) (bRebooting : Bool)
    (hrecv : a._bCallbackSet = true) (hl : a._lock.isFree) :
    ∃ r, a.remove_Notifications os bRebooting = some r ∧
      r.self = {} ∧
      r.self._bCallbackSet = false ∧ r.self._strPortName = [] ∧
      r.self._nShutdownNtf = 0 ∧ r.self._shutDownMachPort = MACH_PORT_NULL ∧
      r.self._shutDownMachPortRef = 0 ∧ r.self._shutdownRunLoopRef = 0 ∧
      r.self._pfnCallback = 0 ∧ r.self._pParam1 = 0 ∧ r.self._pParam2 = 0 := by
  have key : ({ (Notif_RebootShutdown.remove_locked { a with _lock := ⟨0, true⟩ }
        os bRebooting).self with _lock := a._lock } : Notif_RebootShutdown) = {} := by
    rcases a with ⟨⟨rd, wr⟩, cb, nm, tok, port, ref, src, fn, q1, q2⟩
    simp only [RDR_WRTR.isFree] at hl
    simp only at hrecv
    obtain ⟨hl1, hl2⟩ := hl
    subst hl1 hl2 hrecv
    unfold Notif_RebootShutdown.remove_locked
    simp only
    split_ifs <;> simp_all
  obtain ⟨r, hr, hself⟩ : ∃ r, a.remove_Notifications os bRebooting = some r ∧ r.self = {} :=
    ⟨_, Notif_RebootShutdown.remove_Notifications_free a os bRebooting hl, key⟩
  refine ⟨r, hr, hself, ?_⟩
  rw [hself]
  decide

/-- C9 at a concrete input: the sample receiving adapter, `notify_cancel`
failing with the server gone and `bRebooting` false. -/
theorem C9_remove_ends_idle_witness :
    (receivingAdapter._bCallbackSet = true ∧ receivingAdapter._lock.isFree) ∧
    ∃ r, receivingAdapter.remove_Notifications serverGoneOS false = some r ∧
      r.self = {} ∧
      r.self._bCallbackSet = false ∧ r.self._strPortName = [] ∧
      r.self._nShutdownNtf = 0 ∧ r.self._shutDownMachPort = MACH_PORT_NULL ∧
      r.self._shutDownMachPortRef = 0 ∧ r.self._shutdownRunLoopRef = 0 ∧
      r.self._pfnCallback = 0 ∧ r.self._pParam1 = 0 ∧ r.self._pParam2 = 0 :=
  ⟨by decide, C9_remove_ends_idle receivingAdapter serverGoneOS false (by decide) (by decide)⟩

/-- The result of the locked part of `remove_Notifications`. -/
theorem Notif_RebootShutdown.remove_locked_ret (a : Notif_RebootShutdown) (os : NotifyOS)
    (bRebooting : Bool) :
    (a.remove_locked os bRebooting).ret = false ↔
      (a._bCallbackSet = true ∧ a._nShutdownNtf ≠ 0 ∧
        os.cancelStatus ≠ NOTIFY_STATUS_OK ∧
        ¬ (bRebooting = true ∧ os.cancelStatus = NOTIFY_STATUS_SERVER_NOT_FOUND)) := by
  unfold Notif_RebootShutdown.remove_locked
  simp only
  split_ifs <;> simp_all

/-- C10: `remove_Notifications` (the adapter's lock free) returns, and it
returns false if and only if the adapter was receiving with a non-zero token
and `notify_cancel` answered a status other than `NOTIFY_STATUS_OK` that is not
`NOTIFY_STATUS_SERVER_NOT_FOUND` with `bRebooting` true.  So with `bRebooting`
true and `NOTIFY_STATUS_SERVER_NOT_FOUND` it returns true, and with `bRebooting`
false and that status, on a receiving adapter with a non-zero token, false. -/
theorem C10_remove_result
    (a : Notif_RebootShutdown) (os : NotifyOS) (bRebooting : Bool) (hl : a._lock.isFree) :
    ∃ r, a.remove_Notifications os bRebooting = some r ∧
      (r.ret = false ↔
        (a._bCallbackSet = true ∧ a._nShutdownNtf ≠ 0 ∧
          os.cancelStatus ≠ NOTIFY_STATUS_OK ∧
          ¬ (bRebooting = true ∧ os.cancelStatus = NOTIFY_STATUS_SERVER_NOT_FOUND))) ∧
      (bRebooting = true → os.cancelStatus = NOTIFY_STATUS_SERVER_NOT_FOUND → r.ret = true) ∧
      (bRebooting = false → os.cancelStatus = NOTIFY_STATUS_SERVER_NOT_FOUND →
        a._bCallbackSet = true → a._nShutdownNtf ≠ 0 → r.ret = false) := by
  have hiff := Notif_RebootShutdown.remove_locked_ret { a with _lock := ⟨0, true⟩ } os bRebooting
  simp only at hiff
  refine ⟨_, Notif_RebootShutdown.remove_Notifications_free a os bRebooting hl, hiff, ?_, ?_⟩
  · intro hb hs
    by_contra hne
    have hf := hiff.1 (by simpa using hne)
    exact hf.2.2.2 ⟨hb, hs⟩
  · intro hb hs hcb htok
    refine hiff.2 ⟨hcb, htok, ?_, ?_⟩
    · rw [hs]; decide
    · rintro ⟨hb2, _⟩
      rw [hb] at hb2
      exact absurd hb2 (by decide)

/-- C10 at a concrete input: the sample receiving adapter (token 7) with
`notify_cancel` answering `NOTIFY_STATUS_SERVER_NOT_FOUND`; the call returns
true when `bRebooting` is true and false when it is false. -/
theorem C10_remove_result_witness :
    receivingAdapter._lock.isFree ∧
    (receivingAdapter.remove_Notifications serverGoneOS true).map (fun r => r.ret)
      = some true ∧
    (receivingAdapter.remove_Notifications serverGoneOS false).map (fun r => r.ret)
      = some false ∧
    ∃ r, receivingAdapter.remove_Notifications serverGoneOS false = some r ∧
      (r.ret = false ↔
        (receivingAdapter._bCallbackSet = true ∧ receivingAdapter._nShutdownNtf ≠ 0 ∧
          serverGoneOS.cancelStatus ≠ NOTIFY_STATUS_OK ∧
          ¬ (false = true ∧ serverGoneOS.cancelStatus = NOTIFY_STATUS_SERVER_NOT_FOUND))) ∧
      (false = true → serverGoneOS.cancelStatus = NOTIFY_STATUS_SERVER_NOT_FOUND →
        r.ret = true) ∧
      (false = false → serverGoneOS.cancelStatus = NOTIFY_STATUS_SERVER_NOT_FOUND →
        receivingAdapter._bCallbackSet = true → receivingAdapter._nShutdownNtf ≠ 0 →
        r.ret = false) :=
  ⟨by decide, by decide, by decide,
    C10_remove_result receivingAdapter serverGoneOS false (by decide)⟩

/-! ## The notification callback of the adapter -/

/-- On a lock without a writer `EnterReaderLock` is granted and the following
`LeaveReaderLock` gives the lock back as it was. -/
theorem reader_scope_shared (l : RDR_WRTR) (h : l.writer = false) :
    l.EnterReaderLock = some { readers := l.readers + 1, writer := false } ∧
    RDR_WRTR.LeaveReaderLock { readers := l.readers + 1, writer := false } = some l := by
  rcases l with ⟨rd, wr⟩
  simp only at h
  subst h
  simp [RDR_WRTR.EnterReaderLock, RDR_WRTR.LeaveReaderLock, pthread_rwlock_rdlock,
    pthread_rwlock_unlock]

/-- With no writer on the lock `_onCallback` returns, leaves the adapter as it
was, and its trace is the one call of the stored callback, with the stored
port name and parameters, when the callback is not null, and empty when it is. -/
theorem Notif_RebootShutdown.onCallback_shared (a : Notif_RebootShutdown) (msg : Ptr)
    (h : a._lock.writer = false) :
    a._onCallback msg = some ⟨(), a,
      if a._pfnCallback ≠ 0 then
        [Event.userCallback a._pfnCallback msg a._strPortName a._pParam1 a._pParam2]
      else []⟩ := by
  obtain ⟨h1, h2⟩ := reader_scope_shared a._lock h
  simp only [Notif_RebootShutdown._onCallback, h1, Option.bind_eq_bind, Option.some_bind, h2,
    Option.pure_def]

/-- With a free lock `remove_Notifications` on a receiving adapter returns and
leaves the adapter equal to a constructed one. -/
theorem Notif_RebootShutdown.remove_Notifications_receiving (a : Notif_RebootShutdown)
    (os : NotifyOS) (bRebooting : Bool) (hrecv : a._bCallbackSet = true)
    (hl : a._lock.isFree) :
    ∃ r, a.remove_Notifications os bRebooting = some r ∧ r.self = {} := by
  refine ⟨_, Notif_RebootShutdown.remove_Notifications_free a os bRebooting hl, ?_⟩
  rcases a with ⟨⟨rd, wr⟩, cb, nm, tok, port, ref, src, fn, q1, q2⟩
  simp only [RDR_WRTR.isFree] at hl
  simp only at hrecv
  obtain ⟨hl1, hl2⟩ := hl
  subst hl1 hl2 hrecv
  unfold Notif_RebootShutdown.remove_locked
  simp only
  split_ifs <;> simp_all

/-- C11: `_onCallback` on an adapter whose lock has no writer returns with the
adapter unchanged, and its trace is exactly one call of the stored callback
when that is not null and no call otherwise; the call passes the message
header, the stored port name and the stored `_pParam1` and `_pParam2`.  After
a successful `init_Notifications(name, pfn, pParam1, pParam2)` the call made
is `pfn(msg, text of name, pParam1, pParam2)`, and none when `pfn` is null.
After `remove_Notifications` on a receiving adapter `_onCallback` calls no
user callback. -/
theorem C11_callback_forwarding
    (a : Notif_RebootShutdown) (os : NotifyOS) (name : CStr) (pfn p1 p2 msg : Ptr)
    (hidle : a._bCallbackSet = false) (hl : a._lock.isFree)
    (hname : hasText (some name) = true)
    (h1 : os.registerStatus = NOTIFY_STATUS_OK)
    (h2 : os.machPortRef ≠ 0) (h3 : os.runLoopSource ≠ 0) :
    (∀ (c : Notif_RebootShutdown) (m : Ptr), c._lock.writer = false →
      c._onCallback m = some ⟨(), c,
        if c._pfnCallback ≠ 0 then
          [Event.userCallback c._pfnCallback m c._strPortName c._pParam1 c._pParam2]
        else []⟩) ∧
    (∃ r, a.init_Notifications os (some name) pfn p1 p2 = some r ∧ r.ret = true ∧
      r.self._onCallback msg = some ⟨(), r.self,
        if pfn ≠ 0 then [Event.userCallback pfn msg (strContents name) p1 p2] else []⟩) ∧
    (∀ (c : Notif_RebootShutdown) (os2 : NotifyOS) (bRebooting : Bool) (m : Ptr),
      c._bCallbackSet = true → c._lock.isFree →
      ∃ r2, c.remove_Notifications os2 bRebooting = some r2 ∧
        r2.self._onCallback m = some ⟨(), r2.self, []⟩) := by
  refine ⟨fun c m hc => Notif_RebootShutdown.onCallback_shared c m hc, ?_, ?_⟩
  · refine ⟨_, Notif_RebootShutdown.init_Notifications_free a os name pfn p1 p2 hl hname,
      ?_, ?_⟩
    · simp [Notif_RebootShutdown.init_locked, hidle, h1, h2, h3]
    · have hg := Notif_RebootShutdown.onCallback_shared
        { (Notif_RebootShutdown.init_locked { a with _lock := ⟨0, true⟩ }
            os name pfn p1 p2).self with _lock := a._lock } msg hl.2
      rw [hg]
      simp [Notif_RebootShutdown.init_locked, hidle, h1, h2, h3]
  · intro c os2 bRebooting m hc hcl
    obtain ⟨r2, hr2, hself⟩ :=
      Notif_RebootShutdown.remove_Notifications_receiving c os2 bRebooting hc hcl
    refine ⟨r2, hr2, ?_⟩
    rw [hself]
    exact Notif_RebootShutdown.onCallback_shared {} m rfl

/-- C11 at a concrete input: the shut-down channel registered on a constructed
adapter with the callback at address 256 and parameters 1 and 2; the message
at address 4660 is forwarded to that callback once. -/
theorem C11_callback_forwarding_witness :
    (({} : Notif_RebootShutdown)._bCallbackSet = false ∧
      RDR_WRTR.isFree ({} : Notif_RebootShutdown)._lock ∧
      hasText (some kLWShutdownInitiated) = true ∧
      sampleNotifyOS.registerStatus = NOTIFY_STATUS_OK ∧
      sampleNotifyOS.machPortRef ≠ 0 ∧ sampleNotifyOS.runLoopSource ≠ 0) ∧
    (Notif_RebootShutdown.init_Notifications {} sampleNotifyOS (some kLWShutdownInitiated)
        256 1 2).bind (fun r => r.self._onCallback 4660)
      = some ⟨(), { receivingAdapter with _pParam1 := 1, _pParam2 := 2 },
          [Event.userCallback 256 4660 kLWShutdownInitiated 1 2]⟩ ∧
    ((∀ (c : Notif_RebootShutdown) (m : Ptr), c._lock.writer = false →
        c._onCallback m = some ⟨(), c,
          if c._pfnCallback ≠ 0 then
            [Event.userCallback c._pfnCallback m c._strPortName c._pParam1 c._pParam2]
          else []⟩) ∧
      (∃ r, Notif_RebootShutdown.init_Notifications {} sampleNotifyOS
          (some kLWShutdownInitiated) 256 1 2 = some r ∧ r.ret = true ∧
        r.self._onCallback 4660 = some ⟨(), r.self,
          if (256 : Ptr) ≠ 0 then
            [Event.userCallback 256 4660 (strContents kLWShutdownInitiated) 1 2]
          else []⟩) ∧
      (∀ (c : Notif_RebootShutdown) (os2 : NotifyOS) (bRebooting : Bool) (m : Ptr),
        c._bCallbackSet = true → c._lock.isFree →
        ∃ r2, c.remove_Notifications os2 bRebooting = some r2 ∧
          r2.self._onCallback m = some ⟨(), r2.self, []⟩)) :=
  ⟨by decide, by decide,
    C11_callback_forwarding {} sampleNotifyOS kLWShutdownInitiated 256 1 2 4660
      (by decide) (by decide) (by decide) (by decide) (by decide) (by decide)⟩

/-! ## The synchronized value holder -/

/-- With a free lock `getAndSet` returns the value stored before and stores the
value pointed at; with a null pointer it stores nothing. -/
theorem SYNCHED_DATA.getAndSet_free {T : Type} (s : SYNCHED_DATA T) (pV : Option T)
    (hl : s._lock.isFree) :
    s.getAndSet pV = some ({ s with _var := pV.getD s._var }, s._var) := by
  obtain ⟨h1, h2⟩ := writer_scope_free s._lock hl
  cases pV <;>
    simp only [SYNCHED_DATA.getAndSet, h1, Option.bind_eq_bind, Option.some_bind, h2,
      Option.pure_def, Option.getD]

/-- With a free lock `set` stores the value pointed at. -/
theorem SYNCHED_DATA.set_free {T : Type} (s : SYNCHED_DATA T) (w : T)
    (hl : s._lock.isFree) : s.set (some w) = some { s with _var := w } := by
  obtain ⟨h1, h2⟩ := writer_scope_free s._lock hl
  simp only [SYNCHED_DATA.set, h1, Option.bind_eq_bind, Option.some_bind, h2, Option.pure_def]

/-- With no writer on the lock `get` writes the stored value and leaves the
holder as it was. -/
theorem SYNCHED_DATA.get_shared {T : Type} (s : SYNCHED_DATA T) (out : T)
    (hl : s._lock.writer = false) : s.get (some out) = some (s, some s._var) := by
  obtain ⟨h1, h2⟩ := reader_scope_shared s._lock hl
  simp only [SYNCHED_DATA.get, h1, Option.bind_eq_bind, Option.some_bind, h2, Option.pure_def]

/-- With a free lock `callFunc_ToSet` stores and returns what the callback
leaves. -/
theorem SYNCHED_DATA.callFunc_ToSet_free {T : Type} (s : SYNCHED_DATA T)
    (pfn : T → Ptr → Ptr → T) (p1 p2 : Ptr) (hl : s._lock.isFree) :
    s.callFunc_ToSet pfn p1 p2
      = some ({ s with _var := pfn s._var p1 p2 }, pfn s._var p1 p2) := by
  obtain ⟨h1, h2⟩ := writer_scope_free s._lock hl
  simp only [SYNCHED_DATA.callFunc_ToSet, h1, Option.bind_eq_bind, Option.some_bind, h2,
    Option.pure_def]

/-- C12: on a holder storing `v` (its lock free), `getAndSet` with a pointer to
`w` returns `v` and leaves the holder storing `w`; with a null pointer it
returns `v` and leaves the holder storing `v`. -/
theorem C12_getAndSet {T : Type} (s : SYNCHED_DATA T) (w : T) (hl : s._lock.isFree) :
    s.getAndSet (some w) = some ({ s with _var := w }, s._var) ∧
    s.getAndSet none = some (s, s._var) := by
  exact ⟨SYNCHED_DATA.getAndSet_free s (some w) hl, SYNCHED_DATA.getAndSet_free s none hl⟩

/-- C12 at a concrete input: the holder of `main.cpp` storing
`macOS_State_Default`, and a pointer to `macOS_State_Rebooting`. -/
theorem C12_getAndSet_witness :
    RDR_WRTR.isFree ({ _var := macOS_State_Default } : SYNCHED_DATA REBOOT_SHUTDOWN_STATE)._lock ∧
    (SYNCHED_DATA.getAndSet { _var := macOS_State_Default } (some macOS_State_Rebooting)
        = some ({ _var := macOS_State_Rebooting }, macOS_State_Default) ∧
      SYNCHED_DATA.getAndSet { _var := macOS_State_Default } none
        = some ({ _var := macOS_State_Default }, macOS_State_Default)) :=
  ⟨by decide, C12_getAndSet { _var := macOS_State_Default } macOS_State_Rebooting (by decide)⟩

/-- C13: on a holder with its lock free, after `set(&w)` a following
`get(&out)` writes `w` into `out` and leaves the holder as `set` left it; a
holder constructed with `v` yields `v` from `get` before any `set`; `get` and
`set` with a null pointer return at once, whatever the state of the lock,
with the holder unchanged and nothing written. -/
theorem C13_set_get_round_trip {T : Type} (s : SYNCHED_DATA T) (v w out : T)
    (hl : s._lock.isFree) :
    (∃ s1, s.set (some w) = some s1 ∧ s1._var = w ∧ s1.get (some out) = some (s1, some w)) ∧
    (SYNCHED_DATA.ctor v).get (some out) = some (SYNCHED_DATA.ctor v, some v) ∧
    (∀ h : SYNCHED_DATA T, h.get none = some (h, none) ∧ h.set none = some h) := by
  refine ⟨⟨_, SYNCHED_DATA.set_free s w hl, rfl, ?_⟩, ?_, fun h => ⟨rfl, rfl⟩⟩
  · exact SYNCHED_DATA.get_shared { s with _var := w } out hl.2
  · exact SYNCHED_DATA.get_shared (SYNCHED_DATA.ctor v) out rfl

/-- C13 at a concrete input: the holder of `main.cpp`, constructed with
`macOS_State_Default`, and `set` with a pointer to `macOS_State_Shutting_Down`. -/
theorem C13_set_get_round_trip_witness :
    RDR_WRTR.isFree (SYNCHED_DATA.ctor macOS_State_Default)._lock ∧
    ((SYNCHED_DATA.ctor macOS_State_Default).set (some macOS_State_Shutting_Down)).bind
        (fun s1 => s1.get (some macOS_State_Rebooting))
      = some ({ _var := macOS_State_Shutting_Down }, some macOS_State_Shutting_Down) ∧
    ((∃ s1, (SYNCHED_DATA.ctor macOS_State_Default).set (some macOS_State_Shutting_Down)
          = some s1 ∧ s1._var = macOS_State_Shutting_Down ∧
        s1.get (some macOS_State_Rebooting) = some (s1, some macOS_State_Shutting_Down)) ∧
      (SYNCHED_DATA.ctor macOS_State_Logging_Out).get (some macOS_State_Rebooting)
        = some (SYNCHED_DATA.ctor macOS_State_Logging_Out, some macOS_State_Logging_Out) ∧
      (∀ h : SYNCHED_DATA REBOOT_SHUTDOWN_STATE,
        h.get none = some (h, none) ∧ h.set none = some h)) :=
  ⟨by decide, by decide,
    C13_set_get_round_trip (SYNCHED_DATA.ctor macOS_State_Default) macOS_State_Logging_Out
      macOS_State_Shutting_Down macOS_State_Rebooting (by decide)⟩

/-! ## The balance of the lock guards -/

/-- On a lock that somebody holds `EnterWriterLock` is not granted. -/
theorem enterWriter_blocked (l : RDR_WRTR) (h : ¬ l.isFree) : l.EnterWriterLock = none := by
  rcases l with ⟨rd, wr⟩
  simp only [RDR_WRTR.isFree, not_and] at h
  simp only [RDR_WRTR.EnterWriterLock, pthread_rwlock_wrlock, ite_eq_right_iff]
  rintro ⟨h1, h2⟩
  exact absurd h1 (h h2)

/-- On a lock that a writer holds `EnterReaderLock` is not granted. -/
theorem enterReader_blocked (l : RDR_WRTR) (h : ¬ l.writer = false) :
    l.EnterReaderLock = none := by
  simp [RDR_WRTR.EnterReaderLock, pthread_rwlock_rdlock, h]

/-- Every operation of `SYNCHED_DATA` that returns leaves the lock as it found it. -/
theorem SYNCHED_DATA.holder_lock_balanced {T : Type} (s : SYNCHED_DATA T) :
    (∀ pV r, s.get pV = some r → r.1._lock = s._lock) ∧
    (∀ pV r, s.set pV = some r → r._lock = s._lock) ∧
    (∀ pV r, s.getAndSet pV = some r → r.1._lock = s._lock) ∧
    (∀ pfn p1 p2 r, s.callFunc_ToSet pfn p1 p2 = some r → r.1._lock = s._lock) := by
  refine ⟨?_, ?_, ?_, ?_⟩
  · intro pV r h
    cases pV with
    | none => cases h; rfl
    | some out =>
      by_cases hf : s._lock.writer = false
      · rw [SYNCHED_DATA.get_shared s out hf] at h; cases h; rfl
      · simp [SYNCHED_DATA.get, enterReader_blocked _ hf] at h
  · intro pV r h
    cases pV with
    | none => cases h; rfl
    | some w =>
      by_cases hf : s._lock.isFree
      · rw [SYNCHED_DATA.set_free s w hf] at h; cases h; rfl
      · simp [SYNCHED_DATA.set, enterWriter_blocked _ hf] at h
  · intro pV r h
    by_cases hf : s._lock.isFree
    · rw [SYNCHED_DATA.getAndSet_free s pV hf] at h; cases h; rfl
    · simp [SYNCHED_DATA.getAndSet, enterWriter_blocked _ hf] at h
  · intro pfn p1 p2 r h
    by_cases hf : s._lock.isFree
    · rw [SYNCHED_DATA.callFunc_ToSet_free s pfn p1 p2 hf] at h; cases h; rfl
    · simp [SYNCHED_DATA.callFunc_ToSet, enterWriter_blocked _ hf] at h

/-- Every public operation of `Notif_RebootShutdown` that returns leaves the
lock as it found it. -/
theorem Notif_RebootShutdown.reboot_lock_balanced (a : Notif_RebootShutdown) :
    (∀ os name pfn p1 p2 r, a.init_Notifications os name pfn p1 p2 = some r →
      r.self._lock = a._lock) ∧
    (∀ r, a.is_ReceivingNotifications = some r → r.self._lock = a._lock) ∧
    (∀ r, a.getPortName = some r → r.self._lock = a._lock) ∧
    (∀ os b r, a.remove_Notifications os b = some r → r.self._lock = a._lock) := by
  refine ⟨?_, ?_, ?_, ?_⟩
  · intro os name pfn p1 p2 r h
    by_cases hn : hasText name = true
    · cases name with
      | none => simp [hasText] at hn
      | some nm =>
        by_cases hf : a._lock.isFree
        · rw [Notif_RebootShutdown.init_Notifications_free a os nm pfn p1 p2 hf hn] at h
          cases h; rfl
        · simp [Notif_RebootShutdown.init_Notifications, hn, enterWriter_blocked _ hf] at h
    · cases name with
      | none => cases h; rfl
      | some nm =>
        simp only [Notif_RebootShutdown.init_Notifications, hn, Bool.false_eq_true, if_false,
          Option.pure_def, Option.some.injEq] at h
        subst h; rfl
  · intro r h
    by_cases hf : a._lock.writer = false
    · obtain ⟨h1, h2⟩ := reader_scope_shared a._lock hf
      simp only [Notif_RebootShutdown.is_ReceivingNotifications, h1, Option.bind_eq_bind,
        Option.some_bind, h2, Option.pure_def, Option.some.injEq] at h
      subst h; rfl
    · simp [Notif_RebootShutdown.is_ReceivingNotifications, enterReader_blocked _ hf] at h
  · intro r h
    by_cases hf : a._lock.writer = false
    · obtain ⟨h1, h2⟩ := reader_scope_shared a._lock hf
      simp only [Notif_RebootShutdown.getPortName, h1, Option.bind_eq_bind,
        Option.some_bind, h2, Option.pure_def, Option.some.injEq] at h
      subst h; rfl
    · simp [Notif_RebootShutdown.getPortName, enterReader_blocked _ hf] at h
  · intro os b r h
    by_cases hf : a._lock.isFree
    · rw [Notif_RebootShutdown.remove_Notifications_free a os b hf] at h
      cases h; rfl
    · simp [Notif_RebootShutdown.remove_Notifications, enterWriter_blocked _ hf] at h

/-- Every public operation of `Notif_SleepWake` that returns leaves the lock as
it found it. -/
theorem Notif_SleepWake.sleepWake_lock_balanced (a : Notif_SleepWake) :
    (∀ os pfn p1 p2 r, a.init_SleepWakeNotifications os pfn p1 p2 = some r →
      r.self._lock = a._lock) ∧
    (∀ r, a.is_ReceivingSleepWakeNotifications = some r → r.self._lock = a._lock) ∧
    (∀ os r, a.remove_SleepWakeNotifications os = some r → r.self._lock = a._lock) := by
  refine ⟨?_, ?_, ?_⟩
  · intro os pfn p1 p2 r h
    by_cases hf : a._lock.isFree
    · rw [Notif_SleepWake.init_SleepWakeNotifications_free a os pfn p1 p2 hf] at h
      cases h; rfl
    · simp [Notif_SleepWake.init_SleepWakeNotifications, enterWriter_blocked _ hf] at h
  · intro r h
    by_cases hf : a._lock.writer = false
    · obtain ⟨h1, h2⟩ := reader_scope_shared a._lock hf
      simp only [Notif_SleepWake.is_ReceivingSleepWakeNotifications, h1, Option.bind_eq_bind,
        Option.some_bind, h2, Option.pure_def, Option.some.injEq] at h
      subst h; rfl
    · simp [Notif_SleepWake.is_ReceivingSleepWakeNotifications, enterReader_blocked _ hf] at h
  · intro os r h
    by_cases hf : a._lock.isFree
    · rw [Notif_SleepWake.remove_SleepWakeNotifications_free a os hf] at h
      cases h; rfl
    · simp [Notif_SleepWake.remove_SleepWakeNotifications, enterWriter_blocked _ hf] at h

/-- Private member `_getWakeEventTime` leaves the timer as it was. -/
theorem WakeTimer.getWakeEventTime_self {κ : Type} (pm : PowerManagement κ) (k : κ)
    (w : WakeTimer) (pdtOut : Option CFAbsoluteTime) :
    (WakeTimer._getWakeEventTime pm k w pdtOut).self = w := rfl

/-- What `scheduleStep` does to the timer: when it returns true only the flag
`_bWakeEvtSet` is set, and when it returns false the flag and `_dtmWake` are
reset. -/
theorem WakeTimer.scheduleStep_self {κ : Type} (pm : PowerManagement κ) (k : κ)
    (w : WakeTimer) (dtWhen : CFAbsoluteTime) (pstrEventType : CStr) :
    ((WakeTimer.scheduleStep pm k w dtWhen pstrEventType).ret = true ∧
      (WakeTimer.scheduleStep pm k w dtWhen pstrEventType).self
        = { w with _bWakeEvtSet := true }) ∨
    ((WakeTimer.scheduleStep pm k w dtWhen pstrEventType).ret = false ∧
      (WakeTimer.scheduleStep pm k w dtWhen pstrEventType).self
        = { w with _dtmWake := 0, _bWakeEvtSet := false }) := by
  unfold WakeTimer.scheduleStep
  simp only
  split_ifs <;> first | exact Or.inl ⟨rfl, rfl⟩ | exact Or.inr ⟨rfl, rfl⟩

/-- What `_setWakeEvent` does to the timer: when it returns true only the flag
`_bWakeEvtSet` is set; otherwise the timer is as it was or has the flag and
`_dtmWake` reset. -/
theorem WakeTimer.setWakeEvent_self {κ : Type} (pm : PowerManagement κ) (k : κ)
    (w : WakeTimer) (dtWhen : CFAbsoluteTime) (pstrEventType : CStr)
    (pdtOutWhen : Option CFAbsoluteTime) :
    ((WakeTimer._setWakeEvent pm k w dtWhen pstrEventType pdtOutWhen).ret.1 = true ∧
      (WakeTimer._setWakeEvent pm k w dtWhen pstrEventType pdtOutWhen).self
        = { w with _bWakeEvtSet := true }) ∨
    ((WakeTimer._setWakeEvent pm k w dtWhen pstrEventType pdtOutWhen).ret.1 = false ∧
      ((WakeTimer._setWakeEvent pm k w dtWhen pstrEventType pdtOutWhen).self = w ∨
        (WakeTimer._setWakeEvent pm k w dtWhen pstrEventType pdtOutWhen).self
          = { w with _dtmWake := 0, _bWakeEvtSet := false })) := by
  have hs := WakeTimer.scheduleStep_self pm
    (pm.CFStringCreateWithCString (pm.CFStringCreateWithCString
      (pm.CFDateCreate k dtWhen).2 pstrEventType).2 w._strTmrBundleID).2
    w dtWhen pstrEventType
  have hs2 : ((WakeTimer.scheduleStep pm
      (pm.CFStringCreateWithCString (pm.CFStringCreateWithCString
        (pm.CFDateCreate k dtWhen).2 pstrEventType).2 w._strTmrBundleID).2
      w dtWhen pstrEventType).ret = true ∧
      (WakeTimer.scheduleStep pm
        (pm.CFStringCreateWithCString (pm.CFStringCreateWithCString
          (pm.CFDateCreate k dtWhen).2 pstrEventType).2 w._strTmrBundleID).2
        w dtWhen pstrEventType).self = { w with _bWakeEvtSet := true }) ∨
    ((WakeTimer.scheduleStep pm
      (pm.CFStringCreateWithCString (pm.CFStringCreateWithCString
        (pm.CFDateCreate k dtWhen).2 pstrEventType).2 w._strTmrBundleID).2
      w dtWhen pstrEventType).ret = false ∧
      ((WakeTimer.scheduleStep pm
        (pm.CFStringCreateWithCString (pm.CFStringCreateWithCString
          (pm.CFDateCreate k dtWhen).2 pstrEventType).2 w._strTmrBundleID).2
        w dtWhen pstrEventType).self = w ∨
      (WakeTimer.scheduleStep pm
        (pm.CFStringCreateWithCString (pm.CFStringCreateWithCString
          (pm.CFDateCreate k dtWhen).2 pstrEventType).2 w._strTmrBundleID).2
        w dtWhen pstrEventType).self = { w with _dtmWake := 0, _bWakeEvtSet := false })) := by
    rcases hs with h | h
    · exact Or.inl h
    · exact Or.inr ⟨h.1, Or.inr h.2⟩
  unfold WakeTimer._setWakeEvent
  cases pdtOutWhen with
  | none =>
    simp only
    split_ifs <;> first | exact hs2 | exact Or.inr ⟨rfl, Or.inl rfl⟩
  | some old =>
    simp only [WakeTimer.getWakeEventTime_self]
    split_ifs <;> first | exact hs2 | exact Or.inr ⟨rfl, Or.inl rfl⟩

/-- Private member `_setWakeEvent` touches neither the lock nor the bundle
identifier. -/
theorem WakeTimer.setWakeEvent_lock {κ : Type} (pm : PowerManagement κ) (k : κ)
    (w : WakeTimer) (dtWhen : CFAbsoluteTime) (pstrEventType : CStr)
    (pdtOutWhen : Option CFAbsoluteTime) :
    (WakeTimer._setWakeEvent pm k w dtWhen pstrEventType pdtOutWhen).self._lock = w._lock ∧
    (WakeTimer._setWakeEvent pm k w dtWhen pstrEventType pdtOutWhen).self._strTmrBundleID
      = w._strTmrBundleID := by
  rcases WakeTimer.setWakeEvent_self pm k w dtWhen pstrEventType pdtOutWhen with
    h | ⟨_, h | h⟩
  · rw [h.2]; exact ⟨rfl, rfl⟩
  · rw [h]; exact ⟨rfl, rfl⟩
  · rw [h]; exact ⟨rfl, rfl⟩

/-- With a free lock `setWakeEventAbsolute` returns what `_setWakeEvent`
computes on the timer, the lock being free again afterwards. -/
theorem WakeTimer.setWakeEventAbsolute_free {κ : Type} (pm : PowerManagement κ) (k : κ)
    (w : WakeTimer) (dtWake : CFAbsoluteTime) (pdtOutWhen : Option CFAbsoluteTime)
    (hl : w._lock.isFree) :
    w.setWakeEventAbsolute pm k dtWake pdtOutWhen =
      some ⟨(WakeTimer._setWakeEvent pm k { w with _lock := ⟨0, true⟩ } dtWake
              WAKE_TIMER_EVENT_TYPE pdtOutWhen).ret,
        { (WakeTimer._setWakeEvent pm k { w with _lock := ⟨0, true⟩ } dtWake
              WAKE_TIMER_EVENT_TYPE pdtOutWhen).self with _lock := w._lock },
        (WakeTimer._setWakeEvent pm k { w with _lock := ⟨0, true⟩ } dtWake
              WAKE_TIMER_EVENT_TYPE pdtOutWhen).os,
        (WakeTimer._setWakeEvent pm k { w with _lock := ⟨0, true⟩ } dtWake
              WAKE_TIMER_EVENT_TYPE pdtOutWhen).trace⟩ := by
  obtain ⟨h1, h2⟩ := writer_scope_free w._lock hl
  simp only [WakeTimer.setWakeEventAbsolute, h1, Option.bind_eq_bind, Option.some_bind,
    (WakeTimer.setWakeEvent_lock pm k _ dtWake WAKE_TIMER_EVENT_TYPE pdtOutWhen).1, h2,
    Option.pure_def]

/-- The member `setWakeEventRelative` is `setWakeEventAbsolute` at the time
`now + msFromNow / 1000.0` as the `double` arithmetic computes it. -/
theorem WakeTimer.setWakeEventRelative_eq {κ : Type} (pm : PowerManagement κ) (k : κ)
    (w : WakeTimer) (now : CFAbsoluteTime) (msFromNow : Nat)
    (pdtOutWhen : Option CFAbsoluteTime) :
    w.setWakeEventRelative pm k now msFromNow pdtOutWhen
      = w.setWakeEventAbsolute pm k (doubleAdd now (doubleDiv (doubleOfInt msFromNow) 1000))
          pdtOutWhen := rfl

/-- With a free lock `stopWakeEvent` returns the result of `_cancelEvents` for
the timer's identifier and any type, with the flag and `_dtmWake` reset. -/
theorem WakeTimer.stopWakeEvent_free {κ : Type} (pm : PowerManagement κ) (k : κ)
    (w : WakeTimer) (hl : w._lock.isFree) :
    w.stopWakeEvent pm k =
      some ⟨(WakeTimer._cancelEvents pm k (some w._strTmrBundleID) none).ret,
        { w with _dtmWake := 0, _bWakeEvtSet := false },
        (WakeTimer._cancelEvents pm k (some w._strTmrBundleID) none).os,
        (WakeTimer._cancelEvents pm k (some w._strTmrBundleID) none).trace⟩ := by
  obtain ⟨h1, h2⟩ := writer_scope_free w._lock hl
  simp only [WakeTimer.stopWakeEvent, h1, Option.bind_eq_bind, Option.some_bind, h2,
    Option.pure_def]
  cases (WakeTimer._cancelEvents pm k (some w._strTmrBundleID) none).ret <;> rfl

/-- With a free lock `cancelEvents` returns the result of `_cancelEvents` and
leaves the timer as it was. -/
theorem WakeTimer.cancelEvents_free {κ : Type} (pm : PowerManagement κ) (k : κ)
    (w : WakeTimer) (b e : Option CStr) (cnt : Option Nat) (hl : w._lock.isFree) :
    w.cancelEvents pm k b e cnt =
      some ⟨((WakeTimer._cancelEvents pm k b e).ret,
          cnt.map (fun _ => (WakeTimer._cancelEvents pm k b e).szCntCanceled)),
        w, (WakeTimer._cancelEvents pm k b e).os, (WakeTimer._cancelEvents pm k b e).trace⟩ := by
  obtain ⟨h1, h2⟩ := writer_scope_free w._lock hl
  simp only [WakeTimer.cancelEvents, h1, Option.bind_eq_bind, Option.some_bind, h2,
    Option.pure_def]

/-- With no writer on the lock `getWakeEventInfo` returns the cached flag and
writes the cached time and the bundle identifier, leaving the timer as it was. -/
theorem WakeTimer.getWakeEventInfo_shared (w : WakeTimer) (o1 : Option CFAbsoluteTime)
    (o2 : Option (List Nat)) (hl : w._lock.writer = false) :
    w.getWakeEventInfo o1 o2 =
      some ⟨(w._bWakeEvtSet, o1.map (fun _ => w._dtmWake),
              o2.map (fun _ => w._strTmrBundleID)), w, []⟩ := by
  obtain ⟨h1, h2⟩ := reader_scope_shared w._lock hl
  simp only [WakeTimer.getWakeEventInfo, h1, Option.bind_eq_bind, Option.some_bind, h2,
    Option.pure_def]

/-- Every public operation of `WakeTimer` that returns leaves the lock as it
found it. -/
theorem WakeTimer.timer_lock_balanced {κ : Type} (pm : PowerManagement κ) (k : κ)
    (w : WakeTimer) :
    (∀ now ms out r, w.setWakeEventRelative pm k now ms out = some r →
      r.self._lock = w._lock) ∧
    (∀ t out r, w.setWakeEventAbsolute pm k t out = some r → r.self._lock = w._lock) ∧
    (∀ r, w.stopWakeEvent pm k = some r → r.self._lock = w._lock) ∧
    (∀ o1 o2 r, w.getWakeEventInfo o1 o2 = some r → r.self._lock = w._lock) ∧
    (∀ b e cnt r, w.cancelEvents pm k b e cnt = some r → r.self._lock = w._lock) := by
  have habs : ∀ t out r, w.setWakeEventAbsolute pm k t out = some r →
      r.self._lock = w._lock := by
    intro t out r h
    by_cases hf : w._lock.isFree
    · rw [WakeTimer.setWakeEventAbsolute_free pm k w t out hf] at h
      cases h; rfl
    · simp [WakeTimer.setWakeEventAbsolute, enterWriter_blocked _ hf] at h
  refine ⟨?_, habs, ?_, ?_, ?_⟩
  · intro now ms out r h
    rw [WakeTimer.setWakeEventRelative_eq] at h
    exact habs _ out r h
  · intro r h
    by_cases hf : w._lock.isFree
    · rw [WakeTimer.stopWakeEvent_free pm k w hf] at h
      cases h; rfl
    · simp [WakeTimer.stopWakeEvent, enterWriter_blocked _ hf] at h
  · intro o1 o2 r h
    by_cases hf : w._lock.writer = false
    · rw [WakeTimer.getWakeEventInfo_shared w o1 o2 hf] at h
      cases h; rfl
    · simp [WakeTimer.getWakeEventInfo, enterReader_blocked _ hf] at h
  · intro b e cnt r h
    by_cases hf : w._lock.isFree
    · rw [WakeTimer.cancelEvents_free pm k w b e cnt hf] at h
      cases h; rfl
    · simp [WakeTimer.cancelEvents, enterWriter_blocked _ hf] at h

/-- The scope of a `READER_LOCK`: when the constructor is granted it has made
one `EnterReaderLock`, one more reader holds the lock, and the destructor
makes one `LeaveReaderLock` that gives the lock back as it was. -/
theorem READER_LOCK.reader_scope_balanced (l l1 : RDR_WRTR) (c : List LockCall)
    (h : READER_LOCK.ctor l = some (l1, c)) :
    c = [LockCall.EnterReaderLock] ∧ l1.readers = l.readers + 1 ∧
    READER_LOCK.dtor l1 = some (l, [LockCall.LeaveReaderLock]) := by
  by_cases hf : l.writer = false
  · obtain ⟨h1, h2⟩ := reader_scope_shared l hf
    simp only [READER_LOCK.ctor, h1, Option.map_some', Option.some.injEq, Prod.mk.injEq] at h
    obtain ⟨rfl, rfl⟩ := h
    exact ⟨rfl, rfl, by simp only [READER_LOCK.dtor, h2, Option.map_some']⟩
  · simp [READER_LOCK.ctor, enterReader_blocked _ hf] at h

/-- The scope of a `WRITER_LOCK`: when the constructor is granted it has made
one `EnterWriterLock`, the lock is held exclusively, and the destructor makes
one `LeaveWriterLock` that gives the lock back as it was. -/
theorem WRITER_LOCK.writer_scope_balanced (l l1 : RDR_WRTR) (c : List LockCall)
    (h : WRITER_LOCK.ctor l = some (l1, c)) :
    c = [LockCall.EnterWriterLock] ∧ l1.writer = true ∧
    WRITER_LOCK.dtor l1 = some (l, [LockCall.LeaveWriterLock]) := by
  by_cases hf : l.isFree
  · obtain ⟨h1, h2⟩ := writer_scope_free l hf
    simp only [WRITER_LOCK.ctor, h1, Option.map_some', Option.some.injEq, Prod.mk.injEq] at h
    obtain ⟨rfl, rfl⟩ := h
    exact ⟨rfl, rfl, by simp only [WRITER_LOCK.dtor, h2, Option.map_some']⟩
  · simp [WRITER_LOCK.ctor, enterWriter_blocked _ hf] at h

/-- The scope of a `WRITER_LOCK_COND` given a lock: as for `WRITER_LOCK`. -/
theorem WRITER_LOCK_COND.cond_scope_balanced (l : RDR_WRTR) (p1 : Option RDR_WRTR)
    (c : List LockCall) (h : WRITER_LOCK_COND.ctor (some l) = some (p1, c)) :
    c = [LockCall.EnterWriterLock] ∧ (∃ l1, p1 = some l1 ∧ l1.writer = true) ∧
    WRITER_LOCK_COND.dtor p1 = some (some l, [LockCall.LeaveWriterLock]) := by
  by_cases hf : l.isFree
  · obtain ⟨h1, h2⟩ := writer_scope_free l hf
    simp only [WRITER_LOCK_COND.ctor, h1, Option.map_some', Option.some.injEq,
      Prod.mk.injEq] at h
    obtain ⟨rfl, rfl⟩ := h
    exact ⟨rfl, ⟨_, rfl, rfl⟩, by simp only [WRITER_LOCK_COND.dtor, h2, Option.map_some']⟩
  · simp [WRITER_LOCK_COND.ctor, enterWriter_blocked _ hf] at h

/-- C14: over the lock state (reader count, writer flag), the scope of each
guard makes one acquisition in its constructor and one release in its
destructor, after which the lock is as the constructor found it; the
constructors are granted on a lock without a writer (`READER_LOCK`) or on a
free lock (`WRITER_LOCK`, `WRITER_LOCK_COND`); a `WRITER_LOCK_COND` given a
null lock makes no call in its constructor and none in its destructor.  Every
public operation of `SYNCHED_DATA`, `Notif_RebootShutdown`, `Notif_SleepWake`
and `WakeTimer` that returns leaves the lock in the state in which it found
it, and on a free lock each of them returns. -/
theorem C14_lock_guards_balanced :
    (∀ (l l1 : RDR_WRTR) (c : List LockCall), READER_LOCK.ctor l = some (l1, c) →
      c = [LockCall.EnterReaderLock] ∧ l1.readers = l.readers + 1 ∧
      READER_LOCK.dtor l1 = some (l, [LockCall.LeaveReaderLock])) ∧
    (∀ (l l1 : RDR_WRTR) (c : List LockCall), WRITER_LOCK.ctor l = some (l1, c) →
      c = [LockCall.EnterWriterLock] ∧ l1.writer = true ∧
      WRITER_LOCK.dtor l1 = some (l, [LockCall.LeaveWriterLock])) ∧
    (∀ (l : RDR_WRTR) (p1 : Option RDR_WRTR) (c : List LockCall),
      WRITER_LOCK_COND.ctor (some l) = some (p1, c) →
      c = [LockCall.EnterWriterLock] ∧ (∃ l1, p1 = some l1 ∧ l1.writer = true) ∧
      WRITER_LOCK_COND.dtor p1 = some (some l, [LockCall.LeaveWriterLock])) ∧
    (WRITER_LOCK_COND.ctor none = some (none, []) ∧
      WRITER_LOCK_COND.dtor none = some (none, [])) ∧
    (∀ l : RDR_WRTR, (l.writer = false → (READER_LOCK.ctor l).isSome = true) ∧
      (l.isFree → (WRITER_LOCK.ctor l).isSome = true ∧
        (WRITER_LOCK_COND.ctor (some l)).isSome = true)) ∧
    (∀ (T : Type) (s : SYNCHED_DATA T),
      ((∀ pV r, s.get pV = some r → r.1._lock = s._lock) ∧
        (∀ pV r, s.set pV = some r → r._lock = s._lock) ∧
        (∀ pV r, s.getAndSet pV = some r → r.1._lock = s._lock) ∧
        (∀ pfn p1 p2 r, s.callFunc_ToSet pfn p1 p2 = some r → r.1._lock = s._lock)) ∧
      (s._lock.isFree → ∀ pV pfn p1 p2,
        (s.get pV).isSome = true ∧ (s.set pV).isSome = true ∧
        (s.getAndSet pV).isSome = true ∧ (s.callFunc_ToSet pfn p1 p2).isSome = true)) ∧
    (∀ a : Notif_RebootShutdown,
      ((∀ os name pfn p1 p2 r, a.init_Notifications os name pfn p1 p2 = some r →
          r.self._lock = a._lock) ∧
        (∀ r, a.is_ReceivingNotifications = some r → r.self._lock = a._lock) ∧
        (∀ r, a.getPortName = some r → r.self._lock = a._lock) ∧
        (∀ os b r, a.remove_Notifications os b = some r → r.self._lock = a._lock)) ∧
      (a._lock.isFree → ∀ os name pfn p1 p2 b,
        (a.init_Notifications os name pfn p1 p2).isSome = true ∧
        a.is_ReceivingNotifications.isSome = true ∧ a.getPortName.isSome = true ∧
        (a.remove_Notifications os b).isSome = true)) ∧
    (∀ a : Notif_SleepWake,
      ((∀ os pfn p1 p2 r, a.init_SleepWakeNotifications os pfn p1 p2 = some r →
          r.self._lock = a._lock) ∧
        (∀ r, a.is_ReceivingSleepWakeNotifications = some r → r.self._lock = a._lock) ∧
        (∀ os r, a.remove_SleepWakeNotifications os = some r → r.self._lock = a._lock)) ∧
      (a._lock.isFree → ∀ os pfn p1 p2,
        (a.init_SleepWakeNotifications os pfn p1 p2).isSome = true ∧
        a.is_ReceivingSleepWakeNotifications.isSome = true ∧
        (a.remove_SleepWakeNotifications os).isSome = true)) ∧
    (∀ (κ : Type) (pm : PowerManagement κ) (k : κ) (w : WakeTimer),
      ((∀ now ms out r, w.setWakeEventRelative pm k now ms out = some r →
          r.self._lock = w._lock) ∧
        (∀ t out r, w.setWakeEventAbsolute pm k t out = some r → r.self._lock = w._lock) ∧
        (∀ r, w.stopWakeEvent pm k = some r → r.self._lock = w._lock) ∧
        (∀ o1 o2 r, w.getWakeEventInfo o1 o2 = some r → r.self._lock = w._lock) ∧
        (∀ b e cnt r, w.cancelEvents pm k b e cnt = some r → r.self._lock = w._lock)) ∧
      (w._lock.isFree → ∀ now ms t out o1 o2 b e cnt,
        (w.setWakeEventRelative pm k now ms out).isSome = true ∧
        (w.setWakeEventAbsolute pm k t out).isSome = true ∧
        (w.stopWakeEvent pm k).isSome = true ∧
        (w.getWakeEventInfo o1 o2).isSome = true ∧
        (w.cancelEvents pm k b e cnt).isSome = true)) := by
  refine ⟨READER_LOCK.reader_scope_balanced, WRITER_LOCK.writer_scope_balanced,
    WRITER_LOCK_COND.cond_scope_balanced, ⟨rfl, rfl⟩, ?_, ?_, ?_, ?_, ?_⟩
  · intro l
    refine ⟨fun h => ?_, fun h => ⟨?_, ?_⟩⟩
    · simp [READER_LOCK.ctor, (reader_scope_shared l h).1]
    · simp [WRITER_LOCK.ctor, (writer_scope_free l h).1]
    · simp [WRITER_LOCK_COND.ctor, (writer_scope_free l h).1]
  · intro T s
    refine ⟨SYNCHED_DATA.holder_lock_balanced s, fun hf pV pfn p1 p2 => ⟨?_, ?_, ?_, ?_⟩⟩
    · cases pV with
      | none => rfl
      | some out => rw [SYNCHED_DATA.get_shared s out hf.2]; rfl
    · cases pV with
      | none => rfl
      | some v => rw [SYNCHED_DATA.set_free s v hf]; rfl
    · rw [SYNCHED_DATA.getAndSet_free s pV hf]; rfl
    · rw [SYNCHED_DATA.callFunc_ToSet_free s pfn p1 p2 hf]; rfl
  · intro a
    refine ⟨Notif_RebootShutdown.reboot_lock_balanced a,
      fun hf os name pfn p1 p2 b => ⟨?_, ?_, ?_, ?_⟩⟩
    · by_cases hn : hasText name = true
      · cases name with
        | none => simp [hasText] at hn
        | some nm =>
          rw [Notif_RebootShutdown.init_Notifications_free a os nm pfn p1 p2 hf hn]; rfl
      · cases name with
        | none => rfl
        | some nm => simp [Notif_RebootShutdown.init_Notifications, hn]
    · rw [(Notif_RebootShutdown.getters_free a hf).1]; rfl
    · rw [(Notif_RebootShutdown.getters_free a hf).2]; rfl
    · rw [Notif_RebootShutdown.remove_Notifications_free a os b hf]; rfl
  · intro a
    refine ⟨Notif_SleepWake.sleepWake_lock_balanced a, fun hf os pfn p1 p2 => ⟨?_, ?_, ?_⟩⟩
    · rw [Notif_SleepWake.init_SleepWakeNotifications_free a os pfn p1 p2 hf]; rfl
    · obtain ⟨h1, h2⟩ := reader_scope_shared a._lock hf.2
      simp [Notif_SleepWake.is_ReceivingSleepWakeNotifications, h1, h2]
    · rw [Notif_SleepWake.remove_SleepWakeNotifications_free a os hf]; rfl
  · intro κ pm k w
    refine ⟨WakeTimer.timer_lock_balanced pm k w,
      fun hf now ms t out o1 o2 b e cnt => ⟨?_, ?_, ?_, ?_, ?_⟩⟩
    · rw [WakeTimer.setWakeEventRelative_eq, WakeTimer.setWakeEventAbsolute_free pm k w _ out hf]
      rfl
    · rw [WakeTimer.setWakeEventAbsolute_free pm k w t out hf]; rfl
    · rw [WakeTimer.stopWakeEvent_free pm k w hf]; rfl
    · rw [WakeTimer.getWakeEventInfo_shared w o1 o2 hf.2]; rfl
    · rw [WakeTimer.cancelEvents_free pm k w b e cnt hf]; rfl

/-- C14 at concrete inputs: a `READER_LOCK` on a lock two readers hold, a
`WRITER_LOCK` on a free lock, and `remove_Notifications` on the sample
receiving adapter. -/
theorem C14_lock_guards_balanced_witness :
    READER_LOCK.ctor ⟨2, false⟩ = some (⟨3, false⟩, [LockCall.EnterReaderLock]) ∧
    WRITER_LOCK.ctor ⟨0, false⟩ = some (⟨0, true⟩, [LockCall.EnterWriterLock]) ∧
    receivingAdapter.remove_Notifications sampleNotifyOS false
      = some ⟨true, {}, [Event.notify_cancel 7, Event.CFRunLoopRemoveSource 8192,
          Event.CFRelease 8192, Event.CFRelease 4096]⟩ ∧
    READER_LOCK.dtor ⟨3, false⟩ = some (⟨2, false⟩, [LockCall.LeaveReaderLock]) ∧
    WRITER_LOCK.dtor ⟨0, true⟩ = some (⟨0, false⟩, [LockCall.LeaveWriterLock]) ∧
    ({} : Notif_RebootShutdown)._lock = receivingAdapter._lock :=
  ⟨by decide, by decide, by decide,
    (C14_lock_guards_balanced.1 ⟨2, false⟩ ⟨3, false⟩ [LockCall.EnterReaderLock]
      (by decide)).2.2,
    (C14_lock_guards_balanced.2.1 ⟨0, false⟩ ⟨0, true⟩ [LockCall.EnterWriterLock]
      (by decide)).2.2,
    (C14_lock_guards_balanced.2.2.2.2.2.2.1 receivingAdapter).1.2.2.2 sampleNotifyOS false
      ⟨true, {}, [Event.notify_cancel 7, Event.CFRunLoopRemoveSource 8192,
          Event.CFRelease 8192, Event.CFRelease 4096]⟩ (by decide)⟩

/-! ## The wake timer: the cached state -/

/-- When `setWakeEventAbsolute` returns true on a timer with a free lock, the
timer afterwards is the timer before with `_bWakeEvtSet` set: `_dtmWake` is as
it was. -/
theorem WakeTimer.setWakeEventAbsolute_true {κ : Type} (pm : PowerManagement κ) (k : κ)
    (w : WakeTimer) (t : CFAbsoluteTime) (out : Option CFAbsoluteTime)
    (r : PMOutcome κ WakeTimer (Bool × Option CFAbsoluteTime)) (hl : w._lock.isFree)
    (h : w.setWakeEventAbsolute pm k t out = some r) (hret : r.ret.1 = true) :
    r.self = { w with _bWakeEvtSet := true } := by
  rw [WakeTimer.setWakeEventAbsolute_free pm k w t out hl] at h
  simp only [Option.some.injEq] at h
  subst h
  simp only at hret ⊢
  rcases WakeTimer.setWakeEvent_self pm k { w with _lock := ⟨0, true⟩ } t
    WAKE_TIMER_EVENT_TYPE out with h1 | h1
  · rw [h1.2]
  · rw [h1.1] at hret
    exact absurd hret (by decide)

/-- C16 (evaluation of the code): on the timer of `main.cpp` and an operating
system with an empty schedule on which every call succeeds,
`setWakeEventAbsolute(30, &dtOut)` returns true, schedules the event at time
30 and writes 30 into `dtOut`; the following `getWakeEventInfo` returns true
and writes 0, not 30, into `*pdtOutWhenWake`.  In general, on every operating
system and for every time `t`, after `setWakeEventAbsolute(t)` or
`setWakeEventRelative` has returned true, `getWakeEventInfo` returns true and
writes the value `_dtmWake` had before the call: the time `t` is never stored. -/
theorem C16_wake_time_not_cached :
    g_WkTmr.setWakeEventAbsolute scheduleOS [] 30 (some 0)
      = some ⟨(true, some 30), { g_WkTmr with _bWakeEvtSet := true },
          [⟨30, wakeBundleID, kIOPMAutoWake⟩],
          [Event.IOPMCopyScheduledPowerEvents,
           Event.IOPMSchedulePowerEvent 30 wakeBundleID kIOPMAutoWake kIOReturnSuccess,
           Event.IOPMCopyScheduledPowerEvents]⟩ ∧
    WakeTimer.getWakeEventInfo { g_WkTmr with _bWakeEvtSet := true } (some 12345) none
      = some ⟨(true, some 0, none), { g_WkTmr with _bWakeEvtSet := true }, []⟩ ∧
    (∀ (κ : Type) (pm : PowerManagement κ) (k : κ) (w : WakeTimer) (t old : CFAbsoluteTime)
        (out : Option CFAbsoluteTime) (r : PMOutcome κ WakeTimer (Bool × Option CFAbsoluteTime)),
      w._lock.isFree → w.setWakeEventAbsolute pm k t out = some r → r.ret.1 = true →
      r.self.getWakeEventInfo (some old) none
        = some ⟨(true, some w._dtmWake, none), r.self, []⟩) ∧
    (∀ (κ : Type) (pm : PowerManagement κ) (k : κ) (w : WakeTimer) (now old : CFAbsoluteTime)
        (ms : Nat) (out : Option CFAbsoluteTime)
        (r : PMOutcome κ WakeTimer (Bool × Option CFAbsoluteTime)),
      w._lock.isFree → w.setWakeEventRelative pm k now ms out = some r → r.ret.1 = true →
      r.self.getWakeEventInfo (some old) none
        = some ⟨(true, some w._dtmWake, none), r.self, []⟩) := by
  have key : ∀ (κ : Type) (pm : PowerManagement κ) (k : κ) (w : WakeTimer)
      (t old : CFAbsoluteTime) (out : Option CFAbsoluteTime)
      (r : PMOutcome κ WakeTimer (Bool × Option CFAbsoluteTime)),
      w._lock.isFree → w.setWakeEventAbsolute pm k t out = some r → r.ret.1 = true →
      r.self.getWakeEventInfo (some old) none
        = some ⟨(true, some w._dtmWake, none), r.self, []⟩ := by
    intro κ pm k w t old out r hl h hret
    have hs := WakeTimer.setWakeEventAbsolute_true pm k w t out r hl h hret
    rw [hs]
    exact WakeTimer.getWakeEventInfo_shared { w with _bWakeEvtSet := true } (some old) none hl.2
  refine ⟨by decide, by decide, key, ?_⟩
  intro κ pm k w now old ms out r hl h hret
  rw [WakeTimer.setWakeEventRelative_eq] at h
  exact key κ pm k w _ old out r hl h hret

/-- C17 (counterexample): on the timer of `main.cpp` and an operating system
with an empty schedule on which every call succeeds, `setWakeEventAbsolute(30)`
returns true, `cancelEvents` with the timer's own bundle identifier then
returns true with one event cancelled and leaves the schedule empty, and the
following `getWakeEventInfo` returns true, not false. -/
theorem C17_query_after_cancelEvents_counterexample :
    (g_WkTmr.setWakeEventAbsolute scheduleOS [] 30 none).bind (fun r1 =>
      (r1.self.cancelEvents scheduleOS r1.os (some wakeBundleID) none (some 0)).bind (fun r2 =>
        (r2.self.getWakeEventInfo none none).map (fun r3 =>
          (r1.ret.1, r1.os, r2.ret, r2.os, r3.ret.1))))
      = some (true, [⟨30, wakeBundleID, kIOPMAutoWake⟩], (true, some 1), [], true) := by
  decide

/-- C17 (amended): `cancelEvents` on a timer with a free lock returns and leaves
every data member of the timer as it was, whatever its arguments and whatever
it cancels; so after a wake event has been scheduled successfully, a following
`getWakeEventInfo` still returns true after `cancelEvents`, and it is
`stopWakeEvent` after which `getWakeEventInfo` returns false. -/
theorem C17_cancelEvents_keeps_cached_state {κ : Type} (pm : PowerManagement κ) (k k2 : κ)
    (w : WakeTimer) (t : CFAbsoluteTime) (out : Option CFAbsoluteTime)
    (b e : Option CStr) (cnt : Option Nat)
    (r1 : PMOutcome κ WakeTimer (Bool × Option CFAbsoluteTime))
    (hl : w._lock.isFree) (h : w.setWakeEventAbsolute pm k t out = some r1)
    (hret : r1.ret.1 = true) :
    (∃ r2, r1.self.cancelEvents pm k2 b e cnt = some r2 ∧ r2.self = r1.self ∧
      ∀ o1 o2, ∃ r3, r2.self.getWakeEventInfo o1 o2 = some r3 ∧ r3.ret.1 = true) ∧
    (∃ r4, r1.self.stopWakeEvent pm k2 = some r4 ∧
      ∀ o1 o2, ∃ r5, r4.self.getWakeEventInfo o1 o2 = some r5 ∧ r5.ret.1 = false) := by
  have hs := WakeTimer.setWakeEventAbsolute_true pm k w t out r1 hl h hret
  have hl1 : r1.self._lock.isFree := by rw [hs]; exact hl
  constructor
  · refine ⟨_, WakeTimer.cancelEvents_free pm k2 r1.self b e cnt hl1, rfl, ?_⟩
    intro o1 o2
    refine ⟨_, WakeTimer.getWakeEventInfo_shared r1.self o1 o2 hl1.2, ?_⟩
    rw [hs]
  · refine ⟨_, WakeTimer.stopWakeEvent_free pm k2 r1.self hl1, ?_⟩
    intro o1 o2
    exact ⟨_, WakeTimer.getWakeEventInfo_shared
      { r1.self with _dtmWake := 0, _bWakeEvtSet := false } o1 o2 hl1.2, rfl⟩

/-- C17 (amended) at a concrete input: the timer of `main.cpp`, an event
scheduled at time 30 on an empty schedule, then `cancelEvents` with the timer's
own identifier. -/
theorem C17_cancelEvents_keeps_cached_state_witness :
    (g_WkTmr._lock.isFree ∧
      g_WkTmr.setWakeEventAbsolute scheduleOS [] 30 none
        = some ⟨(true, none), { g_WkTmr with _bWakeEvtSet := true },
            [⟨30, wakeBundleID, kIOPMAutoWake⟩],
            [Event.IOPMCopyScheduledPowerEvents,
             Event.IOPMSchedulePowerEvent 30 wakeBundleID kIOPMAutoWake kIOReturnSuccess]⟩) ∧
    ((∃ r2, WakeTimer.cancelEvents scheduleOS [⟨30, wakeBundleID, kIOPMAutoWake⟩]
          { g_WkTmr with _bWakeEvtSet := true } (some wakeBundleID) none (some 0) = some r2 ∧
        r2.self = { g_WkTmr with _bWakeEvtSet := true } ∧
        ∀ o1 o2, ∃ r3, r2.self.getWakeEventInfo o1 o2 = some r3 ∧ r3.ret.1 = true) ∧
      (∃ r4, WakeTimer.stopWakeEvent scheduleOS [⟨30, wakeBundleID, kIOPMAutoWake⟩]
          { g_WkTmr with _bWakeEvtSet := true } = some r4 ∧
        ∀ o1 o2, ∃ r5, r4.self.getWakeEventInfo o1 o2 = some r5 ∧ r5.ret.1 = false)) :=
  ⟨⟨by decide, by decide⟩,
    C17_cancelEvents_keeps_cached_state scheduleOS [] [⟨30, wakeBundleID, kIOPMAutoWake⟩]
      g_WkTmr 30 none (some wakeBundleID) none (some 0)
      ⟨(true, none), { g_WkTmr with _bWakeEvtSet := true },
        [⟨30, wakeBundleID, kIOPMAutoWake⟩],
        [Event.IOPMCopyScheduledPowerEvents,
         Event.IOPMSchedulePowerEvent 30 wakeBundleID kIOPMAutoWake kIOReturnSuccess]⟩
      (by decide) (by decide) rfl⟩

/-! ## The wake timer: the enumeration of the schedule -/

/-- A filter string created without error is the text of the argument, `none`
for a null or empty argument, and no assertion fails. -/
theorem createFilter_ok {κ : Type} (pm : PowerManagement κ) (k : κ) (p : Option CStr)
    (line : Nat) (h : (createFilter pm k p line).2.1 = true) :
    (createFilter pm k p line).1 = filterText p ∧ (createFilter pm k p line).2.2.2 = [] := by
  unfold createFilter filterText at *
  cases p with
  | none => exact ⟨rfl, rfl⟩
  | some s =>
    simp only at h ⊢
    split_ifs at h ⊢ <;> exact ⟨rfl, rfl⟩

/-- With its two filter strings created, `_cancelEvents` reads the schedule,
enumerates it with the texts of its arguments as filters, and runs the cancel
loop on the entries selected. -/
theorem WakeTimer.cancelEvents_created {κ : Type} (pm : PowerManagement κ) (k : κ)
    (b e : Option CStr) (h : filtersCreated pm k b e) :
    WakeTimer._cancelEvents pm k b e =
      ⟨(cancelLoop pm (pm.IOPMCopyScheduledPowerEvents (stateAtRead pm k b e)).2
          ((scheduleRead pm k b e).foldl (scanItem (filterText b) (filterText e))
            ⟨true, [], []⟩).arrRem
          ((scheduleRead pm k b e).foldl (scanItem (filterText b) (filterText e))
            ⟨true, [], []⟩).bResult 0).ret,
        (cancelLoop pm (pm.IOPMCopyScheduledPowerEvents (stateAtRead pm k b e)).2
          ((scheduleRead pm k b e).foldl (scanItem (filterText b) (filterText e))
            ⟨true, [], []⟩).arrRem
          ((scheduleRead pm k b e).foldl (scanItem (filterText b) (filterText e))
            ⟨true, [], []⟩).bResult 0).szCntCanceled,
        (cancelLoop pm (pm.IOPMCopyScheduledPowerEvents (stateAtRead pm k b e)).2
          ((scheduleRead pm k b e).foldl (scanItem (filterText b) (filterText e))
            ⟨true, [], []⟩).arrRem
          ((scheduleRead pm k b e).foldl (scanItem (filterText b) (filterText e))
            ⟨true, [], []⟩).bResult 0).os,
        [Event.IOPMCopyScheduledPowerEvents]
          ++ ((scheduleRead pm k b e).foldl (scanItem (filterText b) (filterText e))
            ⟨true, [], []⟩).trace
          ++ (cancelLoop pm (pm.IOPMCopyScheduledPowerEvents (stateAtRead pm k b e)).2
            ((scheduleRead pm k b e).foldl (scanItem (filterText b) (filterText e))
              ⟨true, [], []⟩).arrRem
            ((scheduleRead pm k b e).foldl (scanItem (filterText b) (filterText e))
              ⟨true, [], []⟩).bResult 0).trace⟩ := by
  obtain ⟨h1, h2⟩ := h
  obtain ⟨e1, t1⟩ := createFilter_ok pm k b 439 h1
  obtain ⟨e2, t2⟩ := createFilter_ok pm (createFilter pm k b 439).2.2.1 e 454 h2
  unfold WakeTimer._cancelEvents scheduleRead stateAtRead
  simp only [h1, h2, e1, e2, t1, t2, Bool.and_self, if_true, List.append_nil, List.nil_append]
  cases (pm.IOPMCopyScheduledPowerEvents
    (createFilter pm (createFilter pm k b 439).2.2.1 e 454).2.2.1).1 <;> rfl

/-- When a filter string cannot be created `_cancelEvents` returns false with
nothing cancelled, without reading the schedule or attempting a cancellation. -/
theorem WakeTimer.cancelEvents_not_created {κ : Type} (pm : PowerManagement κ) (k : κ)
    (b e : Option CStr) (h : ¬ filtersCreated pm k b e) :
    (WakeTimer._cancelEvents pm k b e).ret = false ∧
    (WakeTimer._cancelEvents pm k b e).szCntCanceled = 0 ∧
    cancelAttempts (WakeTimer._cancelEvents pm k b e).trace = [] := by
  have hb : ((createFilter pm k b 439).2.1
      && (createFilter pm (createFilter pm k b 439).2.2.1 e 454).2.1) = false := by
    unfold filtersCreated at h
    cases h1 : (createFilter pm k b 439).2.1 <;>
      cases h2 : (createFilter pm (createFilter pm k b 439).2.2.1 e 454).2.1 <;> simp_all
  have ht : ∀ (q : κ) (p : Option CStr) (line : Nat),
      cancelAttempts (createFilter pm q p line).2.2.2 = [] := by
    intro q p line
    unfold createFilter
    cases p with
    | none => rfl
    | some s => simp only; split_ifs <;> rfl
  have happ : ∀ xs ys : List Event, cancelAttempts xs = [] → cancelAttempts ys = [] →
      cancelAttempts (xs ++ ys) = [] := by
    intro xs ys hx hy
    induction xs with
    | nil => simpa using hy
    | cons x xs ih =>
      cases x <;> simp_all [cancelAttempts]
  unfold WakeTimer._cancelEvents
  simp only [hb, Bool.false_eq_true, if_false, true_and]
  exact happ _ _ (ht _ _ _) (ht _ _ _)

/-- The function `CFStringCompare` answers `kCFCompareEqualTo` exactly when the
two texts agree unit by unit, after folding when the options say so. -/
theorem CFStringCompare_eq_iff (a b : CFStr) (compareOptions : Nat) :
    CFStringCompare a b compareOptions = kCFCompareEqualTo ↔
      a.map (compareUnit compareOptions) = b.map (compareUnit compareOptions) := by
  induction a generalizing b with
  | nil =>
    cases b with
    | nil => simp [CFStringCompare]
    | cons y ys => simp [CFStringCompare, kCFCompareLessThan, kCFCompareEqualTo]
  | cons x xs ih =>
    cases b with
    | nil => simp [CFStringCompare, kCFCompareGreaterThan, kCFCompareEqualTo]
    | cons y ys =>
      simp only [CFStringCompare, List.map_cons, List.cons.injEq]
      split_ifs with h1 h2
      · simp only [kCFCompareLessThan, kCFCompareEqualTo]
        constructor
        · intro h; exact absurd h (by decide)
        · intro h; exact absurd h.1 (Nat.ne_of_lt h1)
      · simp only [kCFCompareGreaterThan, kCFCompareEqualTo]
        constructor
        · intro h; exact absurd h (by decide)
        · intro h; exact absurd h.1.symm (Nat.ne_of_lt h2)
      · rw [ih ys]
        constructor
        · intro h; exact ⟨Nat.le_antisymm (Nat.le_of_not_lt h2) (Nat.le_of_not_lt h1), h⟩
        · intro h; exact h.2

/-- The identifier test of `_cancelEvents` on the text of a filter argument is
the test of the specification: null or empty argument, or equal ignoring
case. -/
theorem filterAccepts_bundle (b : Option CStr) (v : CFStr) :
    filterAccepts (filterText b) v kCFCompareCaseInsensitive =
      (match filterText b with
        | none => true
        | some t => decide (equalIgnoringCase t v)) := by
  cases h : filterText b with
  | none => rfl
  | some t =>
    simp only [filterAccepts, equalIgnoringCase]
    have hu : compareUnit kCFCompareCaseInsensitive = tolower := by
      funext c; simp [compareUnit, kCFCompareCaseInsensitive]
    have := CFStringCompare_eq_iff t v kCFCompareCaseInsensitive
    rw [hu] at this
    exact decide_eq_decide.mpr this

/-- The type test of `_cancelEvents` on the text of a filter argument is the
test of the specification: null or empty argument, or the same text. -/
theorem filterAccepts_type (e : Option CStr) (u : CFStr) :
    filterAccepts (filterText e) u 0 =
      (match filterText e with
        | none => true
        | some t => decide (t = u)) := by
  cases h : filterText e with
  | none => rfl
  | some t =>
    simp only [filterAccepts]
    have hu : compareUnit 0 = id := by
      funext c; simp [compareUnit]
    have := CFStringCompare_eq_iff t u 0
    rw [hu, List.map_id, List.map_id] at this
    exact decide_eq_decide.mpr this

/-- The two tests of `_cancelEvents` on the texts of its filter arguments, taken
together, are the filter of the specification. -/
theorem selectedForCancel_eq (b e : Option CStr) (ev : PowerEvent) :
    selectedForCancel b e ev =
      (filterAccepts (filterText b) ev.appName kCFCompareCaseInsensitive
        && filterAccepts (filterText e) ev.type 0) := by
  rw [filterAccepts_bundle, filterAccepts_type]
  unfold selectedForCancel
  cases filterText b <;> cases filterText e <;> rfl

/-- The body of the enumeration loop on a well-formed entry: the entry is
pushed, with its own date, app name and type, exactly when the specification
selects it; nothing else changes. -/
theorem scanItem_wellFormed (b e : Option CStr) (st : ScanState) (ev : PowerEvent) :
    scanItem (filterText b) (filterText e) st ev.toArrayValue =
      if selectedForCancel b e ev = true then
        { st with arrRem := st.arrRem ++ [⟨some ev.time, some ev.appName, some ev.type⟩] }
      else st := by
  rw [selectedForCancel_eq]
  cases h1 : filterAccepts (filterText b) ev.appName kCFCompareCaseInsensitive <;>
    cases h2 : filterAccepts (filterText e) ev.type 0 <;>
    simp [scanItem, PowerEvent.toArrayValue, scanType, scanDate, REM_EVT_INFO.clearIt, h1, h2]

/-- The enumeration of a well-formed schedule: `bResult` and the trace are as
before, and `arrRem` has gained the entries the specification selects, in the
order of the schedule. -/
theorem scan_wellFormed (b e : Option CStr) (evs : List PowerEvent) (st : ScanState) :
    (evs.map PowerEvent.toArrayValue).foldl (scanItem (filterText b) (filterText e)) st =
      ⟨st.bResult,
        st.arrRem ++ (evs.filter (fun ev => selectedForCancel b e ev)).map
          (fun ev => (⟨some ev.time, some ev.appName, some ev.type⟩ : REM_EVT_INFO)),
        st.trace⟩ := by
  induction evs generalizing st with
  | nil => simp
  | cons ev rest ih =>
    rw [List.map_cons, List.foldl_cons, scanItem_wellFormed, ih]
    by_cases h : selectedForCancel b e ev = true
    · simp [h, List.filter_cons]
    · simp [h, List.filter_cons]

/-! ## The wake timer: the cancel loop -/

/-- The attempts in a concatenation of traces. -/
theorem cancelAttempts_append (xs ys : List Event) :
    cancelAttempts (xs ++ ys) = cancelAttempts xs ++ cancelAttempts ys := by
  induction xs with
  | nil => rfl
  | cons x xs ih => cases x <;> simp [cancelAttempts, ih]

/-- The results of the attempts in a concatenation of traces. -/
theorem cancelResults_append (xs ys : List Event) :
    cancelResults (xs ++ ys) = cancelResults xs ++ cancelResults ys := by
  induction xs with
  | nil => rfl
  | cons x xs ih => cases x <;> simp [cancelResults, ih]

/-- The three assertions at the head of the cancel loop are no attempts. -/
theorem remAsserts_no_attempt (rei : REM_EVT_INFO) :
    cancelAttempts (remAsserts rei) = [] ∧ cancelResults (remAsserts rei) = [] := by
  unfold remAsserts
  split_ifs <;> exact ⟨rfl, rfl⟩

/-- The cancel loop: it attempts every entry of `arrRem`, in order, with the
entry's date, app name and type, whatever the earlier attempts have returned;
its result is the `bResult` it started from and every attempt having returned
`kIOReturnSuccess` or `kIOReturnNotFound`; and it adds to `szCntCanceled` the
number of attempts that returned `kIOReturnSuccess`. -/
theorem cancelLoop_spec {κ : Type} (pm : PowerManagement κ) (arr : List REM_EVT_INFO) :
    ∀ (k : κ) (bResult : Bool) (cnt : Nat),
      cancelAttempts (cancelLoop pm k arr bResult cnt).trace
        = arr.map (fun r => (r.refDate, r.refID, r.refType)) ∧
      (cancelLoop pm k arr bResult cnt).ret
        = (bResult && (cancelResults (cancelLoop pm k arr bResult cnt).trace).all attemptOK) ∧
      (cancelLoop pm k arr bResult cnt).szCntCanceled
        = cnt + (cancelResults (cancelLoop pm k arr bResult cnt).trace).countP
            (fun r => r = kIOReturnSuccess) := by
  induction arr with
  | nil => intro k bResult cnt; simp [cancelLoop, cancelAttempts, cancelResults]
  | cons rei rest ih =>
    intro k bResult cnt
    obtain ⟨ha, hr⟩ := remAsserts_no_attempt rei
    unfold cancelLoop
    simp only
    have hnf : kIOReturnNotFound ≠ kIOReturnSuccess := by decide
    split_ifs with h1 h2
    · obtain ⟨i1, i2, i3⟩ := ih (pm.IOPMCancelScheduledPowerEvent k rei.refDate rei.refID
        rei.refType).2 bResult (cnt + 1)
      refine ⟨?_, ?_, ?_⟩
      · simp [cancelAttempts_append, ha, cancelAttempts, i1]
      · simp [cancelResults_append, hr, cancelResults, i2, attemptOK, h1]
      · simp [cancelResults_append, hr, cancelResults, i3, h1]
        omega
    · obtain ⟨i1, i2, i3⟩ := ih (pm.IOPMCancelScheduledPowerEvent k rei.refDate rei.refID
        rei.refType).2 false cnt
      refine ⟨?_, ?_, ?_⟩
      · simp [cancelAttempts_append, ha, cancelAttempts, i1]
      · simp [cancelResults_append, hr, cancelResults, i2, attemptOK, h1, h2]
      · simp [cancelResults_append, hr, cancelResults, i3, h1]
    · obtain ⟨i1, i2, i3⟩ := ih (pm.IOPMCancelScheduledPowerEvent k rei.refDate rei.refID
        rei.refType).2 bResult cnt
      have heq : (pm.IOPMCancelScheduledPowerEvent k rei.refDate rei.refID rei.refType).1
          = kIOReturnNotFound := not_not.mp h2
      refine ⟨?_, ?_, ?_⟩
      · simp [cancelAttempts_append, ha, cancelAttempts, i1]
      · simp [cancelResults_append, hr, cancelResults, i2, attemptOK, heq]
      · simp [cancelResults_append, hr, cancelResults, i3, heq, hnf]

/-- Every attempt in a trace has one result. -/
theorem cancelResults_length (tr : List Event) :
    (cancelResults tr).length = (cancelAttempts tr).length := by
  induction tr with
  | nil => rfl
  | cons x xs ih => cases x <;> simp [cancelResults, cancelAttempts, ih]

/-- Private member `_cancelEvents` on a well-formed schedule, its two filter
strings created: the attempts are the entries the specification selects, in
the order of the schedule, each with its own date, app name and type; the
result is true exactly when every attempt returned `kIOReturnSuccess` or
`kIOReturnNotFound`; the count is the number of attempts that returned
`kIOReturnSuccess`. -/
theorem WakeTimer.cancelEvents_wellFormed {κ : Type} (pm : PowerManagement κ) (k : κ)
    (b e : Option CStr) (evs : List PowerEvent) (hc : filtersCreated pm k b e)
    (hs : scheduleRead pm k b e = evs.map PowerEvent.toArrayValue) :
    cancelAttempts (WakeTimer._cancelEvents pm k b e).trace
      = (evs.filter (fun ev => selectedForCancel b e ev)).map PowerEvent.asAttempt ∧
    ((WakeTimer._cancelEvents pm k b e).ret = true ↔
      ∀ r ∈ cancelResults (WakeTimer._cancelEvents pm k b e).trace,
        r = kIOReturnSuccess ∨ r = kIOReturnNotFound) ∧
    (WakeTimer._cancelEvents pm k b e).szCntCanceled
      = (cancelResults (WakeTimer._cancelEvents pm k b e).trace).countP
          (fun r => r = kIOReturnSuccess) := by
  have e1 : ∀ T : List Event,
      cancelAttempts ([Event.IOPMCopyScheduledPowerEvents] ++ [] ++ T) = cancelAttempts T :=
    fun _ => rfl
  have e2 : ∀ T : List Event,
      cancelResults ([Event.IOPMCopyScheduledPowerEvents] ++ [] ++ T) = cancelResults T :=
    fun _ => rfl
  rw [WakeTimer.cancelEvents_created pm k b e hc, hs, scan_wellFormed]
  simp only [List.nil_append, e1, e2]
  obtain ⟨i1, i2, i3⟩ := cancelLoop_spec pm
    ((evs.filter (fun ev => selectedForCancel b e ev)).map
      (fun ev => (⟨some ev.time, some ev.appName, some ev.type⟩ : REM_EVT_INFO)))
    (pm.IOPMCopyScheduledPowerEvents (stateAtRead pm k b e)).2 true 0
  refine ⟨?_, ?_, ?_⟩
  · rw [i1, List.map_map]
    rfl
  · rw [i2]
    simp [attemptOK]
  · rw [i3]
    simp

/-! ## The wake timer: stopping and cancelling -/

/-- C18 (counterexample): three inputs on which the schedule holds no event
for the timer's identifier and `stopWakeEvent` does not return true without
attempting a cancellation.  On the timer of `main.cpp`, an empty schedule and
an operating system on which `CFStringCreateWithCString` returns a null
reference, it returns false, its trace being the failed assertion of line 439
alone.  On the same timer and an operating system whose schedule array has an
element that is not a dictionary, it returns false after the failed assertion
of line 606.  On a timer constructed with the empty identifier and a schedule
holding one event of another application, it attempts and performs the
cancellation of that event. -/
theorem C18_stop_on_empty_schedule_counterexample :
    g_WkTmr.stopWakeEvent noStringsOS []
      = some ⟨false, g_WkTmr, [], [Event.assertFailed 439]⟩ ∧
    g_WkTmr.stopWakeEvent malformedOS []
      = some ⟨false, g_WkTmr, [],
          [Event.IOPMCopyScheduledPowerEvents, Event.assertFailed 606]⟩ ∧
    WakeTimer.stopWakeEvent scheduleOS [⟨300, cstr "com.example.other", kIOPMAutoWake⟩]
        (WakeTimer.ctor (some [])).self
      = some ⟨true, (WakeTimer.ctor (some [])).self, [],
          [Event.IOPMCopyScheduledPowerEvents,
           Event.IOPMCancelScheduledPowerEvent (some 300) (some (cstr "com.example.other"))
             (some kIOPMAutoWake) kIOReturnSuccess]⟩ := by
  decide

/-- C18 (amended): `stopWakeEvent` on a timer with a free lock returns and
always leaves the timer in the not-set state, whether it returns true or
false: a following `getWakeEventInfo` returns false with wake time 0 and the
timer's bundle identifier, which is the text given to the constructor and
which `setWakeEventAbsolute` and `cancelEvents` do not change.  And when the
filter string for the identifier is created and the schedule read is well
formed and holds no event whose app name equals the identifier ignoring case,
the identifier having text, `stopWakeEvent` returns true and its trace is the
one call of `IOPMCopyScheduledPowerEvents`: no cancellation is attempted. -/
theorem C18_stop_leaves_not_set {κ : Type} (pm : PowerManagement κ) (k : κ) (w : WakeTimer)
    (o1 : CFAbsoluteTime) (o2 : List Nat) (hl : w._lock.isFree) :
    (∃ r, w.stopWakeEvent pm k = some r ∧
      r.self = { w with _dtmWake := 0, _bWakeEvtSet := false } ∧
      r.self.getWakeEventInfo (some o1) (some o2)
        = some ⟨(false, some 0, some w._strTmrBundleID), r.self, []⟩) ∧
    (∀ p : CStr, (WakeTimer.ctor (some p)).self._strTmrBundleID = strContents p) ∧
    (∀ (t : CFAbsoluteTime) (out : Option CFAbsoluteTime) (b e : Option CStr)
        (cnt : Option Nat),
      (∀ r, w.setWakeEventAbsolute pm k t out = some r →
        r.self._strTmrBundleID = w._strTmrBundleID) ∧
      (∀ r, w.cancelEvents pm k b e cnt = some r →
        r.self._strTmrBundleID = w._strTmrBundleID)) ∧
    (∀ evs : List PowerEvent, filtersCreated pm k (some w._strTmrBundleID) none →
      scheduleRead pm k (some w._strTmrBundleID) none = evs.map PowerEvent.toArrayValue →
      hasText (some w._strTmrBundleID) = true →
      (∀ ev ∈ evs, ¬ equalIgnoringCase (strContents w._strTmrBundleID) ev.appName) →
      ∃ r, w.stopWakeEvent pm k = some r ∧ r.ret = true ∧
        r.trace = [Event.IOPMCopyScheduledPowerEvents]) := by
  refine ⟨⟨_, WakeTimer.stopWakeEvent_free pm k w hl, rfl, ?_⟩, fun p => rfl, ?_, ?_⟩
  · exact WakeTimer.getWakeEventInfo_shared { w with _dtmWake := 0, _bWakeEvtSet := false }
      (some o1) (some o2) hl.2
  · intro t out b e cnt
    constructor
    · intro r h
      rw [WakeTimer.setWakeEventAbsolute_free pm k w t out hl] at h
      cases h
      exact (WakeTimer.setWakeEvent_lock pm k { w with _lock := ⟨0, true⟩ } t
        WAKE_TIMER_EVENT_TYPE out).2
    · intro r h
      rw [WakeTimer.cancelEvents_free pm k w b e cnt hl] at h
      cases h
      rfl
  · intro evs hc hs ht hno
    have hsel : evs.filter (fun ev => selectedForCancel (some w._strTmrBundleID) none ev)
        = [] := by
      rw [List.filter_eq_nil_iff]
      intro ev hev
      have := hno ev hev
      simp [selectedForCancel, filterText, ht, this]
    have hfold := scan_wellFormed (some w._strTmrBundleID) none evs ⟨true, [], []⟩
    rw [hsel] at hfold
    refine ⟨_, WakeTimer.stopWakeEvent_free pm k w hl, ?_, ?_⟩
    · rw [WakeTimer.cancelEvents_created pm k _ none hc, hs, hfold]
      rfl
    · rw [WakeTimer.cancelEvents_created pm k _ none hc, hs, hfold]
      rfl

/-- C18 (amended) at a concrete input: the timer of `main.cpp` with a wake
event set, and a schedule holding one event of another application. -/
theorem C18_stop_leaves_not_set_witness :
    RDR_WRTR.isFree ({ g_WkTmr with _bWakeEvtSet := true } : WakeTimer)._lock ∧
    WakeTimer.stopWakeEvent scheduleOS [⟨300, cstr "com.example.other", kIOPMAutoWake⟩]
        { g_WkTmr with _bWakeEvtSet := true }
      = some ⟨true, g_WkTmr, [⟨300, cstr "com.example.other", kIOPMAutoWake⟩],
          [Event.IOPMCopyScheduledPowerEvents]⟩ ∧
    (∃ r, WakeTimer.stopWakeEvent scheduleOS [⟨300, cstr "com.example.other", kIOPMAutoWake⟩]
        { g_WkTmr with _bWakeEvtSet := true } = some r ∧
      r.self = { ({ g_WkTmr with _bWakeEvtSet := true } : WakeTimer) with
                  _dtmWake := 0, _bWakeEvtSet := false } ∧
      r.self.getWakeEventInfo (some 1) (some [])
        = some ⟨(false, some 0,
            some ({ g_WkTmr with _bWakeEvtSet := true } : WakeTimer)._strTmrBundleID),
            r.self, []⟩) :=
  ⟨by decide, by decide,
    (C18_stop_leaves_not_set scheduleOS [⟨300, cstr "com.example.other", kIOPMAutoWake⟩]
      { g_WkTmr with _bWakeEvtSet := true } 1 [] (by decide)).1⟩

/-- C19 (counterexample): on the sample schedule, which is well formed and has
two events matching the identifier of `main.cpp` and the type `wake`, and an
operating system on which `CFStringCreateWithCString` returns a null
reference, `_cancelEvents` attempts no cancellation and returns false: the
result is false although no attempt returned an error, and the matching
entries are not attempted. -/
theorem C19_no_attempt_yet_false_counterexample :
    WakeTimer._cancelEvents noStringsOS sampleSchedule (some wakeBundleID) (some kIOPMAutoWake)
      = ⟨false, 0, sampleSchedule, [Event.assertFailed 439, Event.assertFailed 454]⟩ ∧
    (sampleSchedule.filter
      (fun ev => selectedForCancel (some wakeBundleID) (some kIOPMAutoWake) ev)).length = 2 ∧
    ¬ ((WakeTimer._cancelEvents noStringsOS sampleSchedule (some wakeBundleID)
          (some kIOPMAutoWake)).ret = true ↔
        ∀ r ∈ cancelResults (WakeTimer._cancelEvents noStringsOS sampleSchedule
            (some wakeBundleID) (some kIOPMAutoWake)).trace,
          r = kIOReturnSuccess ∨ r = kIOReturnNotFound) := by
  decide

/-- C19 (amended): for a schedule whose entries are all well formed, and with
the filter strings of `_cancelEvents` created, `_cancelEvents` attempts
`IOPMCancelScheduledPowerEvent` once for every entry the filter selects,
whatever the earlier attempts have returned; it returns true if and only if
every attempt returned `kIOReturnSuccess` or `kIOReturnNotFound`; and the
count it reports is the number of attempts that returned `kIOReturnSuccess`.
When a filter string cannot be created it attempts nothing, returns false
and reports the count 0, on every schedule. -/
theorem C19_best_effort_cancellation {κ : Type} (pm : PowerManagement κ) (k : κ)
    (b e : Option CStr) (evs : List PowerEvent) (hc : filtersCreated pm k b e)
    (hs : scheduleRead pm k b e = evs.map PowerEvent.toArrayValue) :
    ((cancelResults (WakeTimer._cancelEvents pm k b e).trace).length
        = (evs.filter (fun ev => selectedForCancel b e ev)).length ∧
      ((WakeTimer._cancelEvents pm k b e).ret = true ↔
        ∀ r ∈ cancelResults (WakeTimer._cancelEvents pm k b e).trace,
          r = kIOReturnSuccess ∨ r = kIOReturnNotFound) ∧
      (WakeTimer._cancelEvents pm k b e).szCntCanceled
        = (cancelResults (WakeTimer._cancelEvents pm k b e).trace).countP
            (fun r => r = kIOReturnSuccess)) ∧
    (∀ (k2 : κ) (b2 e2 : Option CStr), ¬ filtersCreated pm k2 b2 e2 →
      (WakeTimer._cancelEvents pm k2 b2 e2).ret = false ∧
      (WakeTimer._cancelEvents pm k2 b2 e2).szCntCanceled = 0 ∧
      cancelAttempts (WakeTimer._cancelEvents pm k2 b2 e2).trace = []) := by
  obtain ⟨h1, h2, h3⟩ := WakeTimer.cancelEvents_wellFormed pm k b e evs hc hs
  refine ⟨⟨?_, h2, h3⟩, fun k2 b2 e2 h => WakeTimer.cancelEvents_not_created pm k2 b2 e2 h⟩
  rw [cancelResults_length, h1, List.length_map]

/-- C19 (amended) at a concrete input: the sample schedule on an operating
system that refuses to cancel the event at time 100.  Both matching entries
are attempted, the first attempt fails and the second succeeds, so the result
is false and the count is 1. -/
theorem C19_best_effort_cancellation_witness :
    (filtersCreated guardedOS sampleSchedule (some wakeBundleID) (some kIOPMAutoWake) ∧
      scheduleRead guardedOS sampleSchedule (some wakeBundleID) (some kIOPMAutoWake)
        = sampleSchedule.map PowerEvent.toArrayValue) ∧
    (cancelResults (WakeTimer._cancelEvents guardedOS sampleSchedule (some wakeBundleID)
        (some kIOPMAutoWake)).trace = [kIOReturnNotPrivileged, kIOReturnSuccess] ∧
      (WakeTimer._cancelEvents guardedOS sampleSchedule (some wakeBundleID)
        (some kIOPMAutoWake)).ret = false ∧
      (WakeTimer._cancelEvents guardedOS sampleSchedule (some wakeBundleID)
        (some kIOPMAutoWake)).szCntCanceled = 1) ∧
    ((cancelResults (WakeTimer._cancelEvents guardedOS sampleSchedule (some wakeBundleID)
          (some kIOPMAutoWake)).trace).length
        = (sampleSchedule.filter
            (fun ev => selectedForCancel (some wakeBundleID) (some kIOPMAutoWake) ev)).length ∧
      ((WakeTimer._cancelEvents guardedOS sampleSchedule (some wakeBundleID)
          (some kIOPMAutoWake)).ret = true ↔
        ∀ r ∈ cancelResults (WakeTimer._cancelEvents guardedOS sampleSchedule
            (some wakeBundleID) (some kIOPMAutoWake)).trace,
          r = kIOReturnSuccess ∨ r = kIOReturnNotFound) ∧
      (WakeTimer._cancelEvents guardedOS sampleSchedule (some wakeBundleID)
          (some kIOPMAutoWake)).szCntCanceled
        = (cancelResults (WakeTimer._cancelEvents guardedOS sampleSchedule
            (some wakeBundleID) (some kIOPMAutoWake)).trace).countP
            (fun r => r = kIOReturnSuccess)) :=
  ⟨by decide, by decide,
    (C19_best_effort_cancellation guardedOS sampleSchedule (some wakeBundleID)
      (some kIOPMAutoWake) sampleSchedule (by decide) (by decide)).1⟩

/-- C20 (counterexample): on the sample schedule, four of whose events the
filter for the identifier of `main.cpp` and any type selects, and an operating
system on which `CFStringCreateWithCString` returns a null reference,
`cancelEvents` passes nothing to `IOPMCancelScheduledPowerEvent`: the entries
selected are not the entries attempted. -/
theorem C20_selected_not_attempted_counterexample :
    g_WkTmr.cancelEvents noStringsOS sampleSchedule (some wakeBundleID) none none
      = some ⟨(false, none), g_WkTmr, sampleSchedule, [Event.assertFailed 439]⟩ ∧
    cancelAttempts [Event.assertFailed 439] = [] ∧
    (sampleSchedule.filter (fun ev => selectedForCancel (some wakeBundleID) none ev)).map
        PowerEvent.asAttempt
      = [(some 100, some (cstr "com.dennisbabkin.wake01"), some (cstr "wake")),
         (some 200, some (cstr "COM.DENNISBABKIN.WAKE01"), some (cstr "wake")),
         (some 400, some (cstr "com.dennisbabkin.wake01"), some (cstr "poweron")),
         (some 500, some (cstr "com.dennisbabkin.wake01"), some (cstr "Wake"))] := by
  decide

/-- C20 (amended): for a well-formed schedule, and with the filter strings of
`_cancelEvents` created, the calls of `IOPMCancelScheduledPowerEvent` that
`_cancelEvents(bundleID, eventType)` makes are, in the order of the schedule
and once each, the entries whose app name equals `bundleID` ignoring case (or
`bundleID` is null or empty) and whose type equals `eventType` exactly (or
`eventType` is null or empty), each with its own date, app name and type; so
no other entry is passed to `IOPMCancelScheduledPowerEvent`.  When a filter
string cannot be created no entry at all is passed to it. -/
theorem C20_cancellation_filter {κ : Type} (pm : PowerManagement κ) (k : κ)
    (b e : Option CStr) (evs : List PowerEvent) (hc : filtersCreated pm k b e)
    (hs : scheduleRead pm k b e = evs.map PowerEvent.toArrayValue) :
    cancelAttempts (WakeTimer._cancelEvents pm k b e).trace
      = (evs.filter (fun ev => selectedForCancel b e ev)).map PowerEvent.asAttempt ∧
    (∀ ev : PowerEvent, selectedForCancel b e ev = true ↔
      ((filterText b = none ∨ ∃ t, filterText b = some t ∧ equalIgnoringCase t ev.appName) ∧
        (filterText e = none ∨ filterText e = some ev.type))) ∧
    (∀ (k2 : κ) (b2 e2 : Option CStr), ¬ filtersCreated pm k2 b2 e2 →
      cancelAttempts (WakeTimer._cancelEvents pm k2 b2 e2).trace = []) := by
  refine ⟨(WakeTimer.cancelEvents_wellFormed pm k b e evs hc hs).1, ?_,
    fun k2 b2 e2 h => (WakeTimer.cancelEvents_not_created pm k2 b2 e2 h).2.2⟩
  intro ev
  unfold selectedForCancel
  cases filterText b <;> cases filterText e <;> simp

/-- C20 (amended) at a concrete input: the sample schedule, the identifier of
`main.cpp` and the type `wake`; the events at times 100 and 200 are attempted,
in that order, and no other. -/
theorem C20_cancellation_filter_witness :
    (filtersCreated scheduleOS sampleSchedule (some wakeBundleID) (some kIOPMAutoWake) ∧
      scheduleRead scheduleOS sampleSchedule (some wakeBundleID) (some kIOPMAutoWake)
        = sampleSchedule.map PowerEvent.toArrayValue) ∧
    cancelAttempts (WakeTimer._cancelEvents scheduleOS sampleSchedule (some wakeBundleID)
        (some kIOPMAutoWake)).trace
      = [(some 100, some (cstr "com.dennisbabkin.wake01"), some (cstr "wake")),
         (some 200, some (cstr "COM.DENNISBABKIN.WAKE01"), some (cstr "wake"))] ∧
    cancelAttempts (WakeTimer._cancelEvents scheduleOS sampleSchedule (some wakeBundleID)
        (some kIOPMAutoWake)).trace
      = (sampleSchedule.filter
          (fun ev => selectedForCancel (some wakeBundleID) (some kIOPMAutoWake) ev)).map
          PowerEvent.asAttempt :=
  ⟨by decide, by decide,
    (C20_cancellation_filter scheduleOS sampleSchedule (some wakeBundleID)
      (some kIOPMAutoWake) sampleSchedule (by decide) (by decide)).1⟩

/-! ## The wake timer on the list model of the schedule -/

/-- Erasing the selected entries of a list one by one, in order, leaves the
entries not selected, in order. -/
theorem foldl_erase_filter {α : Type} [DecidableEq α] (p : α → Bool) :
    ∀ (rest pre : List α), (∀ x ∈ pre, p x = false) →
      (rest.filter p).foldl List.erase (pre ++ rest) = pre ++ rest.filter (fun x => !p x) := by
  intro rest
  induction rest with
  | nil => intro pre _; simp
  | cons x xs ih =>
    intro pre hpre
    cases hx : p x with
    | true =>
      have hnot : x ∉ pre := fun hmem => by
        have := hpre x hmem
        rw [hx] at this
        exact absurd this (by decide)
      simp only [List.filter_cons, hx, if_true, List.foldl_cons, Bool.not_true]
      rw [List.erase_append_right _ hnot, List.erase_cons_head]
      simpa using ih pre hpre
    | false =>
      simp only [List.filter_cons, hx, Bool.not_false, if_true]
      have h2 := ih (pre ++ [x]) (by
        intro y hy
        simp only [List.mem_append, List.mem_singleton] at hy
        rcases hy with hy | hy
        · exact hpre y hy
        · rw [hy]; exact hx)
      simpa using h2

/-- On the list model the cancel loop erases the entries it is given, one by
one, and keeps `bResult`. -/
theorem cancelLoop_scheduleOS (evs : List PowerEvent) :
    ∀ (k : List PowerEvent) (bResult : Bool) (cnt : Nat),
      (cancelLoop scheduleOS k
        (evs.map (fun ev => (⟨some ev.time, some ev.appName, some ev.type⟩ : REM_EVT_INFO)))
        bResult cnt).os = evs.foldl List.erase k ∧
      (cancelLoop scheduleOS k
        (evs.map (fun ev => (⟨some ev.time, some ev.appName, some ev.type⟩ : REM_EVT_INFO)))
        bResult cnt).ret = bResult := by
  induction evs with
  | nil => intro k b c; exact ⟨rfl, rfl⟩
  | cons ev rest ih =>
    intro k b c
    have hnf : kIOReturnNotFound ≠ kIOReturnSuccess := by decide
    by_cases hmem : ev ∈ k
    · have hm : (⟨ev.time, ev.appName, ev.type⟩ : PowerEvent) ∈ k := hmem
      simp only [List.map_cons, cancelLoop, scheduleOS, hm, if_true, List.foldl_cons]
      exact ih (k.erase ev) b (c + 1)
    · have hm : ¬ (⟨ev.time, ev.appName, ev.type⟩ : PowerEvent) ∈ k := hmem
      simp only [List.map_cons, cancelLoop, scheduleOS, hm, if_false, hnf, List.foldl_cons,
        ne_eq, not_true_eq_false, List.erase_of_not_mem hmem]
      exact ih k b c

/-- On the list model a filter string is always created, and the operating
system is left as it was. -/
theorem createFilter_scheduleOS (k : List PowerEvent) (p : Option CStr) (line : Nat) :
    (createFilter scheduleOS k p line).2.1 = true ∧
    (createFilter scheduleOS k p line).2.2.1 = k := by
  unfold createFilter
  cases p with
  | none => exact ⟨rfl, rfl⟩
  | some s =>
    simp only [scheduleOS, if_true]
    split_ifs <;> exact ⟨rfl, rfl⟩

/-- On the list model `_cancelEvents` returns true and leaves exactly the
entries its filter does not select, in order. -/
theorem cancelEvents_scheduleOS (k : List PowerEvent) (b e : Option CStr) :
    (WakeTimer._cancelEvents scheduleOS k b e).ret = true ∧
    (WakeTimer._cancelEvents scheduleOS k b e).os
      = k.filter (fun ev => !selectedForCancel b e ev) := by
  have c1 := createFilter_scheduleOS k b 439
  have c2 := createFilter_scheduleOS k e 454
  have hc : filtersCreated scheduleOS k b e := by
    unfold filtersCreated
    rw [c1.2]
    exact ⟨c1.1, c2.1⟩
  have hst : stateAtRead scheduleOS k b e = k := by
    unfold stateAtRead
    rw [c1.2]
    exact c2.2
  have hrd : scheduleRead scheduleOS k b e = k.map PowerEvent.toArrayValue := by
    unfold scheduleRead
    rw [hst]
    by_cases hk : k = []
    · simp [scheduleOS, hk]
    · simp [scheduleOS, hk]
  have hos : (scheduleOS.IOPMCopyScheduledPowerEvents k).2 = k := rfl
  rw [WakeTimer.cancelEvents_created scheduleOS k b e hc, hrd, hst, hos, scan_wellFormed]
  simp only [List.nil_append]
  obtain ⟨h1, h2⟩ := cancelLoop_scheduleOS
    (k.filter (fun ev => selectedForCancel b e ev)) k true 0
  refine ⟨h2, ?_⟩
  rw [h1]
  simpa using foldl_erase_filter (fun ev => selectedForCancel b e ev) k [] (by simp)

/-- An entry of the timer's own identifier and of type `kIOPMAutoWake` is
selected by the cancellation that precedes scheduling. -/
theorem own_wake_selected (id : List Nat) (ev : PowerEvent)
    (ha : ev.appName = strContents id) (ht : ev.type = kIOPMAutoWake) :
    selectedForCancel (some id) (some WAKE_TIMER_EVENT_TYPE) ev = true := by
  have hw : filterText (some WAKE_TIMER_EVENT_TYPE) = some kIOPMAutoWake := by decide
  unfold selectedForCancel
  rw [hw]
  simp only [ht, decide_True, Bool.and_true]
  unfold filterText
  simp only
  split_ifs
  · simp [equalIgnoringCase, ha]
  · rfl

/-- On the list model `_getWakeEventTime` leaves the schedule as it was. -/
theorem getWakeEventTime_scheduleOS (k : List PowerEvent) (w : WakeTimer)
    (p : Option CFAbsoluteTime) : (WakeTimer._getWakeEventTime scheduleOS k w p).os = k := by
  unfold WakeTimer._getWakeEventTime
  by_cases hk : k = []
  · simp [scheduleOS, hk]
  · simp [scheduleOS, hk]

/-- On the list model, with the lock free, `setWakeEventAbsolute(t)` returns
true and leaves the entries the cancellation does not select followed by the
new entry. -/
theorem setWakeEventAbsolute_scheduleOS (k : List PowerEvent) (w : WakeTimer)
    (t : CFAbsoluteTime) (out : Option CFAbsoluteTime) (hl : w._lock.isFree) :
    ∃ r, w.setWakeEventAbsolute scheduleOS k t out = some r ∧ r.ret.1 = true ∧
      r.os = k.filter (fun ev =>
          !selectedForCancel (some w._strTmrBundleID) (some WAKE_TIMER_EVENT_TYPE) ev)
        ++ [⟨t, strContents w._strTmrBundleID, kIOPMAutoWake⟩] := by
  rw [WakeTimer.setWakeEventAbsolute_free scheduleOS k w t out hl]
  refine ⟨_, rfl, ?_, ?_⟩
  · cases out <;> rfl
  · obtain ⟨_, h2⟩ := cancelEvents_scheduleOS k (some w._strTmrBundleID)
      (some WAKE_TIMER_EVENT_TYPE)
    have hstep : (WakeTimer.scheduleStep scheduleOS k { w with _lock := ⟨0, true⟩ } t
        WAKE_TIMER_EVENT_TYPE).os =
          k.filter (fun ev =>
            !selectedForCancel (some w._strTmrBundleID) (some WAKE_TIMER_EVENT_TYPE) ev)
          ++ [⟨t, strContents w._strTmrBundleID, kIOPMAutoWake⟩] := by
      rw [← h2]
      rfl
    cases out with
    | none => exact hstep
    | some old =>
      show (WakeTimer._getWakeEventTime scheduleOS
        (WakeTimer.scheduleStep scheduleOS k { w with _lock := ⟨0, true⟩ } t
          WAKE_TIMER_EVENT_TYPE).os _ (some old)).os = _
      rw [getWakeEventTime_scheduleOS]
      exact hstep

/-- C21: on the list model of the schedule, with the lock of the timer free,
`setWakeEventAbsolute(t)` returns true, the cancellation that precedes the
scheduling succeeds, and the schedule afterwards holds exactly one entry whose
app name is the timer's bundle identifier and whose type is `kIOPMAutoWake`;
the time of every such entry is `t`.  This holds for every schedule before the
call, whatever number of such entries it held: the schedule afterwards is the
entries the cancellation does not select, followed by the new entry. -/
theorem C21_exactly_one_own_wake_entry (k : List PowerEvent) (w : WakeTimer)
    (t : CFAbsoluteTime) (pdtOutWhen : Option CFAbsoluteTime) (hl : w._lock.isFree) :
    ∃ r, w.setWakeEventAbsolute scheduleOS k t pdtOutWhen = some r ∧ r.ret.1 = true ∧
      (WakeTimer._cancelEvents scheduleOS k (some w._strTmrBundleID)
        (some WAKE_TIMER_EVENT_TYPE)).ret = true ∧
      r.os.countP (fun ev => decide (ev.appName = strContents w._strTmrBundleID ∧
        ev.type = kIOPMAutoWake)) = 1 ∧
      (∀ ev ∈ r.os, ev.appName = strContents w._strTmrBundleID → ev.type = kIOPMAutoWake →
        ev.time = t) ∧
      r.os = k.filter (fun ev =>
          !selectedForCancel (some w._strTmrBundleID) (some WAKE_TIMER_EVENT_TYPE) ev)
        ++ [⟨t, strContents w._strTmrBundleID, kIOPMAutoWake⟩] := by
  obtain ⟨r, hr, hret, hos⟩ := setWakeEventAbsolute_scheduleOS k w t pdtOutWhen hl
  have hnone : ∀ ev ∈ k.filter (fun ev =>
      !selectedForCancel (some w._strTmrBundleID) (some WAKE_TIMER_EVENT_TYPE) ev),
      ¬ (ev.appName = strContents w._strTmrBundleID ∧ ev.type = kIOPMAutoWake) := by
    intro ev hev hown
    have hsel := own_wake_selected w._strTmrBundleID ev hown.1 hown.2
    have := (List.mem_filter.1 hev).2
    rw [hsel] at this
    exact absurd this (by decide)
  refine ⟨r, hr, hret,
    (cancelEvents_scheduleOS k (some w._strTmrBundleID) (some WAKE_TIMER_EVENT_TYPE)).1,
    ?_, ?_, hos⟩
  · rw [hos, List.countP_append]
    have h0 : (k.filter (fun ev =>
        !selectedForCancel (some w._strTmrBundleID) (some WAKE_TIMER_EVENT_TYPE) ev)).countP
        (fun ev => decide (ev.appName = strContents w._strTmrBundleID ∧
          ev.type = kIOPMAutoWake)) = 0 := by
      rw [List.countP_eq_zero]
      intro ev hev
      simpa using hnone ev hev
    rw [h0]
    simp [List.countP_cons]
  · intro ev hev ha ht
    rw [hos, List.mem_append] at hev
    rcases hev with hev | hev
    · exact absurd ⟨ha, ht⟩ (hnone ev hev)
    · rw [List.mem_singleton] at hev
      rw [hev]

/-- C21 (witness): the statement on the timer of `main.cpp` and the sample
schedule, which holds two wake entries of the timer before the call. -/
theorem C21_exactly_one_own_wake_entry_witness :
    (∃ r, g_WkTmr.setWakeEventAbsolute scheduleOS sampleSchedule 600 (some 0) = some r ∧
      r.ret.1 = true ∧
      (WakeTimer._cancelEvents scheduleOS sampleSchedule (some g_WkTmr._strTmrBundleID)
        (some WAKE_TIMER_EVENT_TYPE)).ret = true ∧
      r.os.countP (fun ev => decide (ev.appName = strContents g_WkTmr._strTmrBundleID ∧
        ev.type = kIOPMAutoWake)) = 1 ∧
      (∀ ev ∈ r.os, ev.appName = strContents g_WkTmr._strTmrBundleID →
        ev.type = kIOPMAutoWake → ev.time = 600) ∧
      r.os = sampleSchedule.filter (fun ev =>
          !selectedForCancel (some g_WkTmr._strTmrBundleID) (some WAKE_TIMER_EVENT_TYPE) ev)
        ++ [⟨600, strContents g_WkTmr._strTmrBundleID, kIOPMAutoWake⟩]) ∧
    (g_WkTmr.setWakeEventAbsolute scheduleOS sampleSchedule 600 (some 0)).map (fun r => r.os)
      = some [ ⟨300, cstr "com.example.other", cstr "wake"⟩,
               ⟨400, cstr "com.dennisbabkin.wake01", cstr "poweron"⟩,
               ⟨500, cstr "com.dennisbabkin.wake01", cstr "Wake"⟩,
               ⟨600, cstr "com.dennisbabkin.wake01", cstr "wake"⟩ ] :=
  ⟨C21_exactly_one_own_wake_entry sampleSchedule g_WkTmr 600 (some 0) (by decide), by decide⟩

/-- C22 (evaluation of the code): on an operating system that refuses to change
the schedule, with one wake entry of the timer of `main.cpp` at time 100 in the
schedule, `setWakeEventAbsolute(300, &dtOut)` returns false and writes 100, not
0, into `dtOut`; so does `setWakeEventRelative(30000, &dtOut)` at current time
270.  The timer is left not set. -/
theorem C22_failed_set_writes_scheduled_time :
    g_WkTmr.setWakeEventAbsolute unprivilegedOS [⟨100, wakeBundleID, kIOPMAutoWake⟩] 300
        (some 0)
      = some ⟨(false, some 100), g_WkTmr, [⟨100, wakeBundleID, kIOPMAutoWake⟩],
          [Event.IOPMCopyScheduledPowerEvents,
           Event.IOPMCancelScheduledPowerEvent (some 100) (some wakeBundleID)
             (some kIOPMAutoWake) kIOReturnNotPrivileged,
           Event.assertFailed 648,
           Event.assertFailed 340,
           Event.IOPMSchedulePowerEvent 300 wakeBundleID kIOPMAutoWake kIOReturnNotPrivileged,
           Event.assertFailed 360,
           Event.IOPMCopyScheduledPowerEvents]⟩ ∧
    (g_WkTmr.setWakeEventRelative unprivilegedOS [⟨100, wakeBundleID, kIOPMAutoWake⟩] 270
        30000 (some 0)).map (fun r => r.ret) = some (false, some 100) := by
  decide

/-! ## The rounding of doubles -/

/-- An integer less than one half away from `y` is what `y` is rounded to. -/
theorem roundHalfEven_near (y : ℚ) (m : ℤ) (h : |y - m| < 1 / 2) : roundHalfEven y = m := by
  have h1 := abs_lt.1 h
  have hf1 : (⌊y⌋ : ℚ) ≤ y := Int.floor_le y
  have hf2 : y < ⌊y⌋ + 1 := Int.lt_floor_add_one y
  have a1 : ((⌊y⌋ : ℤ) : ℚ) < (m : ℚ) + 1 := by linarith [h1.2]
  have a2 : (m : ℚ) < ((⌊y⌋ : ℤ) : ℚ) + 2 := by linarith [h1.1]
  have b1 : ⌊y⌋ < m + 1 := by exact_mod_cast a1
  have b2 : m < ⌊y⌋ + 2 := by exact_mod_cast a2
  have hcase : ⌊y⌋ = m ∨ ⌊y⌋ = m - 1 := by omega
  unfold roundHalfEven
  simp only
  rcases hcase with hc | hc
  · rw [hc]
    have : y - (m : ℚ) < 1 / 2 := h1.2
    rw [if_pos this]
  · rw [hc]
    have e1 : y - ((m - 1 : ℤ) : ℚ) = y - m + 1 := by push_cast; ring
    have hc' : (⌊y⌋ : ℚ) = (m : ℚ) - 1 := by rw [hc]; push_cast; ring
    have g1 : ¬ (y - ((m - 1 : ℤ) : ℚ) < 1 / 2) := by
      rw [e1]; intro hlt
      linarith [hf1]
    have g2 : (1 : ℚ) / 2 < y - ((m - 1 : ℤ) : ℚ) := by
      rw [e1]
      rcases lt_or_eq_of_le (not_lt.1 g1) with h3 | h3
      · rw [e1] at h3; exact h3
      · exfalso
        rw [e1] at h3
        have : y - m = -1 / 2 := by linarith
        linarith [h1.1]
    rw [if_neg g1, if_pos g2]
    ring

/-- Rounding to the nearest integer moves a number by at most one half. -/
theorem roundHalfEven_error (y : ℚ) : |(roundHalfEven y : ℚ) - y| ≤ 1 / 2 := by
  have hf1 : (⌊y⌋ : ℚ) ≤ y := Int.floor_le y
  have hf2 : y < ⌊y⌋ + 1 := Int.lt_floor_add_one y
  unfold roundHalfEven
  simp only
  rw [abs_le]
  split_ifs with c1 c2 c3
  · constructor <;> linarith
  · push_cast; constructor <;> linarith
  · constructor <;> linarith
  · push_cast; constructor <;> linarith

/-- The exponent of the leading bit of a number between `2 ^ e` and `2 ^ (e + 1)`
is `e`. -/
theorem log_two_abs (x : ℚ) (e : ℤ) (h1 : (2 : ℚ) ^ e ≤ |x|) (h2 : |x| < (2 : ℚ) ^ (e + 1)) :
    Int.log 2 |x| = e := by
  have hpos : 0 < |x| := lt_of_lt_of_le (by positivity) h1
  have c : ((2 : ℕ) : ℚ) = 2 := by norm_num
  have a1 : e ≤ Int.log 2 |x| := by
    rw [← Int.zpow_le_iff_le_log (by norm_num) hpos, c]; exact h1
  have a2 : Int.log 2 |x| < e + 1 := by
    rw [← Int.lt_zpow_iff_log_lt (by norm_num) hpos, c]; exact h2
  omega

/-- A real number in the range of the normal doubles of exponent `e` is rounded
to `m * 2 ^ (e - 52)` when `m` is the integer nearest to its quotient by
`2 ^ (e - 52)`. -/
theorem roundToDouble_eq (x : ℚ) (e m : ℤ) (he : -1022 ≤ e) (h1 : (2 : ℚ) ^ e ≤ |x|)
    (h2 : |x| < (2 : ℚ) ^ (e + 1)) (hm : |x / 2 ^ (e - 52) - m| < 1 / 2) :
    roundToDouble x = m * 2 ^ (e - 52) := by
  have hpos : 0 < |x| := lt_of_lt_of_le (by positivity) h1
  have hx : x ≠ 0 := abs_pos.1 hpos
  unfold roundToDouble
  simp only [if_neg hx, log_two_abs x e h1 h2, max_eq_left he]
  rw [roundHalfEven_near _ m hm]

/-- An integer multiple of a power of two with at most 53 significant bits is a
double: rounding leaves it as it is. -/
theorem roundToDouble_dyadic (a : ℤ) (j : ℕ) (ha : |a| < 2 ^ 53) (hj : j ≤ 1022) :
    roundToDouble ((a : ℚ) / 2 ^ j) = (a : ℚ) / 2 ^ j := by
  by_cases h0 : a = 0
  · simp [h0, roundToDouble]
  have hx : ((a : ℚ) / 2 ^ j) ≠ 0 := by
    apply div_ne_zero
    · exact_mod_cast h0
    · positivity
  have hpos : 0 < |(a : ℚ) / 2 ^ j| := abs_pos.2 hx
  have c : ((2 : ℕ) : ℚ) = 2 := by norm_num
  have habs : |(a : ℚ) / 2 ^ j| = (|a| : ℤ) / 2 ^ j := by
    rw [abs_div, abs_of_pos (by positivity : (0 : ℚ) < 2 ^ j)]
    push_cast; rfl
  have ha1 : (1 : ℚ) ≤ ((|a| : ℤ) : ℚ) := by
    have : 1 ≤ |a| := Int.one_le_abs h0
    exact_mod_cast this
  have ha2 : ((|a| : ℤ) : ℚ) < 2 ^ 53 := by exact_mod_cast ha
  have hlow : (2 : ℚ) ^ (-(j : ℤ)) ≤ |(a : ℚ) / 2 ^ j| := by
    rw [habs, zpow_neg, zpow_natCast, ← one_div]
    exact div_le_div_of_nonneg_right ha1 (by positivity)
  have hhigh : |(a : ℚ) / 2 ^ j| < (2 : ℚ) ^ ((53 : ℤ) - j) := by
    rw [habs, zpow_sub₀ (by norm_num : (2 : ℚ) ≠ 0), zpow_natCast]
    exact div_lt_div_of_pos_right (by exact_mod_cast ha2) (by positivity)
  have e1 : -(j : ℤ) ≤ Int.log 2 |(a : ℚ) / 2 ^ j| := by
    rw [← Int.zpow_le_iff_le_log (by norm_num) hpos, c]; exact hlow
  have e2 : Int.log 2 |(a : ℚ) / 2 ^ j| < 53 - j := by
    rw [← Int.lt_zpow_iff_log_lt (by norm_num) hpos, c]; exact hhigh
  obtain ⟨e, he⟩ : ∃ e, Int.log 2 |(a : ℚ) / 2 ^ j| = e := ⟨_, rfl⟩
  rw [he] at e1 e2
  have hmax : max e (-1022) = e := max_eq_left (by omega)
  obtain ⟨k, hk⟩ : ∃ k : ℕ, (k : ℤ) = 52 - e - j := ⟨(52 - e - j).toNat, by omega⟩
  have hquot : (a : ℚ) / 2 ^ j / 2 ^ (e - 52) = ((a * 2 ^ k : ℤ) : ℚ) := by
    have : (e - 52 : ℤ) = -(k : ℤ) - j := by omega
    rw [this, zpow_sub₀ (by norm_num : (2 : ℚ) ≠ 0), zpow_neg, zpow_natCast, zpow_natCast]
    push_cast
    field_simp
    ring
  unfold roundToDouble
  simp only [if_neg hx, he, hmax]
  rw [hquot, roundHalfEven_near _ (a * 2 ^ k) (by simp), ← hquot]
  field_simp
  ring

/-- The rounding error is at most half a unit in the last place: for a real
number of magnitude below `2 ^ (E + 1)`, with `E` not below -1022, at most
`2 ^ (E - 53)`. -/
theorem roundToDouble_error (x : ℚ) (E : ℤ) (hE : -1022 ≤ E) (hx : |x| < (2 : ℚ) ^ (E + 1)) :
    |roundToDouble x - x| ≤ (2 : ℚ) ^ (E - 53) := by
  by_cases h0 : x = 0
  · simp [h0, roundToDouble]; positivity
  have hpos : 0 < |x| := abs_pos.2 h0
  have c : ((2 : ℕ) : ℚ) = 2 := by norm_num
  have e2 : Int.log 2 |x| < E + 1 := by
    rw [← Int.lt_zpow_iff_log_lt (by norm_num) hpos, c]; exact hx
  obtain ⟨e, he⟩ : ∃ e, max (Int.log 2 |x|) (-1022) = e := ⟨_, rfl⟩
  have heE : e ≤ E := by
    rw [← he]; exact max_le (by omega) hE
  unfold roundToDouble
  simp only [if_neg h0, he]
  have hp : (0 : ℚ) < 2 ^ (e - 52) := by positivity
  have key : (roundHalfEven (x / 2 ^ (e - 52)) : ℚ) * 2 ^ (e - 52) - x
      = ((roundHalfEven (x / 2 ^ (e - 52)) : ℚ) - x / 2 ^ (e - 52)) * 2 ^ (e - 52) := by
    field_simp
  rw [key, abs_mul, abs_of_pos hp]
  have herr := roundHalfEven_error (x / 2 ^ (e - 52))
  have hstep : |(roundHalfEven (x / 2 ^ (e - 52)) : ℚ) - x / 2 ^ (e - 52)| * 2 ^ (e - 52)
      ≤ 1 / 2 * 2 ^ (e - 52) := mul_le_mul_of_nonneg_right herr hp.le
  have hhalf : (1 : ℚ) / 2 * 2 ^ (e - 52) = 2 ^ (e - 53) := by
    have : (e - 52 : ℤ) = (e - 53) + 1 := by omega
    rw [this, zpow_add₀ (by norm_num : (2 : ℚ) ≠ 0)]
    ring
  have hmono : (2 : ℚ) ^ (e - 53) ≤ 2 ^ (E - 53) :=
    zpow_le_zpow_right₀ (by norm_num) (by omega)
  linarith

/-- An integer of magnitude below `2 ^ 53` converts to `double` exactly. -/
theorem doubleOfInt_exact (i : ℤ) (h : |i| < 2 ^ 53) : doubleOfInt i = i := by
  have := roundToDouble_dyadic i 0 h (by norm_num)
  simpa [doubleOfInt] using this

/-- The eighths of an integer, with at most 53 significant bits, are a double. -/
theorem roundToDouble_eighths (a : ℤ) (h : |a| < 2 ^ 53) :
    roundToDouble ((a : ℚ) / 8) = (a : ℚ) / 8 := by
  have := roundToDouble_dyadic a 3 h (by norm_num)
  norm_num at this
  exact this

/-- The quotient `1 / 1000.0` as a double. -/
theorem double_one_thousandth : roundToDouble ((1 : ℚ) / 1000) = 1152921504606847 / 1152921504606846976 := by
  have h := roundToDouble_eq ((1 : ℚ) / 1000) (-10) 4611686018427388 (by norm_num)
    (by norm_num [abs_of_pos]) (by norm_num [abs_of_pos]) (by norm_num [abs_of_pos, abs_lt])
  rw [h]; norm_num

/-- The sum of 708697815 and the double of `1 / 1000.0`, as a double. -/
theorem double_sample_sum : roundToDouble ((708697815 : ℚ) + 1152921504606847 / 1152921504606846976)
    = 5944988160499909 / 8388608 := by
  have h := roundToDouble_eq ((708697815 : ℚ) + 1152921504606847 / 1152921504606846976) 29
    5944988160499909 (by norm_num)
    (by norm_num [abs_of_pos]) (by norm_num [abs_of_pos]) (by norm_num [abs_of_pos, abs_lt])
  rw [h]; norm_num

/-! ## The conversion of a local date and time -/

/-- With `mktime` answering `s` other than -1, `Set_CFAbsoluteTime` returns true
and writes the rounded sum of the rounded difference and the rounded
quotient. -/
theorem Set_CFAbsoluteTime_value (mktime : tm → Int) (out : CFAbsoluteTime)
    (nYear nMonth nDay nHour nMinute nSecond nMillisecond s : Int)
    (hs : mktime (brokenDownTime nYear nMonth nDay nHour nMinute nSecond) = s) (hne : s ≠ -1) :
    WakeTimer.Set_CFAbsoluteTime mktime (some out) nYear nMonth nDay nHour nMinute nSecond
        nMillisecond
      = (true, some (roundToDouble
          (roundToDouble (roundToDouble s - roundToDouble 978307200)
            + roundToDouble (roundToDouble nMillisecond / 1000)))) := by
  simp [WakeTimer.Set_CFAbsoluteTime, hs, hne, DIFF_UNIX_EPOCH_AND_MAC_TIME_SEC, doubleOfInt,
    doubleSub, doubleAdd, doubleDiv]

/-- For a time of magnitude below `2 ^ 49` the difference from the epoch of
2001 is computed exactly. -/
theorem epoch_difference_exact (s : ℤ) (h1 : -2 ^ 49 < s) (h2 : s < 2 ^ 49) :
    roundToDouble (roundToDouble s - roundToDouble 978307200) = (s : ℚ) - 978307200 := by
  have a1 : roundToDouble (s : ℚ) = s :=
    doubleOfInt_exact s (by rw [abs_lt]; constructor <;> omega)
  have a2 : roundToDouble (978307200 : ℚ) = 978307200 := by
    have := doubleOfInt_exact 978307200 (by norm_num)
    simpa [doubleOfInt] using this
  have a3 := doubleOfInt_exact (s - 978307200) (by rw [abs_lt]; constructor <;> omega)
  rw [a1, a2]
  simpa [doubleOfInt] using a3

/-- C23 (counterexample): with the `mktime` of UTC, which answers 1687005015 for
2023-06-17 12:30:15, `Set_CFAbsoluteTime` with `nMillisecond = 1` returns true
and writes the double 5944988160499909 / 2 ^ 23, which is not the rational
1687005015 - 978307200 + 1/1000. -/
theorem C23_exact_value_counterexample :
    mktimeUTC (brokenDownTime 2023 6 17 12 30 15) = 1687005015 ∧
    WakeTimer.Set_CFAbsoluteTime mktimeUTC (some 7) 2023 6 17 12 30 15 1
      = (true, some (5944988160499909 / 8388608)) ∧
    (5944988160499909 / 8388608 : ℚ) ≠ 1687005015 - 978307200 + 1 / 1000 := by
  refine ⟨by decide, ?_, by norm_num⟩
  rw [Set_CFAbsoluteTime_value mktimeUTC 7 2023 6 17 12 30 15 1 1687005015 (by decide)
    (by decide)]
  have h1 := epoch_difference_exact 1687005015 (by norm_num) (by norm_num)
  have h2 : roundToDouble ((1 : ℤ) : ℚ) = 1 := by
    have := doubleOfInt_exact 1 (by norm_num)
    simpa [doubleOfInt] using this
  simp only [Int.cast_ofNat, Int.cast_one] at h1 h2 ⊢
  rw [h1, h2, double_one_thousandth]
  have h3 : (1687005015 : ℚ) - 978307200 = 708697815 := by norm_num
  rw [h3, double_sample_sum]

/-- C23 (amended): when `mktime` answers a value `s` other than -1 (a `time_t` of
64 bits, `nMillisecond` an `int` of 32 bits), `Set_CFAbsoluteTime` returns
true and writes `s - 978307200 + nMillisecond / 1000` as computed in `double`
arithmetic: the conversion of `s`, the difference, the quotient and the sum
are each rounded to the nearest double.  The value written is the exact
rational `s - 978307200 + nMillisecond / 1000` when `nMillisecond` is a
multiple of 125 from 0 to 875 and `s` is of magnitude below `2 ^ 49`; for `s`
from 0 to `2 ^ 32 - 1` and `nMillisecond` from 0 to 999 it differs from that
rational by at most `2 ^ (-21)`.  When `mktime` answers -1 the function
returns false and writes 0.  The constant 978307200 is 11323 days of 86400
seconds, the number of seconds from 1970-01-01 00:00:00 UTC to 2001-01-01
00:00:00 UTC. -/
theorem C23_Set_CFAbsoluteTime_double (mktime : tm → Int) (out : CFAbsoluteTime)
    (nYear nMonth nDay nHour nMinute nSecond nMillisecond s : Int)
    (hs : mktime (brokenDownTime nYear nMonth nDay nHour nMinute nSecond) = s)
    (hs1 : -2 ^ 63 ≤ s) (hs2 : s < 2 ^ 63)
    (hm1 : -2 ^ 31 ≤ nMillisecond) (hm2 : nMillisecond < 2 ^ 31) :
    (s ≠ -1 →
      WakeTimer.Set_CFAbsoluteTime mktime (some out) nYear nMonth nDay nHour nMinute nSecond
          nMillisecond
        = (true, some (roundToDouble
            (roundToDouble (roundToDouble s - roundToDouble 978307200)
              + roundToDouble (roundToDouble nMillisecond / 1000))))) ∧
    (s ≠ -1 → -2 ^ 49 < s → s < 2 ^ 49 → 0 ≤ nMillisecond → nMillisecond < 1000 →
      nMillisecond % 125 = 0 →
      WakeTimer.Set_CFAbsoluteTime mktime (some out) nYear nMonth nDay nHour nMinute nSecond
          nMillisecond
        = (true, some ((s : ℚ) - 978307200 + (nMillisecond : ℚ) / 1000))) ∧
    (s ≠ -1 → 0 ≤ s → s < 2 ^ 32 → 0 ≤ nMillisecond → nMillisecond < 1000 →
      ∃ v : ℚ,
        WakeTimer.Set_CFAbsoluteTime mktime (some out) nYear nMonth nDay nHour nMinute nSecond
            nMillisecond = (true, some v) ∧
        |v - ((s : ℚ) - 978307200 + (nMillisecond : ℚ) / 1000)| ≤ 1 / 2 ^ 21) ∧
    (s = -1 →
      WakeTimer.Set_CFAbsoluteTime mktime (some out) nYear nMonth nDay nHour nMinute nSecond
          nMillisecond
        = (false, some 0)) ∧
    DIFF_UNIX_EPOCH_AND_MAC_TIME_SEC = 11323 * 86400 ∧
    daysSince1970 2001 1 1 = 11323 ∧
    mktimeUTC (brokenDownTime 2001 1 1 0 0 0) - mktimeUTC (brokenDownTime 1970 1 1 0 0 0)
      = DIFF_UNIX_EPOCH_AND_MAC_TIME_SEC := by
  have hms : roundToDouble (nMillisecond : ℚ) = nMillisecond := by
    have := doubleOfInt_exact nMillisecond (by rw [abs_lt]; constructor <;> omega)
    simpa [doubleOfInt] using this
  refine ⟨fun hne => Set_CFAbsoluteTime_value mktime out _ _ _ _ _ _ _ s hs hne,
    ?_, ?_, ?_, by decide, by decide, by decide⟩
  · intro hne h1 h2 h3 h4 h5
    rw [Set_CFAbsoluteTime_value mktime out _ _ _ _ _ _ _ s hs hne,
      epoch_difference_exact s h1 h2, hms]
    obtain ⟨k, hk⟩ : ∃ k : ℤ, nMillisecond = 125 * k := ⟨nMillisecond / 125, by omega⟩
    have q1 : (nMillisecond : ℚ) / 1000 = (k : ℚ) / 8 := by
      rw [hk]; push_cast; ring
    have q2 : roundToDouble ((k : ℚ) / 8) = (k : ℚ) / 8 :=
      roundToDouble_eighths k (by rw [abs_lt]; constructor <;> omega)
    have q3 : (s : ℚ) - 978307200 + (k : ℚ) / 8 = ((8 * (s - 978307200) + k : ℤ) : ℚ) / 8 := by
      push_cast; ring
    have q4 := roundToDouble_eighths (8 * (s - 978307200) + k)
      (by rw [abs_lt]; constructor <;> omega)
    rw [q1, q2, q3, q4]
  · intro hne h1 h2 h3 h4
    refine ⟨_, Set_CFAbsoluteTime_value mktime out _ _ _ _ _ _ _ s hs hne, ?_⟩
    rw [epoch_difference_exact s (by omega) (by omega), hms]
    have hq0 : (0 : ℚ) ≤ (nMillisecond : ℚ) / 1000 := by
      have : (0 : ℚ) ≤ nMillisecond := by exact_mod_cast h3
      positivity
    have hq1 : (nMillisecond : ℚ) / 1000 < 1 := by
      have : (nMillisecond : ℚ) < 1000 := by exact_mod_cast h4
      rw [div_lt_one (by norm_num)]; exact this
    have eq := roundToDouble_error ((nMillisecond : ℚ) / 1000) (-1) (by norm_num)
      (by rw [abs_of_nonneg hq0]; norm_num; exact hq1)
    have eq' := abs_le.1 eq
    have hsq1 : (0 : ℚ) ≤ s := by exact_mod_cast h1
    have hsq2 : (s : ℚ) ≤ 2 ^ 32 - 1 := by
      have : s ≤ 2 ^ 32 - 1 := by omega
      exact_mod_cast this
    have e54 : (2 : ℚ) ^ ((-1 : ℤ) - 53) = 1 / 2 ^ 54 := by
      norm_num
    rw [e54] at eq'
    have hsum : |(s : ℚ) - 978307200 + roundToDouble ((nMillisecond : ℚ) / 1000)|
        < (2 : ℚ) ^ ((31 : ℤ) + 1) := by
      rw [abs_lt]
      have : (2 : ℚ) ^ ((31 : ℤ) + 1) = 4294967296 := by norm_num
      rw [this]
      constructor
      · norm_num at eq' ⊢; linarith [eq'.1]
      · norm_num at eq' hsq2 ⊢; linarith [eq'.2]
    have es := roundToDouble_error
      ((s : ℚ) - 978307200 + roundToDouble ((nMillisecond : ℚ) / 1000)) 31 (by norm_num) hsum
    have e22 : (2 : ℚ) ^ ((31 : ℤ) - 53) = 1 / 2 ^ 22 := by
      norm_num
    rw [e22] at es
    have es' := abs_le.1 es
    rw [abs_le]
    constructor
    · norm_num at es' eq' ⊢; linarith [es'.1, eq'.1]
    · norm_num at es' eq' ⊢; linarith [es'.2, eq'.2]
  · intro he
    simp [WakeTimer.Set_CFAbsoluteTime, hs, he]

/-- C23 (witness): with the `mktime` of UTC, half a second past midnight of
2001-01-01 gives true and 1/2, and 2023-06-17 12:30:15.250 gives true and
708697815 + 1/4; a `mktime` that answers -1 gives false and 0. -/
theorem C23_Set_CFAbsoluteTime_double_witness :
    WakeTimer.Set_CFAbsoluteTime mktimeUTC (some 7) 2001 1 1 0 0 0 500 = (true, some (1 / 2)) ∧
    WakeTimer.Set_CFAbsoluteTime mktimeUTC (some 7) 2023 6 17 12 30 15 250
      = (true, some (708697815 + 1 / 4)) ∧
    WakeTimer.Set_CFAbsoluteTime (fun _ => -1) (some 7) 2023 6 17 12 30 15 250
      = (false, some 0) :=
  ⟨by
    have h := (C23_Set_CFAbsoluteTime_double mktimeUTC 7 2001 1 1 0 0 0 500 978307200
      (by decide) (by decide) (by decide) (by decide) (by decide)).2.1
      (by decide) (by decide) (by decide) (by decide) (by decide) (by decide)
    rw [h]; norm_num,
   by
    have h := (C23_Set_CFAbsoluteTime_double mktimeUTC 7 2023 6 17 12 30 15 250 1687005015
      (by decide) (by decide) (by decide) (by decide) (by decide)).2.1
      (by decide) (by decide) (by decide) (by decide) (by decide) (by decide)
    rw [h]; norm_num,
   (C23_Set_CFAbsoluteTime_double (fun _ => -1) 7 2023 6 17 12 30 15 250 (-1) rfl
      (by decide) (by decide) (by decide) (by decide)).2.2.2.1 rfl⟩

/-! ## The string conversions -/

/-- The text of a C string that holds `s`, without NUL, followed by a NUL. -/
theorem strContents_terminated (s rest : List Nat) (hs : 0 ∉ s) :
    strContents (s ++ 0 :: rest) = s := by
  induction s with
  | nil => simp [strContents]
  | cons c cs ih =>
    have hc : c ≠ 0 := fun h => hs (by rw [h]; exact List.mem_cons_self _ _)
    have hcs : 0 ∉ cs := fun h => hs (List.mem_cons_of_mem _ h)
    simp [strContents, hc, ih hcs]

/-- Writing a NUL at or after the terminating NUL of a buffer does not change
the text the buffer holds. -/
theorem strContents_set_after (s pad : List Nat) (i : Nat) (hs : 0 ∉ s) (hi : s.length ≤ i) :
    strContents ((s ++ 0 :: pad).set i 0) = s := by
  induction s generalizing i with
  | nil =>
    cases i with
    | zero => simp [strContents]
    | succ j => simp [strContents]
  | cons c cs ih =>
    have hc : c ≠ 0 := fun h => hs (by rw [h]; exact List.mem_cons_self _ _)
    have hcs : 0 ∉ cs := fun h => hs (List.mem_cons_of_mem _ h)
    cases i with
    | zero => simp at hi
    | succ j =>
      have hj : cs.length ≤ j := by simpa using hi
      simp [strContents, hc, ih j hcs hj]

/-- The four ways `GetString_From_CFStringRef` ends with `bRes` false set `strOut`
to the empty string: the function returns false exactly with an empty output. -/
theorem GetString_false (ref : Option CFStringAnswers) (strOut : List Nat)
    (h : (GetString_From_CFStringRef ref strOut).1 = false) :
    (GetString_From_CFStringRef ref strOut).2.1 = [] := by
  unfold GetString_From_CFStringRef at h ⊢
  simp only at h ⊢
  split_ifs at h ⊢ with h1
  · rfl
  · simp only [Bool.not_eq_false] at h1
    rw [h1] at h
    exact absurd h (by decide)

/-- C24 (counterexample): three non-null strings on which the claim fails.  An
empty string for which `CFStringGetCStringPtr` returns null: the function
returns false.  The string `abc` (length 3, maximum size 9) on the fallback
path when the allocation fails: the function returns false with an empty
output.  A string holding `a`, a NUL character and `b` on the fast path: the
function returns true with the output `a`. -/
theorem C24_round_trip_counterexample :
    GetString_From_CFStringRef
        (some { CFStringGetCStringPtr := none, CFStringGetLength := 0,
                CFStringGetMaximumSizeForEncoding := 0, allocated := true,
                CFStringGetCString := some [0] }) (cstr "old")
      = (false, [], []) ∧
    GetString_From_CFStringRef
        (some { CFStringGetCStringPtr := none, CFStringGetLength := 3,
                CFStringGetMaximumSizeForEncoding := 9, allocated := false,
                CFStringGetCString := some (cstr "abc" ++ [0, 0, 0, 0, 0, 0, 0]) }) (cstr "old")
      = (false, [], [Event.assertFailed 79]) ∧
    GetString_From_CFStringRef
        (some { CFStringGetCStringPtr := some [97, 0, 98, 0], CFStringGetLength := 3,
                CFStringGetMaximumSizeForEncoding := 9, allocated := true,
                CFStringGetCString := some [97, 0, 98, 0, 0, 0, 0, 0, 0, 0] }) (cstr "old")
      = (true, [97], []) := by
  decide

/-- C24 (amended): for every non-null string holding a text `s` without NUL
character, `GetString_From_CFStringRef` returns true and leaves in `strOut` the
bytes of `s` exactly, without trailing padding bytes, in two cases.  On the
fast path, where `CFStringGetCStringPtr` returns a pointer to `s` followed by
NUL, for every length including 0.  On the fallback path, where it returns
null, when the length is positive, the size computation does not return
`kCFNotFound`, the allocation succeeds and `CFStringGetCString` succeeds,
leaving `s`, a NUL and whatever padding in the buffer of `ncbSz + 1` bytes. -/
theorem C24_round_trip (s : List Nat) (os : CFStringAnswers) (strOut : List Nat)
    (hs : 0 ∉ s) :
    (∀ rest, os.CFStringGetCStringPtr = some (s ++ 0 :: rest) →
      GetString_From_CFStringRef (some os) strOut = (true, s, [])) ∧
    (∀ pad, os.CFStringGetCStringPtr = none → 0 < os.CFStringGetLength →
      os.CFStringGetMaximumSizeForEncoding ≠ kCFNotFound → os.allocated = true →
      os.CFStringGetCString = some (s ++ 0 :: pad) →
      ((s ++ 0 :: pad).length : Int) = os.CFStringGetMaximumSizeForEncoding + 1 →
      GetString_From_CFStringRef (some os) strOut = (true, s, [])) := by
  constructor
  · intro rest hp
    simp [GetString_From_CFStringRef, hp, strContents_terminated s rest hs]
  · intro pad hp hlen hmax halloc hbuf hsize
    have hi : s.length ≤ os.CFStringGetMaximumSizeForEncoding.toNat := by
      simp only [List.length_append, List.length_cons] at hsize
      omega
    simp [GetString_From_CFStringRef, hp, hlen, hmax, halloc, hbuf,
      strContents_set_after s pad _ hs hi]

/-- C24 (witness): the string `abc` on the fast path, the empty string on the
fast path, and the string `abc` on the fallback path with a buffer of 10 bytes
whose padding is not zero. -/
theorem C24_round_trip_witness :
    GetString_From_CFStringRef
        (some { CFStringGetCStringPtr := some (cstr "abc" ++ [0]), CFStringGetLength := 3,
                CFStringGetMaximumSizeForEncoding := 9, allocated := true,
                CFStringGetCString := none }) (cstr "old")
      = (true, cstr "abc", []) ∧
    GetString_From_CFStringRef
        (some { CFStringGetCStringPtr := some ([] ++ [0]), CFStringGetLength := 0,
                CFStringGetMaximumSizeForEncoding := 0, allocated := true,
                CFStringGetCString := none }) (cstr "old")
      = (true, [], []) ∧
    GetString_From_CFStringRef
        (some { CFStringGetCStringPtr := none, CFStringGetLength := 3,
                CFStringGetMaximumSizeForEncoding := 9, allocated := true,
                CFStringGetCString := some (cstr "abc" ++ 0 :: [170, 170, 170, 170, 170, 170]) })
        (cstr "old")
      = (true, cstr "abc", []) :=
  ⟨(C24_round_trip (cstr "abc") _ (cstr "old") (by decide)).1 [] rfl,
   (C24_round_trip [] _ (cstr "old") (by decide)).1 [] rfl,
   (C24_round_trip (cstr "abc") _ (cstr "old") (by decide)).2 [170, 170, 170, 170, 170, 170]
      rfl (by decide) (by decide) rfl rfl (by decide)⟩

/-- C25: whenever `GetString_From_CFStringRef` returns false, `strOut` is the
empty string afterwards, whatever it held before; it returns false for a null
handle and, on the fallback path with a positive length, when the size
computation returns `kCFNotFound`, when the allocation fails and when
`CFStringGetCString` fails.  Whenever `FormatDateTimeAsStr` returns false with
`pstrOut` non-null, `*pstrOut` is the empty string afterwards. -/
theorem C25_output_cleared_on_failure (ref : Option CFStringAnswers) (strOut : List Nat)
    (os : DateFormatAnswers) (dtm : CFAbsoluteTime) :
    ((GetString_From_CFStringRef ref strOut).1 = false →
      (GetString_From_CFStringRef ref strOut).2.1 = []) ∧
    (GetString_From_CFStringRef none strOut).1 = false ∧
    (∀ a : CFStringAnswers, ref = some a → a.CFStringGetCStringPtr = none →
      0 < a.CFStringGetLength →
      (a.CFStringGetMaximumSizeForEncoding = kCFNotFound ∨ a.allocated = false ∨
        a.CFStringGetCString = none) →
      (GetString_From_CFStringRef ref strOut).1 = false) ∧
    ((FormatDateTimeAsStr os dtm (some strOut)).1 = false →
      (FormatDateTimeAsStr os dtm (some strOut)).2.1 = some []) := by
  refine ⟨GetString_false ref strOut, rfl, ?_, ?_⟩
  · intro a ha hp hlen hfail
    rw [ha]
    rcases hfail with h | h | h
    · simp [GetString_From_CFStringRef, hp, hlen, h]
    · by_cases hm : a.CFStringGetMaximumSizeForEncoding = kCFNotFound
      · simp [GetString_From_CFStringRef, hp, hlen, hm]
      · simp [GetString_From_CFStringRef, hp, hlen, hm, h]
    · by_cases hm : a.CFStringGetMaximumSizeForEncoding = kCFNotFound
      · simp [GetString_From_CFStringRef, hp, hlen, hm]
      · cases hal : a.allocated <;> simp [GetString_From_CFStringRef, hp, hlen, hm, h, hal]
  · have key : ∀ r : Bool × Option (List Nat) × List Event,
        (if r.1 = false ∧ (some strOut).isSome = true then (false, some [], r.2.2) else r).1
          = false →
        (if r.1 = false ∧ (some strOut).isSome = true then (false, some [], r.2.2) else r).2.1
          = some [] := by
      intro r hr
      by_cases c : r.1 = false
      · simp [c]
      · simp [c] at hr
    exact key _

/-- C25 (witness): the string `abc` on the fallback path when
`CFStringGetCString` fails, with `old` in the destination before the call, by
itself and as the string of the date formatter. -/
theorem C25_output_cleared_on_failure_witness :
    GetString_From_CFStringRef
        (some { CFStringGetCStringPtr := none, CFStringGetLength := 3,
                CFStringGetMaximumSizeForEncoding := 9, allocated := true,
                CFStringGetCString := none }) (cstr "old")
      = (false, [], [Event.assertFailed 72]) ∧
    (FormatDateTimeAsStr
        { CFDateCreate := true, CFDateFormatterCreate := true,
          CFDateFormatterCreateStringWithDate :=
            some { CFStringGetCStringPtr := none, CFStringGetLength := 3,
                   CFStringGetMaximumSizeForEncoding := 9, allocated := true,
                   CFStringGetCString := none } } 30 (some (cstr "old"))).2.1 = some [] ∧
    (FormatDateTimeAsStr
        { CFDateCreate := false, CFDateFormatterCreate := true,
          CFDateFormatterCreateStringWithDate := none } 30 (some (cstr "old"))).2.1
      = some [] :=
  ⟨by decide,
   (C25_output_cleared_on_failure none (cstr "old")
      { CFDateCreate := true, CFDateFormatterCreate := true,
        CFDateFormatterCreateStringWithDate :=
          some { CFStringGetCStringPtr := none, CFStringGetLength := 3,
                 CFStringGetMaximumSizeForEncoding := 9, allocated := true,
                 CFStringGetCString := none } } 30).2.2.2 (by decide),
   (C25_output_cleared_on_failure none (cstr "old")
      { CFDateCreate := false, CFDateFormatterCreate := true,
        CFDateFormatterCreateStringWithDate := none } 30).2.2.2 (by decide)⟩

/-! ## The decoder and the callback as the code has them -/

/-- The callback is its step applied to the decoded port name. -/
theorem callback_eq_step (st : CallbackState) (pPortName : Option CStr) :
    callback_RebootShutdownLogout st pPortName
      = callbackStep st (get_CURRENT_REBOOT_SHUTDOWN_STATE_by_port_name pPortName) := rfl

/-- The function `tolower` answers 0 for the NUL byte only. -/
theorem tolower_eq_zero (c : Nat) : tolower c = 0 ↔ c = 0 := by
  unfold tolower
  split_ifs with h
  · constructor
    · intro h0; exact h0.elim
    · intro h0; omega
  · exact Iff.rfl

/-- The function `strcasecmp` answers 0 exactly when the texts of the two strings
are equal ignoring case. -/
theorem strcasecmp_eq_zero_iff (a b : CStr) :
    strcasecmp a b = 0 ↔ equalIgnoringCase (strContents a) (strContents b) := by
  unfold equalIgnoringCase
  induction a generalizing b with
  | nil =>
    cases b with
    | nil => simp [strcasecmp, strContents]
    | cons y ys =>
      have := tolower_eq_zero y
      by_cases hy : y = 0
      · simp [strcasecmp, strContents, hy, tolower]
      · have h2 : tolower y ≠ 0 := fun h => hy (this.1 h)
        simp [strcasecmp, strContents, hy]
        omega
  | cons x xs ih =>
    cases b with
    | nil =>
      have := tolower_eq_zero x
      by_cases hx : x = 0
      · simp [strcasecmp, strContents, hx, tolower]
      · have h2 : tolower x ≠ 0 := fun h => hx (this.1 h)
        simp [strcasecmp, strContents, hx]
        omega
    | cons y ys =>
      have tx := tolower_eq_zero x
      have ty := tolower_eq_zero y
      simp only [strcasecmp, strContents]
      by_cases hxy : tolower x = tolower y
      · by_cases hx : x = 0
        · have hy : y = 0 := ty.1 (by rw [← hxy]; exact tx.2 hx)
          simp [hx, hy]
        · have hy : y ≠ 0 := fun h => hx (tx.1 (by rw [hxy]; exact ty.2 h))
          simp [hxy, hx, hy, ih ys]
      · have hne : (tolower x : Int) - (tolower y : Int) ≠ 0 := by omega
        simp only [hxy, if_false, hne, false_iff]
        by_cases hx : x = 0
        · have hy : y ≠ 0 := fun h => hxy (by rw [tx.2 hx, ty.2 h])
          simp [hx, hy]
        · by_cases hy : y = 0
          · simp [hx, hy]
          · simp [hx, hy, hxy]

/-- On a name with text the decoder answers `CRS_STATE_RestartUIShown` when the
name equals `kLWShutdownInitiated` ignoring case and
`CRS_STATE_ShutdownUIShown` when it does not. -/
theorem decoder_on_text (name : CStr) (h : hasText (some name) = true) :
    get_CURRENT_REBOOT_SHUTDOWN_STATE_by_port_name (some name) =
      if equalIgnoringCase kLWShutdownInitiated (strContents name) then CRS_STATE_RestartUIShown
      else CRS_STATE_ShutdownUIShown := by
  have hk0 : strContents kLWShutdownInitiated = kLWShutdownInitiated := by decide
  have hk1 : strContents kLWRestartInitiated = kLWRestartInitiated := by decide
  have h0 := strcasecmp_eq_zero_iff kLWShutdownInitiated name
  have h1 := strcasecmp_eq_zero_iff kLWRestartInitiated name
  rw [hk0] at h0
  rw [hk1] at h1
  simp only [get_CURRENT_REBOOT_SHUTDOWN_STATE_by_port_name, h, if_true, gkNotifNames,
    stateLoop]
  by_cases c0 : equalIgnoringCase kLWShutdownInitiated (strContents name)
  · have c1 : ¬ equalIgnoringCase kLWRestartInitiated (strContents name) := by
      intro c1
      unfold equalIgnoringCase at c0 c1
      have : kLWShutdownInitiated.map tolower = kLWRestartInitiated.map tolower := by
        rw [c0, c1]
      exact absurd this (by decide)
    have e0 : strcasecmp kLWShutdownInitiated name = 0 := h0.2 c0
    have e1 : strcasecmp kLWRestartInitiated name ≠ 0 := fun e => c1 (h1.1 e)
    simp [c0, e0, e1]
  · have e0 : strcasecmp kLWShutdownInitiated name ≠ 0 := fun e => c0 (h0.1 e)
    simp [c0, e0]

/-- Without text the decoder answers `CRS_STATE_Unknown`. -/
theorem decoder_without_text (p : Option CStr) (h : hasText p = false) :
    get_CURRENT_REBOOT_SHUTDOWN_STATE_by_port_name p = CRS_STATE_Unknown := by
  cases p with
  | none => rfl
  | some name => simp [get_CURRENT_REBOOT_SHUTDOWN_STATE_by_port_name, h]

/-- The decoder only ever answers Unknown, ShutdownUIShown or RestartUIShown. -/
theorem decoder_range (p : Option CStr) :
    get_CURRENT_REBOOT_SHUTDOWN_STATE_by_port_name p = CRS_STATE_Unknown ∨
    get_CURRENT_REBOOT_SHUTDOWN_STATE_by_port_name p = CRS_STATE_ShutdownUIShown ∨
    get_CURRENT_REBOOT_SHUTDOWN_STATE_by_port_name p = CRS_STATE_RestartUIShown := by
  cases h : hasText p with
  | false => exact Or.inl (decoder_without_text p h)
  | true =>
    cases p with
    | none => exact absurd h (by decide)
    | some name =>
      rw [decoder_on_text name h]
      split_ifs
      · exact Or.inr (Or.inr rfl)
      · exact Or.inr (Or.inl rfl)

/-- A step on a decoded state other than Cancelled and PointOfNoReturn remembers it. -/
theorem callbackStep_other (st : CallbackState) (s : CURRENT_REBOOT_SHUTDOWN_STATE)
    (h1 : s ≠ CRS_STATE_Cancelled) (h2 : s ≠ CRS_STATE_PointOfNoReturn) :
    callbackStep st s = some ⟨(), { st with prev_state := s }, []⟩ := by
  simp [callbackStep, h1, h2]

/-- The callback on any port name remembers the decoded state and does nothing else. -/
theorem callback_remembers (st : CallbackState) (p : Option CStr) :
    callback_RebootShutdownLogout st p
      = some ⟨(), { st with
          prev_state := get_CURRENT_REBOOT_SHUTDOWN_STATE_by_port_name p }, []⟩ := by
  rw [callback_eq_step]
  apply callbackStep_other
  · rcases decoder_range p with h | h | h <;> rw [h] <;> decide
  · rcases decoder_range p with h | h | h <;> rw [h] <;> decide

/-- Delivering any sequence of port names leaves the stored transition state as it was
and reaches no assertion. -/
theorem deliver_keeps (ns : List (Option CStr)) :
    ∀ st : CallbackState, ∃ s, deliver st ns = some ⟨(), { st with prev_state := s }, []⟩ := by
  induction ns with
  | nil => intro st; exact ⟨st.prev_state, rfl⟩
  | cons n ns ih =>
    intro st
    obtain ⟨s, hs⟩ := ih { st with prev_state := get_CURRENT_REBOOT_SHUTDOWN_STATE_by_port_name n }
    refine ⟨s, ?_⟩
    simp only [deliver, callback_remembers, hs, List.append_nil]

/-! ## The entry point -/

/-- On adapters whose locks are free and names with text, the registration loop
of `main` runs to its end, registers one adapter per name in the order of the
table, and leaves the locks free. -/
theorem registerLoop_spec (env : MainEnv) :
    ∀ (names : List (CStr × CURRENT_REBOOT_SHUTDOWN_STATE)) (as : List Notif_RebootShutdown)
      (n : Nat), (∀ a ∈ as, a._lock.isFree) → (∀ e ∈ names, hasText (some e.1) = true) →
      names.length = as.length →
      ∃ o, registerLoop env n names as = some o ∧ (∀ a ∈ o.self, a._lock.isFree) ∧
        o.self.length = as.length ∧
        o.ret = (names.enumFrom n).map (fun p => MainOp.init_Notifications p.1 p.2.1) := by
  intro names
  induction names with
  | nil =>
    intro as n _ _ hlen
    cases as with
    | nil => exact ⟨_, rfl, by simp, rfl, rfl⟩
    | cons a rest => simp at hlen
  | cons e names ih =>
    intro as n hfree htext hlen
    cases as with
    | nil => simp at hlen
    | cons a rest =>
      have ha : a._lock.isFree := hfree a (List.mem_cons_self _ _)
      have he : hasText (some e.1) = true := htext e (List.mem_cons_self _ _)
      obtain ⟨o, ho, hof, hol, hor⟩ := ih rest (n + 1)
        (fun x hx => hfree x (List.mem_cons_of_mem _ hx))
        (fun x hx => htext x (List.mem_cons_of_mem _ hx))
        (by simpa using hlen)
      simp only [registerLoop,
        Notif_RebootShutdown.init_Notifications_free a _ e.1 _ 0 0 ha he,
        ho, Option.bind_eq_bind, Option.some_bind, Option.pure_def]
      refine ⟨_, rfl, ?_, ?_, ?_⟩
      · intro x hx
        simp only [List.mem_cons] at hx
        rcases hx with hx | hx
        · rw [hx]; exact ha
        · exact hof x hx
      · simp [hol]
      · simp [hor, List.enumFrom_cons]

/-- On adapters whose locks are free the unregistration loop of `main` runs to
its end and unregisters the adapters in the order of the array, each with the
flag it is given. -/
theorem unregisterLoop_spec (env : MainEnv) (b : Bool) :
    ∀ (as : List Notif_RebootShutdown) (n : Nat), (∀ a ∈ as, a._lock.isFree) →
      ∃ o, unregisterLoop env b n as = some o ∧
        o.ret = (List.range' n as.length).map (fun i => MainOp.remove_Notifications i b) := by
  intro as
  induction as with
  | nil => intro n _; exact ⟨_, rfl, rfl⟩
  | cons a rest ih =>
    intro n hfree
    have ha : a._lock.isFree := hfree a (List.mem_cons_self _ _)
    obtain ⟨o, ho, hor⟩ := ih (n + 1) (fun x hx => hfree x (List.mem_cons_of_mem _ hx))
    simp only [unregisterLoop, Notif_RebootShutdown.remove_Notifications_free a _ b ha,
      ho, Option.bind_eq_bind, Option.some_bind, Option.pure_def]
    refine ⟨_, rfl, ?_⟩
    simp [hor, List.range'_succ]


/-- Every run of `main` from the initial globals returns; it performs the five
registrations in table order, the sleep/wake registration, the run loop, the
five unregistrations in table order with `bRebooting` false, and the
sleep/wake unregistration; and it leaves `g_RebootShutdownState` at
`macOS_State_Default`. -/
theorem main_runs (env : MainEnv) :
    ∃ r, main env {} = some r ∧ r.ret = 0 ∧ r.bRebooting = false ∧
      r.globals.callback.g_RebootShutdownState = { _var := macOS_State_Default } ∧
      r.ops =
        [ MainOp.init_Notifications 0 kLWShutdownInitiated,
          MainOp.init_Notifications 1 kLWRestartInitiated,
          MainOp.init_Notifications 2 kLWLogoutInitiated,
          MainOp.init_Notifications 3 kLWLogoutCancelled,
          MainOp.init_Notifications 4 kLWPointOfNoReturn,
          MainOp.init_SleepWakeNotifications,
          MainOp.CFRunLoopRun,
          MainOp.remove_Notifications 0 false,
          MainOp.remove_Notifications 1 false,
          MainOp.remove_Notifications 2 false,
          MainOp.remove_Notifications 3 false,
          MainOp.remove_Notifications 4 false,
          MainOp.remove_SleepWakeNotifications ] := by
  obtain ⟨reg, hreg, hfree, hlen, hops⟩ := registerLoop_spec env gkNotifNames
    (List.replicate gkNotifNames.length {}) 0
    (by intro a ha; rw [List.eq_of_mem_replicate ha]; decide) (by decide) (by decide)
  obtain ⟨s, hs⟩ := deliver_keeps env.delivered ({} : CallbackState)
  obtain ⟨unreg, hunreg, huops⟩ := unregisterLoop_spec env false reg.self 0 hfree
  have hsw := Notif_SleepWake.init_SleepWakeNotifications_free {} env.powerOS env.pfnSleepWake
    0 0 (by decide)
  have hget := SYNCHED_DATA.get_shared
    ({ _var := macOS_State_Default } : SYNCHED_DATA REBOOT_SHUTDOWN_STATE)
    macOS_State_Default rfl
  have husw := Notif_SleepWake.remove_SleepWakeNotifications_free
    { (Notif_SleepWake.init_locked { ({} : Notif_SleepWake) with _lock := ⟨0, true⟩ } env.powerOS
        env.pfnSleepWake 0 0).self with _lock := ({} : Notif_SleepWake)._lock }
    env.powerOS ⟨rfl, rfl⟩
  simp only [main, hreg, hsw, hs, hget, Option.bind_eq_bind, Option.some_bind,
    Option.getD_some]
  simp only [show (decide (macOS_State_Default = macOS_State_Rebooting) ||
    decide (macOS_State_Default = macOS_State_Shutting_Down)) = false from by decide,
    hunreg, husw, Option.some_bind, Option.pure_def]
  refine ⟨_, rfl, rfl, rfl, rfl, ?_⟩
  simp only [hops, huops, hlen]
  rfl

/-! ## The order of teardown, the decoded state machine and the decoder -/

/-- The loop of the decoder returns the state of the first entry whose name
differs from the argument ignoring case. -/
theorem stateLoop_first_differing (name : CStr)
    (tbl : List (CStr × CURRENT_REBOOT_SHUTDOWN_STATE)) :
    stateLoop name tbl =
      match tbl.find?
          (fun e => decide (¬ equalIgnoringCase (strContents e.1) (strContents name))) with
      | some e => e.2
      | none => CRS_STATE_Unknown := by
  induction tbl with
  | nil => rfl
  | cons e rest ih =>
    have h := strcasecmp_eq_zero_iff e.1 name
    by_cases c : equalIgnoringCase (strContents e.1) (strContents name)
    · have e0 : strcasecmp e.1 name = 0 := h.2 c
      simp [stateLoop, List.find?_cons, c, e0, ih]
    · have e0 : strcasecmp e.1 name ≠ 0 := fun e1 => c (h.1 e1)
      simp [stateLoop, List.find?_cons, c, e0]

/-- C26 (counterexample): on a run of `main` in which every call succeeds, the
operations are the five registrations in table order, the sleep/wake
registration, the run loop, the five unregistrations in table order and the
sleep/wake unregistration last; the adapters unregistered, in order, are not
the reverse of the adapters registered. -/
theorem C26_teardown_order_counterexample :
    (main sampleMainEnv {}).map (fun r => r.ops) =
      some [ MainOp.init_Notifications 0 kLWShutdownInitiated,
             MainOp.init_Notifications 1 kLWRestartInitiated,
             MainOp.init_Notifications 2 kLWLogoutInitiated,
             MainOp.init_Notifications 3 kLWLogoutCancelled,
             MainOp.init_Notifications 4 kLWPointOfNoReturn,
             MainOp.init_SleepWakeNotifications,
             MainOp.CFRunLoopRun,
             MainOp.remove_Notifications 0 false,
             MainOp.remove_Notifications 1 false,
             MainOp.remove_Notifications 2 false,
             MainOp.remove_Notifications 3 false,
             MainOp.remove_Notifications 4 false,
             MainOp.remove_SleepWakeNotifications ] ∧
    (main sampleMainEnv {}).map (fun r => unregistered r.ops) =
      some [ Adapter.g_Ntfs 0, Adapter.g_Ntfs 1, Adapter.g_Ntfs 2, Adapter.g_Ntfs 3,
             Adapter.g_Ntfs 4, Adapter.g_NtfSleepWake ] ∧
    (main sampleMainEnv {}).map (fun r => (registered r.ops).reverse) =
      some [ Adapter.g_NtfSleepWake, Adapter.g_Ntfs 4, Adapter.g_Ntfs 3, Adapter.g_Ntfs 2,
             Adapter.g_Ntfs 1, Adapter.g_Ntfs 0 ] := by
  decide

/-- C26 (amended): every run of `main` from the initial globals returns, and
after the run loop it unregisters the adapters in the same order in which it
registered them before the run loop: the five reboot/shutdown/logout adapters
from the first `gkNotifNames` entry to the last, then the sleep/wake adapter. -/
theorem C26_teardown_in_registration_order (env : MainEnv) :
    ∃ r pre post, main env {} = some r ∧
      r.ops = pre ++ [MainOp.CFRunLoopRun] ++ post ∧
      unregistered pre = [] ∧ registered post = [] ∧
      registered pre =
        [ Adapter.g_Ntfs 0, Adapter.g_Ntfs 1, Adapter.g_Ntfs 2, Adapter.g_Ntfs 3,
          Adapter.g_Ntfs 4, Adapter.g_NtfSleepWake ] ∧
      unregistered post = registered pre ∧
      pre.map (fun o => match o with
        | MainOp.init_Notifications n name => some (n, name)
        | _ => none) =
          [ some (0, kLWShutdownInitiated), some (1, kLWRestartInitiated),
            some (2, kLWLogoutInitiated), some (3, kLWLogoutCancelled),
            some (4, kLWPointOfNoReturn), none ] := by
  obtain ⟨r, hr, _, _, _, hops⟩ := main_runs env
  exact ⟨r,
    [ MainOp.init_Notifications 0 kLWShutdownInitiated,
      MainOp.init_Notifications 1 kLWRestartInitiated,
      MainOp.init_Notifications 2 kLWLogoutInitiated,
      MainOp.init_Notifications 3 kLWLogoutCancelled,
      MainOp.init_Notifications 4 kLWPointOfNoReturn,
      MainOp.init_SleepWakeNotifications ],
    [ MainOp.remove_Notifications 0 false,
      MainOp.remove_Notifications 1 false,
      MainOp.remove_Notifications 2 false,
      MainOp.remove_Notifications 3 false,
      MainOp.remove_Notifications 4 false,
      MainOp.remove_SleepWakeNotifications ],
    hr, hops, rfl, rfl, rfl, rfl, rfl⟩

/-- C27: with the lock of `g_RebootShutdownState` free, the step of
`callback_RebootShutdownLogout` on the decoded state (the callback is this
step applied to the decoder's answer) does the following.  A PointOfNoReturn
step with remembered state ShutdownUIShown, RestartUIShown or LogoutUIShown
stores `macOS_State_Shutting_Down`, `macOS_State_Rebooting` or
`macOS_State_Logging_Out` respectively and resets the remembered state to
Unknown; a Cancelled step resets the remembered state to Unknown and leaves
the stored transition state unchanged; a step on any other decoded state
remembers it and leaves the stored transition state unchanged. -/
theorem C27_decoded_state_machine (st : CallbackState)
    (hl : st.g_RebootShutdownState._lock.isFree) :
    (∀ p, callback_RebootShutdownLogout st p
        = callbackStep st (get_CURRENT_REBOOT_SHUTDOWN_STATE_by_port_name p)) ∧
    (st.prev_state = CRS_STATE_ShutdownUIShown →
      callbackStep st CRS_STATE_PointOfNoReturn =
        some ⟨(), { prev_state := CRS_STATE_Unknown,
                    g_RebootShutdownState :=
                      { st.g_RebootShutdownState with _var := macOS_State_Shutting_Down } },
              []⟩) ∧
    (st.prev_state = CRS_STATE_RestartUIShown →
      callbackStep st CRS_STATE_PointOfNoReturn =
        some ⟨(), { prev_state := CRS_STATE_Unknown,
                    g_RebootShutdownState :=
                      { st.g_RebootShutdownState with _var := macOS_State_Rebooting } },
              []⟩) ∧
    (st.prev_state = CRS_STATE_LogoutUIShown →
      callbackStep st CRS_STATE_PointOfNoReturn =
        some ⟨(), { prev_state := CRS_STATE_Unknown,
                    g_RebootShutdownState :=
                      { st.g_RebootShutdownState with _var := macOS_State_Logging_Out } },
              []⟩) ∧
    callbackStep st CRS_STATE_Cancelled =
      some ⟨(), { prev_state := CRS_STATE_Unknown,
                  g_RebootShutdownState := st.g_RebootShutdownState }, []⟩ ∧
    (∀ s, s ≠ CRS_STATE_Cancelled → s ≠ CRS_STATE_PointOfNoReturn →
      callbackStep st s =
        some ⟨(), { prev_state := s, g_RebootShutdownState := st.g_RebootShutdownState },
              []⟩) := by
  refine ⟨fun p => callback_eq_step st p, ?_, ?_, ?_, rfl, ?_⟩
  · intro h
    simp [callbackStep, h, SYNCHED_DATA.set_free _ _ hl]
  · intro h
    simp [callbackStep, h, SYNCHED_DATA.set_free _ _ hl]
  · intro h
    simp [callbackStep, h, SYNCHED_DATA.set_free _ _ hl]
  · intro s h1 h2
    exact callbackStep_other st s h1 h2

/-- C27 (witness): the statement at the state that remembers RestartUIShown with
`macOS_State_Default` stored. -/
theorem C27_decoded_state_machine_witness :
    callbackStep { prev_state := CRS_STATE_RestartUIShown } CRS_STATE_PointOfNoReturn =
      some ⟨(), { prev_state := CRS_STATE_Unknown,
                  g_RebootShutdownState := { _var := macOS_State_Rebooting } }, []⟩ ∧
    callbackStep { prev_state := CRS_STATE_RestartUIShown } CRS_STATE_Cancelled =
      some ⟨(), { prev_state := CRS_STATE_Unknown,
                  g_RebootShutdownState := { _var := macOS_State_Default } }, []⟩ ∧
    callbackStep { prev_state := CRS_STATE_RestartUIShown } CRS_STATE_LogoutUIShown =
      some ⟨(), { prev_state := CRS_STATE_LogoutUIShown,
                  g_RebootShutdownState := { _var := macOS_State_Default } }, []⟩ :=
  have h := C27_decoded_state_machine { prev_state := CRS_STATE_RestartUIShown } (by decide)
  ⟨h.2.2.1 rfl, h.2.2.2.2.1, h.2.2.2.2.2 CRS_STATE_LogoutUIShown (by decide) (by decide)⟩

/-- C28: `get_CURRENT_REBOOT_SHUTDOWN_STATE_by_port_name` treats a nonzero
`strcasecmp` result as a match.  For a name with text it returns the state of
the first `gkNotifNames` entry whose name differs from the argument ignoring
case, which is `CRS_STATE_RestartUIShown` when the argument equals
`com.apple.system.loginwindow.shutdownInitiated` ignoring case and
`CRS_STATE_ShutdownUIShown` for every other name with text; it never returns
LogoutUIShown, Cancelled or PointOfNoReturn, and it returns Unknown exactly
for a null or empty name. -/
theorem C28_decoder_takes_first_differing_name (pPortName : Option CStr) :
    get_CURRENT_REBOOT_SHUTDOWN_STATE_by_port_name pPortName =
      (if hasText pPortName = true then
        match gkNotifNames.find? (fun e => decide (¬ equalIgnoringCase (strContents e.1)
                (strContents (pPortName.getD [])))) with
        | some e => e.2
        | none => CRS_STATE_Unknown
      else CRS_STATE_Unknown) ∧
    get_CURRENT_REBOOT_SHUTDOWN_STATE_by_port_name pPortName =
      (if hasText pPortName = true then
        if equalIgnoringCase kLWShutdownInitiated (strContents (pPortName.getD [])) then
          CRS_STATE_RestartUIShown
        else CRS_STATE_ShutdownUIShown
      else CRS_STATE_Unknown) ∧
    get_CURRENT_REBOOT_SHUTDOWN_STATE_by_port_name pPortName ≠ CRS_STATE_LogoutUIShown ∧
    get_CURRENT_REBOOT_SHUTDOWN_STATE_by_port_name pPortName ≠ CRS_STATE_Cancelled ∧
    get_CURRENT_REBOOT_SHUTDOWN_STATE_by_port_name pPortName ≠ CRS_STATE_PointOfNoReturn ∧
    (get_CURRENT_REBOOT_SHUTDOWN_STATE_by_port_name pPortName = CRS_STATE_Unknown ↔
      hasText pPortName = false) := by
  have hr := decoder_range pPortName
  cases h : hasText pPortName with
  | false =>
    have hu := decoder_without_text pPortName h
    simp [hu]
  | true =>
    cases pPortName with
    | none => exact absurd h (by decide)
    | some name =>
      have ht := decoder_on_text name h
      refine ⟨?_, ?_, ?_, ?_, ?_, ?_⟩
      · simp only [get_CURRENT_REBOOT_SHUTDOWN_STATE_by_port_name, h, if_true,
          stateLoop_first_differing, Option.getD_some]
      · simpa using ht
      · rw [ht]; split_ifs <;> decide
      · rw [ht]; split_ifs <;> decide
      · rw [ht]; split_ifs <;> decide
      · rw [ht]; split_ifs <;> decide

/-- C29: from the initial state, after any finite sequence of port names (null,
empty or arbitrary) is delivered to `callback_RebootShutdownLogout`, the
delivery has returned, `g_RebootShutdownState` still holds
`macOS_State_Default`, and no assertion was reached; and every run of `main`
from the initial globals returns having computed `bRebooting` false, passing
false to every `remove_Notifications`. -/
theorem C29_state_stays_default (names : List (Option CStr)) (env : MainEnv) :
    (∃ s, deliver CallbackState.initial names =
      some ⟨(), { prev_state := s, g_RebootShutdownState := { _var := macOS_State_Default } },
            []⟩) ∧
    (∃ r, main env {} = some r ∧ r.bRebooting = false ∧
      r.globals.callback.g_RebootShutdownState = { _var := macOS_State_Default } ∧
      ∀ n b, MainOp.remove_Notifications n b ∈ r.ops → b = false) := by
  constructor
  · exact deliver_keeps names CallbackState.initial
  · obtain ⟨r, hr, _, hb, hg, hops⟩ := main_runs env
    refine ⟨r, hr, hb, hg, ?_⟩
    intro n b hmem
    rw [hops] at hmem
    simp at hmem
    rcases hmem with h | h | h | h | h <;> exact h.2

/-- C30: with the lock of `g_RebootShutdownState` free, after a step of the
callback on any decoded state the remembered state is neither Cancelled nor
PointOfNoReturn; a PointOfNoReturn step whose remembered state is none of the
three UI-shown states reaches the `assert(false)` of line 293 and, the
assertion being disabled, stores `macOS_State_Default`; and a second
PointOfNoReturn step right after a first one reaches that assertion and
stores `macOS_State_Default`, whatever the first one stored. -/
theorem C30_point_of_no_return_without_ui (st : CallbackState)
    (hl : st.g_RebootShutdownState._lock.isFree) :
    (∀ s, ∃ r, callbackStep st s = some r ∧
      r.self.prev_state ≠ CRS_STATE_Cancelled ∧
      r.self.prev_state ≠ CRS_STATE_PointOfNoReturn) ∧
    (st.prev_state ≠ CRS_STATE_ShutdownUIShown → st.prev_state ≠ CRS_STATE_RestartUIShown →
      st.prev_state ≠ CRS_STATE_LogoutUIShown →
      callbackStep st CRS_STATE_PointOfNoReturn =
        some ⟨(), { prev_state := CRS_STATE_Unknown,
                    g_RebootShutdownState :=
                      { st.g_RebootShutdownState with _var := macOS_State_Default } },
              [Event.assertFailed 293]⟩) ∧
    ((callbackStep st CRS_STATE_PointOfNoReturn).bind
        (fun r => callbackStep r.self CRS_STATE_PointOfNoReturn) =
      some ⟨(), { prev_state := CRS_STATE_Unknown,
                  g_RebootShutdownState :=
                    { st.g_RebootShutdownState with _var := macOS_State_Default } },
            [Event.assertFailed 293]⟩) := by
  have hstep : ∀ (t : CallbackState), t.g_RebootShutdownState._lock.isFree →
      ∃ v ev, callbackStep t CRS_STATE_PointOfNoReturn =
        some ⟨(), { prev_state := CRS_STATE_Unknown,
                    g_RebootShutdownState := { t.g_RebootShutdownState with _var := v } },
              ev⟩ := by
    intro t ht
    by_cases h1 : t.prev_state = CRS_STATE_ShutdownUIShown
    · exact ⟨_, _, by simp [callbackStep, h1, SYNCHED_DATA.set_free _ _ ht]; exact ⟨rfl, rfl⟩⟩
    · by_cases h2 : t.prev_state = CRS_STATE_RestartUIShown
      · exact ⟨_, _, by simp [callbackStep, h2, SYNCHED_DATA.set_free _ _ ht]; exact ⟨rfl, rfl⟩⟩
      · by_cases h3 : t.prev_state = CRS_STATE_LogoutUIShown
        · exact ⟨_, _, by simp [callbackStep, h3, SYNCHED_DATA.set_free _ _ ht]; exact ⟨rfl, rfl⟩⟩
        · exact ⟨_, _, by simp [callbackStep, h1, h2, h3, SYNCHED_DATA.set_free _ _ ht]; exact ⟨rfl, rfl⟩⟩
  have hnoui : ∀ (t : CallbackState), t.g_RebootShutdownState._lock.isFree →
      t.prev_state ≠ CRS_STATE_ShutdownUIShown → t.prev_state ≠ CRS_STATE_RestartUIShown →
      t.prev_state ≠ CRS_STATE_LogoutUIShown →
      callbackStep t CRS_STATE_PointOfNoReturn =
        some ⟨(), { prev_state := CRS_STATE_Unknown,
                    g_RebootShutdownState :=
                      { t.g_RebootShutdownState with _var := macOS_State_Default } },
              [Event.assertFailed 293]⟩ := by
    intro t ht h1 h2 h3
    simp [callbackStep, h1, h2, h3, SYNCHED_DATA.set_free _ _ ht]
  have u1 : CRS_STATE_Unknown ≠ CRS_STATE_Cancelled := by decide
  have u2 : CRS_STATE_Unknown ≠ CRS_STATE_PointOfNoReturn := by decide
  have u3 : CRS_STATE_Unknown ≠ CRS_STATE_ShutdownUIShown := by decide
  have u4 : CRS_STATE_Unknown ≠ CRS_STATE_RestartUIShown := by decide
  have u5 : CRS_STATE_Unknown ≠ CRS_STATE_LogoutUIShown := by decide
  refine ⟨?_, hnoui st hl, ?_⟩
  · intro s
    by_cases c1 : s = CRS_STATE_Cancelled
    · exact ⟨_, by rw [c1]; rfl, u1, u2⟩
    · by_cases c2 : s = CRS_STATE_PointOfNoReturn
      · obtain ⟨v, ev, h⟩ := hstep st hl
        rw [c2]
        exact ⟨_, h, u1, u2⟩
      · exact ⟨_, callbackStep_other st s c1 c2, c1, c2⟩
  · obtain ⟨v, ev, h⟩ := hstep st hl
    rw [h, Option.some_bind]
    exact hnoui _ hl u3 u4 u5

/-- C30 (witness): the statement at the state that remembers RestartUIShown:
the first PointOfNoReturn step stores `macOS_State_Rebooting`, the second
overwrites it with `macOS_State_Default`. -/
theorem C30_point_of_no_return_without_ui_witness :
    callbackStep { prev_state := CRS_STATE_RestartUIShown } CRS_STATE_PointOfNoReturn =
      some ⟨(), { prev_state := CRS_STATE_Unknown,
                  g_RebootShutdownState := { _var := macOS_State_Rebooting } }, []⟩ ∧
    ((callbackStep { prev_state := CRS_STATE_RestartUIShown } CRS_STATE_PointOfNoReturn).bind
        (fun r => callbackStep r.self CRS_STATE_PointOfNoReturn) =
      some ⟨(), { prev_state := CRS_STATE_Unknown,
                  g_RebootShutdownState := { _var := macOS_State_Default } },
            [Event.assertFailed 293]⟩) :=
  ⟨by decide,
   (C30_point_of_no_return_without_ui { prev_state := CRS_STATE_RestartUIShown }
      (by decide)).2.2⟩

end MacOSTips
